import Mathlib

/-!
# Alarm station controller (Task 5, main.cpp)

A shallow embedding of the control logic of `src/Task 5/main.cpp`:
sensor sampling and averaging, alarm activation, code entry on the matrix
keypad, the keypad scanning state machine and the bounded event log.

Conventions of the embedding:

* the global variables, the function-level statics of `alarmActivationUpdate`
  and the output pins form one record `State`; every C++ function becomes a
  function on `State` that takes what it reads from the outside world (analog
  readings, the test button, the keypad contacts, the clock) as arguments;
* `int` is `Int`; the counters and cursors stay far inside the 32-bit range,
  but `accumulatedTimeAlarm` grows for as long as the alarm is latched with no
  detector flag on, so its addition is reduced into the 32-bit two's
  complement range (`wrapInt`), which is what the target does on overflow;
  `float` is `ℚ` (exact arithmetic), `char` is `Char`, `time_t` is `Int`;
* an array is a total map from indices to elements; only the indices inside
  the declared bounds are meaningful;
* writes to the serial port (`uartUsb.write`) are output only and never read
  back by the control logic, they are not part of the state; `uartTask`, the
  interactive command shell, is outside the embedding.
-/

namespace Task5

/-! ## Constants -/

def NUMBER_OF_KEYS : Int := 4
def BLINKING_TIME_GAS_ALARM : Int := 1000
def BLINKING_TIME_OVER_TEMP_ALARM : Int := 500
def BLINKING_TIME_GAS_AND_OVER_TEMP_ALARM : Int := 100
def NUMBER_OF_AVG_SAMPLES : Int := 100
def OVER_TEMP_LEVEL : ℚ := 25
def GAS_DETECTION_THRESHOLD : ℚ := 4 / 10
def TIME_INCREMENT_MS : Int := 10
def DEBOUNCE_KEY_TIME_MS : Int := 40
def KEYPAD_NUMBER_OF_ROWS : Nat := 4
def KEYPAD_NUMBER_OF_COLS : Nat := 4
def EVENT_MAX_STORAGE : Int := 5
def EVENT_NAME_MAX_LENGTH : Nat := 14

/-- The character constant written backslash-zero in the source: "no key". -/
def NUL : Char := Char.ofNat 0

/-- Least value of the 32-bit `int` of the target. -/
def INT_MIN : Int := -2147483648

/-- Greatest value of the 32-bit `int` of the target. -/
def INT_MAX : Int := 2147483647

/-- The value an `int` variable holds after it is assigned the arithmetic
result `x`: `x` reduced modulo 2^32 into INT_MIN..INT_MAX. -/
def wrapInt (x : Int) : Int := (x + 2147483648) % 4294967296 - 2147483648

/-! ## Data model -/

/-- The three enumerators of `matrixKeypadState_t`; the `default:` branch of
`matrixKeypadUpdate` is unreachable for them. -/
inductive matrixKeypadState_t where
  | MATRIX_KEYPAD_SCANNING
  | MATRIX_KEYPAD_DEBOUNCE
  | MATRIX_KEYPAD_KEY_HOLD_PRESSED
  deriving DecidableEq

open matrixKeypadState_t

structure systemEvent_t where
  seconds : Int
  typeOfEvent : String
  deriving DecidableEq

/-- Array write `arr[i] = v`. -/
def upd {α : Type} (arr : Int → α) (i : Int) (v : α) : Int → α :=
  fun j => if j = i then v else arr j

/-- The contacts of the keypad as one scan sees them: `keys row col` is true
when column pin `col` reads OFF while row pin `row` is the one driven OFF. -/
abbrev Keys := Nat → Nat → Bool

/-- Globals of main.cpp, the statics of `alarmActivationUpdate` and the pins
the control logic drives. -/
structure State where
  -- output pins
  alarmLed : Bool
  incorrectCodeLed : Bool
  systemBlockedLed : Bool
  /-- Direction of `sirenPin`: true after `sirenPin.output()`, false after
  `sirenPin.input()`. -/
  sirenPinIsOutput : Bool
  /-- Last level written to `sirenPin`; LOW is false. -/
  sirenPinLevel : Bool
  -- globals
  alarmState : Bool
  overTempDetector : Bool
  numberOfIncorrectCodes : Int
  codeSequence : Int → Char
  keyPressed : Int → Char
  accumulatedTimeAlarm : Int
  alarmLastState : Bool
  gasLastState : Bool
  tempLastState : Bool
  gasDetectorState : Bool
  overTempDetectorState : Bool
  lm35ReadingsAverage : ℚ
  lm35ReadingsSum : ℚ
  lm35ReadingsArray : Int → ℚ
  lm35TempC : ℚ
  mq2ReadingsAverage : ℚ
  mq2ReadingsSum : ℚ
  mq2ReadingsArray : Int → ℚ
  accumulatedDebounceMatrixKeypadTime : Int
  matrixKeypadCodeIndex : Int
  matrixKeypadLastKeyPressed : Char
  matrixKeypadState : matrixKeypadState_t
  eventsIndex : Int
  arrayOfStoredEvents : Int → systemEvent_t
  -- statics of alarmActivationUpdate
  lm35SampleIndex : Int
  mq2SampleIndex : Int
  lastOverTempDetector : Bool
  lastGasDetectorState : Bool

def matrixKeypadIndexToCharArray : List Char :=
  ['1', '2', '3', 'A',
   '4', '5', '6', 'B',
   '7', '8', '9', 'C',
   '*', '0', '#', 'D']

/-- The state after the global initialisers, `inputsInit` and `outputsInit`. -/
def initialState : State where
  alarmLed := false
  incorrectCodeLed := false
  systemBlockedLed := false
  sirenPinIsOutput := false
  sirenPinLevel := false
  alarmState := false
  overTempDetector := false
  numberOfIncorrectCodes := 0
  codeSequence := upd (upd (upd (upd (fun _ => NUL) 0 '1') 1 '8') 2 '0') 3 '5'
  keyPressed := fun _ => '0'
  accumulatedTimeAlarm := 0
  alarmLastState := false
  gasLastState := false
  tempLastState := false
  gasDetectorState := false
  overTempDetectorState := false
  lm35ReadingsAverage := 0
  lm35ReadingsSum := 0
  lm35ReadingsArray := fun _ => 0
  lm35TempC := 0
  mq2ReadingsAverage := 0
  mq2ReadingsSum := 0
  mq2ReadingsArray := fun _ => 0
  accumulatedDebounceMatrixKeypadTime := 0
  matrixKeypadCodeIndex := 0
  matrixKeypadLastKeyPressed := NUL
  matrixKeypadState := MATRIX_KEYPAD_SCANNING
  eventsIndex := 0
  arrayOfStoredEvents := fun _ => ⟨0, ""⟩
  lm35SampleIndex := 0
  mq2SampleIndex := 0
  lastOverTempDetector := false
  lastGasDetectorState := false

/-! ## Sampling and alarm activation -/

def analogReadingScaledWithTheLM35Formula (analogReading : ℚ) : ℚ :=
  analogReading * (33 / 10) / (1 / 100)

/-- The summing loop `for (i = 0; i < NUMBER_OF_AVG_SAMPLES; i++) sum += arr[i]`
started from `sum = 0.0`. -/
def readingsSum (arr : Int → ℚ) : ℚ :=
  (List.range NUMBER_OF_AVG_SAMPLES.toNat).foldl (fun sum (i : Nat) => sum + arr (i : Int)) 0

/-- Section "LM35 Temperature Sensor" of `alarmActivationUpdate` (lines 146-164). -/
def lm35Update (lm35Read : ℚ) (s : State) : State :=
  let s := { s with lm35ReadingsArray := upd s.lm35ReadingsArray s.lm35SampleIndex lm35Read }
  let s := { s with lm35SampleIndex := s.lm35SampleIndex + 1 }
  let s := if s.lm35SampleIndex ≥ NUMBER_OF_AVG_SAMPLES then { s with lm35SampleIndex := 0 } else s
  let s := { s with lm35ReadingsSum := readingsSum s.lm35ReadingsArray }
  let s := { s with lm35ReadingsAverage := s.lm35ReadingsSum / NUMBER_OF_AVG_SAMPLES }
  let s := { s with lm35TempC := analogReadingScaledWithTheLM35Formula s.lm35ReadingsAverage }
  if s.lm35TempC > OVER_TEMP_LEVEL then
    { s with overTempDetector := true }
  else
    { s with overTempDetector := false }

/-- Section "MQ2 Gas Sensor" of `alarmActivationUpdate` (lines 166-177). -/
def mq2Update (mq2Read : ℚ) (s : State) : State :=
  let s := { s with mq2ReadingsArray := upd s.mq2ReadingsArray s.mq2SampleIndex mq2Read }
  let s := { s with mq2SampleIndex := s.mq2SampleIndex + 1 }
  let s := if s.mq2SampleIndex ≥ NUMBER_OF_AVG_SAMPLES then { s with mq2SampleIndex := 0 } else s
  let s := { s with mq2ReadingsSum := readingsSum s.mq2ReadingsArray }
  { s with mq2ReadingsAverage := s.mq2ReadingsSum / NUMBER_OF_AVG_SAMPLES }

/-- Section "Gas Detection" of `alarmActivationUpdate` (lines 179-194). -/
def gasDetectionUpdate (s : State) : State :=
  let s :=
    if s.mq2ReadingsAverage > GAS_DETECTION_THRESHOLD then
      let s := { s with gasDetectorState := true }
      if !s.alarmLastState then { s with alarmState := true } else s
    else
      { s with gasDetectorState := false }
  { s with lastGasDetectorState := s.gasDetectorState }

/-- Section "Over-Temperature Detection" of `alarmActivationUpdate`
(lines 196-208). -/
def overTempDetectionUpdate (s : State) : State :=
  let s :=
    if s.overTempDetector then
      { s with overTempDetectorState := true }
    else
      { s with overTempDetectorState := false }
  { s with lastOverTempDetector := s.overTempDetector }

/-- Section "Test Button" of `alarmActivationUpdate` (lines 210-235). -/
def testButtonUpdate (alarmTestButton : Bool) (s : State) : State :=
  if alarmTestButton then
    let s := { s with overTempDetectorState := true }
    let s := { s with gasDetectorState := true }
    let s := if !s.alarmLastState then { s with alarmState := true } else s
    let s := { s with lastGasDetectorState := true }
    { s with lastOverTempDetector := true }
  else s

/-- Section "Alarm State Handling" of `alarmActivationUpdate` (lines 237-266).
The statement `accumulatedTimeAlarm += TIME_INCREMENT_MS` stores the sum in an
`int`, hence `wrapInt`. -/
def alarmStateHandling (s : State) : State :=
  if s.alarmState then
    let s := { s with
      accumulatedTimeAlarm := wrapInt (s.accumulatedTimeAlarm + TIME_INCREMENT_MS) }
    let s := { s with sirenPinIsOutput := true }
    let s := { s with sirenPinLevel := false }
    if s.gasDetectorState && s.overTempDetectorState then
      if s.accumulatedTimeAlarm ≥ BLINKING_TIME_GAS_AND_OVER_TEMP_ALARM then
        let s := { s with accumulatedTimeAlarm := 0 }
        { s with alarmLed := !s.alarmLed }
      else s
    else if s.gasDetectorState then
      if s.accumulatedTimeAlarm ≥ BLINKING_TIME_GAS_ALARM then
        let s := { s with accumulatedTimeAlarm := 0 }
        { s with alarmLed := !s.alarmLed }
      else s
    else if s.overTempDetectorState then
      if s.accumulatedTimeAlarm ≥ BLINKING_TIME_OVER_TEMP_ALARM then
        let s := { s with accumulatedTimeAlarm := 0 }
        { s with alarmLed := !s.alarmLed }
      else s
    else s
  else
    let s := { s with alarmLed := false }
    let s := { s with gasDetectorState := false }
    let s := { s with overTempDetectorState := false }
    let s := { s with sirenPinIsOutput := false }
    let s := { s with lastGasDetectorState := false }
    { s with lastOverTempDetector := false }

/-- The function `alarmActivationUpdate`: its six sections in source order.
The arguments are what `lm35.read()`, `mq2.read()` and `alarmTestButton`
return on this call. -/
def alarmActivationUpdate (lm35Read mq2Read : ℚ) (alarmTestButton : Bool) (s : State) : State :=
  alarmStateHandling
    (testButtonUpdate alarmTestButton
      (overTempDetectionUpdate
        (gasDetectionUpdate
          (mq2Update mq2Read
            (lm35Update lm35Read s)))))

/-! ## Matrix keypad -/

/-- The function `matrixKeypadScan`: rows in order, columns in order inside a
row, the first closed contact decides. -/
def matrixKeypadScan (keys : Keys) : Char :=
  ((List.range KEYPAD_NUMBER_OF_ROWS).findSome? fun row =>
    (List.range KEYPAD_NUMBER_OF_COLS).findSome? fun col =>
      if keys row col then
        some (matrixKeypadIndexToCharArray.getD (row * KEYPAD_NUMBER_OF_ROWS + col) NUL)
      else none).getD NUL

/-- The function `matrixKeypadUpdate`: returns `keyReleased` and the new state. -/
def matrixKeypadUpdate (keys : Keys) (s : State) : Char × State :=
  match s.matrixKeypadState with
  | MATRIX_KEYPAD_SCANNING =>
    let keyDetected := matrixKeypadScan keys
    if keyDetected ≠ NUL then
      (NUL, { s with matrixKeypadLastKeyPressed := keyDetected,
                     accumulatedDebounceMatrixKeypadTime := 0,
                     matrixKeypadState := MATRIX_KEYPAD_DEBOUNCE })
    else (NUL, s)
  | MATRIX_KEYPAD_DEBOUNCE =>
    let s :=
      if s.accumulatedDebounceMatrixKeypadTime ≥ DEBOUNCE_KEY_TIME_MS then
        let keyDetected := matrixKeypadScan keys
        if keyDetected = s.matrixKeypadLastKeyPressed then
          { s with matrixKeypadState := MATRIX_KEYPAD_KEY_HOLD_PRESSED }
        else
          { s with matrixKeypadState := MATRIX_KEYPAD_SCANNING }
      else s
    (NUL, { s with accumulatedDebounceMatrixKeypadTime :=
                     s.accumulatedDebounceMatrixKeypadTime + TIME_INCREMENT_MS })
  | MATRIX_KEYPAD_KEY_HOLD_PRESSED =>
    let keyDetected := matrixKeypadScan keys
    if keyDetected ≠ s.matrixKeypadLastKeyPressed then
      let keyReleased := if keyDetected = NUL then s.matrixKeypadLastKeyPressed else NUL
      (keyReleased, { s with matrixKeypadState := MATRIX_KEYPAD_SCANNING })
    else (NUL, s)

/-! ## Code entry and deactivation -/

/-- The function `areEqual`. -/
def areEqual (s : State) : Bool :=
  (List.range NUMBER_OF_KEYS.toNat).all fun (i : Nat) =>
    s.codeSequence (i : Int) == s.keyPressed (i : Int)

/-- The function `alarmDeactivationUpdate`. -/
def alarmDeactivationUpdate (keys : Keys) (s : State) : State :=
  if s.numberOfIncorrectCodes < 5 then
    let (keyReleased, s) := matrixKeypadUpdate keys s
    if keyReleased ≠ NUL ∧ keyReleased ≠ '#' then
      let s := { s with keyPressed := upd s.keyPressed s.matrixKeypadCodeIndex keyReleased }
      if s.matrixKeypadCodeIndex ≥ NUMBER_OF_KEYS - 1 then
        if areEqual s then
          let s := { s with alarmState := false }
          let s := { s with numberOfIncorrectCodes := 0 }
          { s with matrixKeypadCodeIndex := 0 }
        else
          let s := { s with incorrectCodeLed := true }
          let s := { s with numberOfIncorrectCodes := s.numberOfIncorrectCodes + 1 }
          { s with matrixKeypadCodeIndex := 0 }
      else
        { s with matrixKeypadCodeIndex := s.matrixKeypadCodeIndex + 1 }
    else s
  else
    { s with systemBlockedLed := true }

/-! ## Event log -/

/-- The eviction loop `for (i = 1; i < EVENT_MAX_STORAGE; i++) a[i-1] = a[i]`. -/
def shiftEvents (arr : Int → systemEvent_t) : Int → systemEvent_t :=
  (List.range' 1 (EVENT_MAX_STORAGE.toNat - 1)).foldl
    (fun a (i : Nat) => upd a ((i : Int) - 1) (a (i : Int))) arr

/-- The function `systemElementStateUpdate`; `now` is what `time(NULL)` returns. -/
def systemElementStateUpdate (now : Int) (lastState currentState : Bool)
    (elementName : String) (s : State) : State :=
  if lastState ≠ currentState ∧ currentState then
    let eventAndStateStr := ("" ++ elementName) ++ "_ON"
    let s :=
      if s.eventsIndex ≥ EVENT_MAX_STORAGE then
        let s := { s with arrayOfStoredEvents := shiftEvents s.arrayOfStoredEvents }
        { s with eventsIndex := EVENT_MAX_STORAGE - 1 }
      else s
    let s := { s with arrayOfStoredEvents :=
                        upd s.arrayOfStoredEvents s.eventsIndex ⟨now, eventAndStateStr⟩ }
    { s with eventsIndex := s.eventsIndex + 1 }
  else s

/-- The function `eventLogUpdate`; the three arguments are the clock values
seen by the three calls of `systemElementStateUpdate`. -/
def eventLogUpdate (timeAlarm timeGas timeTemp : Int) (s : State) : State :=
  let s := systemElementStateUpdate timeAlarm s.alarmLastState s.alarmState "ALARM" s
  let s := { s with alarmLastState := s.alarmState }
  let s := systemElementStateUpdate timeGas s.gasLastState s.gasDetectorState "GAS_DET" s
  let s := { s with gasLastState := s.gasDetectorState }
  let s := systemElementStateUpdate timeTemp s.tempLastState s.overTempDetector "OVER_TEMP" s
  { s with tempLastState := s.overTempDetector }

/-! ## Runs and inputs used in the statements -/

/-- One pass of the control loop without the serial shell:
`alarmActivationUpdate`, `alarmDeactivationUpdate`, `eventLogUpdate`. -/
structure TickInput where
  lm35Read : ℚ
  mq2Read : ℚ
  alarmTestButton : Bool
  keys : Keys
  timeAlarm : Int
  timeGas : Int
  timeTemp : Int

def coreTick (i : TickInput) (s : State) : State :=
  eventLogUpdate i.timeAlarm i.timeGas i.timeTemp
    (alarmDeactivationUpdate i.keys
      (alarmActivationUpdate i.lm35Read i.mq2Read i.alarmTestButton s))

def coreTicks : List TickInput → State → State
  | [], s => s
  | i :: is, s => coreTicks is (coreTick i s)

/-- A scan input with no contact closed. -/
def noKey : Keys := fun _ _ => false

/-- A scan input with the contact at `row`, `col` closed and no other. -/
def onlyKey (row col : Nat) : Keys := fun r c => r == row && c == col

/-- The character of the key at `row`, `col`. -/
def keyChar (row col : Nat) : Char :=
  matrixKeypadIndexToCharArray.getD (row * KEYPAD_NUMBER_OF_ROWS + col) NUL

/-- Results of successive calls of `matrixKeypadUpdate`, one scan input per call. -/
def matrixKeypadOutputs : List Keys → State → List Char
  | [], _ => []
  | k :: ks, s => (matrixKeypadUpdate k s).1 :: matrixKeypadOutputs ks (matrixKeypadUpdate k s).2

/-- State after successive calls of `matrixKeypadUpdate`. -/
def matrixKeypadFinal : List Keys → State → State
  | [], s => s
  | k :: ks, s => matrixKeypadFinal ks (matrixKeypadUpdate k s).2

/-- State after successive calls of `alarmDeactivationUpdate`, one scan input
per call. -/
def alarmDeactivationRun : List Keys → State → State
  | [], s => s
  | k :: ks, s => alarmDeactivationRun ks (alarmDeactivationUpdate k s)

/-- The key-release events that successive calls of `alarmDeactivationUpdate`
receive: the results other than NUL of the calls of `matrixKeypadUpdate` it
makes (it makes one on every call with fewer than 5 incorrect codes). -/
def keyReleaseEvents : List Keys → State → List Char
  | [], _ => []
  | k :: ks, s =>
    (if s.numberOfIncorrectCodes < 5 ∧ (matrixKeypadUpdate k s).1 ≠ NUL then
        [(matrixKeypadUpdate k s).1]
      else [])
      ++ keyReleaseEvents ks (alarmDeactivationUpdate k s)

/-- The alarm is on, nothing has been entered on the keypad. -/
def alarmOnState : State :=
  { initialState with alarmState := true, alarmLastState := true }

/-- Scan inputs of one keystroke: the key read on six ticks, then released. -/
def keystroke (row col : Nat) : List Keys :=
  List.replicate 6 (onlyKey row col) ++ [noKey]

/-- Scan inputs of the keystrokes '1', '8', '0', '5'. -/
def enter1805 : List Keys :=
  keystroke 0 0 ++ keystroke 2 1 ++ keystroke 3 1 ++ keystroke 1 1

/-- The alarm is on, three keys have been entered and the key '9' is held. -/
def fourthKeyHeldState : State :=
  { initialState with
    alarmState := true
    alarmLastState := true
    matrixKeypadCodeIndex := 3
    matrixKeypadState := MATRIX_KEYPAD_KEY_HOLD_PRESSED
    matrixKeypadLastKeyPressed := '9' }

/-- The alarm is on and five incorrect codes have been counted. -/
def lockedState : State :=
  { initialState with alarmState := true, alarmLastState := true, numberOfIncorrectCodes := 5 }

/-- The records the log holds: slots 0 to eventsIndex - 1, in order. -/
def storedEvents (s : State) : List systemEvent_t :=
  (List.range s.eventsIndex.toNat).map fun (i : Nat) => s.arrayOfStoredEvents (i : Int)

/-- The record that a rising edge of the element `r.2` stores when the clock
reads `r.1`. -/
def eventRecord (r : Int × String) : systemEvent_t :=
  ⟨r.1, r.2 ++ "_ON"⟩

/-- Successive calls of `systemElementStateUpdate` on a rising edge
(lastState OFF, currentState ON), one clock value and element name per call. -/
def recordAll : List (Int × String) → State → State
  | [], s => s
  | r :: rs, s => recordAll rs (systemElementStateUpdate r.1 false true r.2 s)

/-- The last `k` elements of a list. -/
def lastN {α : Type} (k : Nat) (l : List α) : List α :=
  l.drop (l.length - k)

/-- The indices of `arrayOfStoredEvents` that a call of
`systemElementStateUpdate` writes, in the order of the writes: the targets
`i - 1` of the eviction loop when the log is full, then the slot of the new
record. -/
def systemElementStateUpdateWrites (lastState currentState : Bool) (s : State) : List Int :=
  if lastState ≠ currentState ∧ currentState then
    if s.eventsIndex ≥ EVENT_MAX_STORAGE then
      (List.range' 1 (EVENT_MAX_STORAGE.toNat - 1)).map (fun (i : Nat) => (i : Int) - 1)
        ++ [EVENT_MAX_STORAGE - 1]
    else [s.eventsIndex]
  else []

/-- The indices of `arrayOfStoredEvents` written by the three calls that
`eventLogUpdate` makes. -/
def eventLogUpdateWrites (timeAlarm timeGas : Int) (s : State) : List Int :=
  let w1 := systemElementStateUpdateWrites s.alarmLastState s.alarmState s
  let s := systemElementStateUpdate timeAlarm s.alarmLastState s.alarmState "ALARM" s
  let s := { s with alarmLastState := s.alarmState }
  let w2 := systemElementStateUpdateWrites s.gasLastState s.gasDetectorState s
  let s := systemElementStateUpdate timeGas s.gasLastState s.gasDetectorState "GAS_DET" s
  let s := { s with gasLastState := s.gasDetectorState }
  let w3 := systemElementStateUpdateWrites s.tempLastState s.overTempDetector s
  w1 ++ w2 ++ w3

/-- A log holding the five records e1 .. e5. -/
def fullLogState : State :=
  { initialState with
    eventsIndex := 5
    arrayOfStoredEvents := fun i =>
      if i = 0 then ⟨1, "e1"⟩ else if i = 1 then ⟨2, "e2"⟩ else if i = 2 then ⟨3, "e3"⟩
      else if i = 3 then ⟨4, "e4"⟩ else ⟨5, "e5"⟩ }

/-- The key '1' is held, confirmed by the debounce rescan. -/
def keyOneHeldState : State :=
  { initialState with
    matrixKeypadState := MATRIX_KEYPAD_KEY_HOLD_PRESSED
    matrixKeypadLastKeyPressed := '1'
    accumulatedDebounceMatrixKeypadTime := 50 }

/-- The alarm has been switched off 50 ms after the last toggle of the LED. -/
def idleAfterBlinkState : State :=
  { initialState with accumulatedTimeAlarm := 50 }

/-- The key '#' is held with the alarm on. -/
def hashHeldState : State :=
  { initialState with
    alarmState := true
    alarmLastState := true
    matrixKeypadState := MATRIX_KEYPAD_KEY_HOLD_PRESSED
    matrixKeypadLastKeyPressed := '#' }

/-- The indices of `keyPressed` that a call of `alarmDeactivationUpdate` writes:
the cursor, on a key-release event other than '#' with fewer than 5 incorrect
codes counted. -/
def alarmDeactivationUpdateWrites (keys : Keys) (s : State) : List Int :=
  if s.numberOfIncorrectCodes < 5 then
    if (matrixKeypadUpdate keys s).1 ≠ NUL ∧ (matrixKeypadUpdate keys s).1 ≠ '#' then
      [(matrixKeypadUpdate keys s).2.matrixKeypadCodeIndex]
    else []
  else []

/-- The records a call of `eventLogUpdate` appends: one for each of the three
monitored elements whose last state is OFF and whose current state is ON, in
the order alarm, gas detector, over-temperature detector. -/
def eventLogUpdateRecords (timeAlarm timeGas timeTemp : Int) (s : State) : List systemEvent_t :=
  (if !s.alarmLastState && s.alarmState then [⟨timeAlarm, "ALARM_ON"⟩] else []) ++
  (if !s.gasLastState && s.gasDetectorState then [⟨timeGas, "GAS_DET_ON"⟩] else []) ++
  (if !s.tempLastState && s.overTempDetector then [⟨timeTemp, "OVER_TEMP_ON"⟩] else [])

/-- A tick with the test button pressed, all readings zero, no key, clock
values 1, 2, 3. -/
def testPressTick : TickInput :=
  { lm35Read := 0, mq2Read := 0, alarmTestButton := true, keys := noKey,
    timeAlarm := 1, timeGas := 2, timeTemp := 3 }

/-- A tick with gas reading 0.5, temperature reading 0, the test button
released, no key, clock values 1, 2, 3. -/
def gasTick : TickInput :=
  { lm35Read := 0, mq2Read := 1 / 2, alarmTestButton := false, keys := noKey,
    timeAlarm := 1, timeGas := 2, timeTemp := 3 }

/-- The start-up state with every slot of the gas buffer at 0.5. -/
def gasRisingState : State :=
  { initialState with mq2ReadingsArray := fun _ => 1 / 2 }

/-- The alarm is on, "180" has been entered and the key '5' is held. -/
def lastCodeKeyHeldState : State :=
  { initialState with
    alarmState := true
    alarmLastState := true
    gasLastState := true
    keyPressed := upd (upd (upd (fun _ => '0') 0 '1') 1 '8') 2 '0'
    matrixKeypadCodeIndex := 3
    matrixKeypadState := MATRIX_KEYPAD_KEY_HOLD_PRESSED
    matrixKeypadLastKeyPressed := '5' }

/-- A tick with all readings zero, the test button released, no key pressed,
clock values 1, 2, 3. -/
def idleTick : TickInput :=
  { lm35Read := 0, mq2Read := 0, alarmTestButton := false, keys := noKey,
    timeAlarm := 1, timeGas := 2, timeTemp := 3 }

/-- The last 100 temperature samples after the samples `xs` have been read, oldest
first; the 100 slots of the buffer start at 0. -/
def lm35Window (xs : List ℚ) : List ℚ :=
  lastN 100 (List.replicate 100 0 ++ xs)

/-- The 100 slots of `lm35ReadingsArray`, slot 0 first. -/
def lm35Buffer (s : State) : List ℚ :=
  (List.range 100).map fun (i : Nat) => s.lm35ReadingsArray (i : Int)

/-- A tick with the temperature reading at full scale (1.0), no gas, the test
button released, no key, clock values 1, 2, 3. -/
def hotTick : TickInput :=
  { lm35Read := 1, mq2Read := 0, alarmTestButton := false, keys := noKey,
    timeAlarm := 1, timeGas := 2, timeTemp := 3 }

/-- The buffer is a ring: read from the write cursor on, it is the window of
the last 100 samples, oldest first. -/
def ringInv (s : State) (xs : List ℚ) : Prop :=
  0 ≤ s.lm35SampleIndex ∧ s.lm35SampleIndex < 100 ∧
  (lm35Buffer s).rotate s.lm35SampleIndex.toNat = lm35Window xs

/-- The alarm is on with gas detected and logged, the gas buffer is full of
readings 0.5, "180" has been entered and the key '5' is held. -/
def rearmState : State :=
  { lastCodeKeyHeldState with
    mq2ReadingsArray := fun _ => 1 / 2
    gasDetectorState := true }

/-- The period the claim about blinking selects: 100 ms when gas and
over-temperature are both active, else 1000 ms for gas, else 500 ms for
over-temperature; no period when neither is active. -/
def blinkingTime (gas overTemp : Bool) : Option Int :=
  if gas && overTemp then some 100
  else if gas then some 1000
  else if overTemp then some 500
  else none

/-- An active alarm 90 ms after the last toggle of the LED. -/
def blinkState : State :=
  { initialState with alarmState := true, alarmLastState := true, accumulatedTimeAlarm := 90 }

/-- An alarm that has stayed latched with no detector flag on for 214748364
ticks after the last toggle of the LED: the accumulator is 7 below INT_MAX. -/
def longLatchedState : State :=
  { initialState with
    alarmState := true, alarmLastState := true, accumulatedTimeAlarm := 2147483640 }

/-- Initial state with every slot of the temperature buffer at 0.1, which is
33 degrees after scaling; the gas buffer is all zero. -/
def overTempOnlyState : State :=
  { initialState with lm35ReadingsArray := fun _ => 1 / 10 }

/-! ## The sections of `alarmActivationUpdate` in closed form -/

theorem lm35Update_eq (r : ℚ) (s : State) :
    lm35Update r s =
      { s with
        lm35ReadingsArray := upd s.lm35ReadingsArray s.lm35SampleIndex r
        lm35SampleIndex :=
          if s.lm35SampleIndex + 1 ≥ NUMBER_OF_AVG_SAMPLES then 0 else s.lm35SampleIndex + 1
        lm35ReadingsSum := readingsSum (upd s.lm35ReadingsArray s.lm35SampleIndex r)
        lm35ReadingsAverage :=
          readingsSum (upd s.lm35ReadingsArray s.lm35SampleIndex r) / NUMBER_OF_AVG_SAMPLES
        lm35TempC := analogReadingScaledWithTheLM35Formula
          (readingsSum (upd s.lm35ReadingsArray s.lm35SampleIndex r) / NUMBER_OF_AVG_SAMPLES)
        overTempDetector := decide (analogReadingScaledWithTheLM35Formula
          (readingsSum (upd s.lm35ReadingsArray s.lm35SampleIndex r) / NUMBER_OF_AVG_SAMPLES)
            > OVER_TEMP_LEVEL) } := by
  cases s
  simp only [lm35Update]
  split_ifs <;> simp_all

theorem mq2Update_eq (r : ℚ) (s : State) :
    mq2Update r s =
      { s with
        mq2ReadingsArray := upd s.mq2ReadingsArray s.mq2SampleIndex r
        mq2SampleIndex :=
          if s.mq2SampleIndex + 1 ≥ NUMBER_OF_AVG_SAMPLES then 0 else s.mq2SampleIndex + 1
        mq2ReadingsSum := readingsSum (upd s.mq2ReadingsArray s.mq2SampleIndex r)
        mq2ReadingsAverage :=
          readingsSum (upd s.mq2ReadingsArray s.mq2SampleIndex r) / NUMBER_OF_AVG_SAMPLES } := by
  cases s
  simp only [mq2Update]
  split_ifs <;> simp_all

theorem gasDetectionUpdate_eq (s : State) :
    gasDetectionUpdate s =
      { s with
        gasDetectorState := decide (s.mq2ReadingsAverage > GAS_DETECTION_THRESHOLD)
        alarmState := s.alarmState ||
          (decide (s.mq2ReadingsAverage > GAS_DETECTION_THRESHOLD) && !s.alarmLastState)
        lastGasDetectorState := decide (s.mq2ReadingsAverage > GAS_DETECTION_THRESHOLD) } := by
  cases s
  simp only [gasDetectionUpdate]
  split_ifs <;> simp_all

theorem overTempDetectionUpdate_eq (s : State) :
    overTempDetectionUpdate s =
      { s with
        overTempDetectorState := s.overTempDetector
        lastOverTempDetector := s.overTempDetector } := by
  cases s
  simp only [overTempDetectionUpdate]
  split_ifs <;> simp_all

theorem testButtonUpdate_eq (t : Bool) (s : State) :
    testButtonUpdate t s =
      { s with
        overTempDetectorState := s.overTempDetectorState || t
        gasDetectorState := s.gasDetectorState || t
        alarmState := s.alarmState || (t && !s.alarmLastState)
        lastGasDetectorState := s.lastGasDetectorState || t
        lastOverTempDetector := s.lastOverTempDetector || t } := by
  cases s
  simp only [testButtonUpdate]
  split_ifs <;> simp_all

/-- The state on entry to the section "Alarm State Handling". -/
theorem beforeHandling_eq (lm mq : ℚ) (t : Bool) (s : State) :
    testButtonUpdate t (overTempDetectionUpdate (gasDetectionUpdate
        (mq2Update mq (lm35Update lm s)))) =
      { mq2Update mq (lm35Update lm s) with
        gasDetectorState :=
          decide ((mq2Update mq s).mq2ReadingsAverage > GAS_DETECTION_THRESHOLD) || t
        overTempDetectorState := (lm35Update lm s).overTempDetector || t
        alarmState := s.alarmState ||
          ((decide ((mq2Update mq s).mq2ReadingsAverage > GAS_DETECTION_THRESHOLD) || t)
            && !s.alarmLastState)
        lastGasDetectorState :=
          decide ((mq2Update mq s).mq2ReadingsAverage > GAS_DETECTION_THRESHOLD) || t
        lastOverTempDetector := (lm35Update lm s).overTempDetector || t } := by
  simp only [testButtonUpdate_eq, overTempDetectionUpdate_eq, gasDetectionUpdate_eq,
    mq2Update_eq, lm35Update_eq]
  simp only [State.mk.injEq, true_and, and_true, and_self]
  generalize decide (_ > GAS_DETECTION_THRESHOLD) = g
  cases t <;> cases g <;> cases s.alarmState <;> cases s.alarmLastState <;> rfl

theorem alarmStateHandling_alarmState (s : State) :
    (alarmStateHandling s).alarmState = s.alarmState := by
  simp only [alarmStateHandling]
  split_ifs <;> rfl

theorem alarmActivationUpdate_alarmState (lm mq : ℚ) (t : Bool) (s : State) :
    (alarmActivationUpdate lm mq t s).alarmState =
      (s.alarmState ||
        ((decide ((mq2Update mq s).mq2ReadingsAverage > GAS_DETECTION_THRESHOLD) || t)
          && !s.alarmLastState)) := by
  unfold alarmActivationUpdate
  rw [alarmStateHandling_alarmState, beforeHandling_eq]

theorem alarmActivationUpdate_overTempDetector (lm mq : ℚ) (t : Bool) (s : State) :
    (alarmActivationUpdate lm mq t s).overTempDetector = (lm35Update lm s).overTempDetector := by
  unfold alarmActivationUpdate
  rw [beforeHandling_eq]
  simp only [alarmStateHandling]
  split_ifs <;> simp [mq2Update_eq]

/-- Effect of the section "Alarm State Handling" when the alarm is on. -/
theorem alarmStateHandling_active (s : State) (h : s.alarmState = true) :
    ((alarmStateHandling s).alarmLed = (!s.alarmLed) ↔
      ∃ p, blinkingTime s.gasDetectorState s.overTempDetectorState = some p ∧
        p ≤ wrapInt (s.accumulatedTimeAlarm + TIME_INCREMENT_MS)) ∧
    ((∃ p, blinkingTime s.gasDetectorState s.overTempDetectorState = some p ∧
        p ≤ wrapInt (s.accumulatedTimeAlarm + TIME_INCREMENT_MS)) →
      (alarmStateHandling s).accumulatedTimeAlarm = 0) ∧
    ((¬ ∃ p, blinkingTime s.gasDetectorState s.overTempDetectorState = some p ∧
        p ≤ wrapInt (s.accumulatedTimeAlarm + TIME_INCREMENT_MS)) →
      (alarmStateHandling s).accumulatedTimeAlarm =
        wrapInt (s.accumulatedTimeAlarm + TIME_INCREMENT_MS) ∧
      (alarmStateHandling s).alarmLed = s.alarmLed) ∧
    (alarmStateHandling s).gasDetectorState = s.gasDetectorState ∧
    (alarmStateHandling s).overTempDetectorState = s.overTempDetectorState := by
  cases hg : s.gasDetectorState <;> cases ho : s.overTempDetectorState <;>
    simp only [alarmStateHandling, blinkingTime, h, hg, ho, BLINKING_TIME_GAS_ALARM,
      BLINKING_TIME_OVER_TEMP_ALARM, BLINKING_TIME_GAS_AND_OVER_TEMP_ALARM, TIME_INCREMENT_MS] <;>
    split_ifs <;> simp_all

theorem readingsSum_const (c : ℚ) : readingsSum (fun _ => c) = 100 * c := by
  simp only [readingsSum, NUMBER_OF_AVG_SAMPLES]
  have h : ∀ (l : List Nat) (a : ℚ),
      l.foldl (fun sum (_ : Nat) => sum + c) a = a + l.length * c := by
    intro l
    induction l with
    | nil => intro a; simp
    | cons x xs ih => intro a; simp only [List.foldl_cons, ih, List.length_cons]; push_cast; ring
  rw [h]
  simp

theorem upd_same {α : Type} (arr : Int → α) (i : Int) : upd arr i (arr i) = arr := by
  funext j
  unfold upd
  split_ifs with h
  · rw [h]
  · rfl

/-! ## Alarm activation -/

/-- C1, evaluated at the input where over-temperature is the only true
condition: the alarm is idle (alarmState and alarmLastState OFF), every slot of
the temperature buffer and the new reading are 0.1 (33 degrees, above 25), the
gas reading is 0 and the test button is released. `alarmActivationUpdate` sets
overTempDetector but leaves alarmState OFF, where the claim asks for ON. -/
theorem alarmActivationUpdate_overTemp_only_stays_idle :
    overTempOnlyState.alarmState = false ∧ overTempOnlyState.alarmLastState = false ∧
    (alarmActivationUpdate (1 / 10) 0 false overTempOnlyState).lm35TempC = 33 ∧
    (alarmActivationUpdate (1 / 10) 0 false overTempOnlyState).overTempDetector = true ∧
    (alarmActivationUpdate (1 / 10) 0 false overTempOnlyState).mq2ReadingsAverage = 0 ∧
    (alarmActivationUpdate (1 / 10) 0 false overTempOnlyState).alarmState = false := by
  have hl : upd overTempOnlyState.lm35ReadingsArray overTempOnlyState.lm35SampleIndex (1 / 10)
      = fun _ => 1 / 10 := upd_same (fun _ => 1 / 10) 0
  have hm : upd overTempOnlyState.mq2ReadingsArray overTempOnlyState.mq2SampleIndex 0
      = fun _ => 0 := upd_same (fun _ => 0) 0
  have h1 : (lm35Update (1 / 10) overTempOnlyState).lm35TempC = 33 := by
    rw [lm35Update_eq]
    simp only [hl, readingsSum_const, analogReadingScaledWithTheLM35Formula,
      NUMBER_OF_AVG_SAMPLES]
    norm_num
  have h2 : (lm35Update (1 / 10) overTempOnlyState).overTempDetector = true := by
    rw [lm35Update_eq]
    simp only [hl, readingsSum_const, analogReadingScaledWithTheLM35Formula,
      NUMBER_OF_AVG_SAMPLES, OVER_TEMP_LEVEL]
    norm_num
  have h3 : (mq2Update 0 overTempOnlyState).mq2ReadingsAverage = 0 := by
    rw [mq2Update_eq]
    simp only [hm, readingsSum_const]
    norm_num
  refine ⟨rfl, rfl, ?_, ?_, ?_, ?_⟩
  · unfold alarmActivationUpdate
    rw [beforeHandling_eq]
    simp only [alarmStateHandling]
    split_ifs <;> simpa [mq2Update_eq] using h1
  · rw [alarmActivationUpdate_overTempDetector]
    exact h2
  · unfold alarmActivationUpdate
    rw [beforeHandling_eq]
    simp only [alarmStateHandling]
    split_ifs <;> simpa [mq2Update_eq, lm35Update_eq] using h3
  · rw [alarmActivationUpdate_alarmState, h3]
    simp only [GAS_DETECTION_THRESHOLD, overTempOnlyState, initialState]
    norm_num

/-- An arithmetic result inside the range of `int` is stored unchanged. -/
theorem wrapInt_of_range (x : Int) (hlo : INT_MIN ≤ x) (hhi : x ≤ INT_MAX) : wrapInt x = x := by
  simp only [INT_MIN, INT_MAX] at hlo hhi
  simp only [wrapInt]
  omega

/-- A tick of `alarmActivationUpdate` that leaves the alarm on, for every
state: the flags of the tick, and the LED and the accumulator in terms of the
value the `int` accumulator holds after the addition of TIME_INCREMENT_MS. -/
theorem alarmActivationUpdate_blink (lm mq : ℚ) (t : Bool) (s : State)
    (h : (alarmActivationUpdate lm mq t s).alarmState = true) :
    (alarmActivationUpdate lm mq t s).gasDetectorState =
      (decide ((mq2Update mq s).mq2ReadingsAverage > GAS_DETECTION_THRESHOLD) || t) ∧
    (alarmActivationUpdate lm mq t s).overTempDetectorState =
      ((lm35Update lm s).overTempDetector || t) ∧
    ((alarmActivationUpdate lm mq t s).alarmLed = (!s.alarmLed) ↔
      ∃ p, blinkingTime (alarmActivationUpdate lm mq t s).gasDetectorState
            (alarmActivationUpdate lm mq t s).overTempDetectorState = some p ∧
        p ≤ wrapInt (s.accumulatedTimeAlarm + TIME_INCREMENT_MS)) ∧
    ((∃ p, blinkingTime (alarmActivationUpdate lm mq t s).gasDetectorState
            (alarmActivationUpdate lm mq t s).overTempDetectorState = some p ∧
        p ≤ wrapInt (s.accumulatedTimeAlarm + TIME_INCREMENT_MS)) →
      (alarmActivationUpdate lm mq t s).accumulatedTimeAlarm = 0) ∧
    ((¬ ∃ p, blinkingTime (alarmActivationUpdate lm mq t s).gasDetectorState
            (alarmActivationUpdate lm mq t s).overTempDetectorState = some p ∧
        p ≤ wrapInt (s.accumulatedTimeAlarm + TIME_INCREMENT_MS)) →
      (alarmActivationUpdate lm mq t s).accumulatedTimeAlarm =
        wrapInt (s.accumulatedTimeAlarm + TIME_INCREMENT_MS) ∧
      (alarmActivationUpdate lm mq t s).alarmLed = s.alarmLed) := by
  have ha := h
  unfold alarmActivationUpdate at ha ⊢
  rw [alarmStateHandling_alarmState] at ha
  obtain ⟨h1, h2, h3, h4, h5⟩ := alarmStateHandling_active _ ha
  rw [beforeHandling_eq] at h1 h2 h3 h4 h5
  rw [beforeHandling_eq]
  simp only [mq2Update_eq, lm35Update_eq] at h1 h2 h3 h4 h5 ⊢
  refine ⟨h4, h5, ?_, ?_, ?_⟩
  · rw [h4, h5]; exact h1
  · rw [h4, h5]; exact h2
  · rw [h4, h5]; exact h3

/-- The readings of a tick with both analog inputs at 0 from
`longLatchedState`: no gas and no over-temperature. -/
theorem longLatchedState_readings :
    decide ((mq2Update 0 longLatchedState).mq2ReadingsAverage > GAS_DETECTION_THRESHOLD) = false ∧
    (lm35Update 0 longLatchedState).overTempDetector = false := by
  have hm : upd longLatchedState.mq2ReadingsArray longLatchedState.mq2SampleIndex 0
      = fun _ => 0 := upd_same (fun _ => 0) 0
  have hl : upd longLatchedState.lm35ReadingsArray longLatchedState.lm35SampleIndex 0
      = fun _ => 0 := upd_same (fun _ => 0) 0
  constructor
  · rw [mq2Update_eq]
    simp only [hm, readingsSum_const, GAS_DETECTION_THRESHOLD]
    norm_num
  · rw [lm35Update_eq]
    simp only [hl, readingsSum_const, OVER_TEMP_LEVEL, analogReadingScaledWithTheLM35Formula]
    norm_num

/-- C10 as stated fails: the alarm has stayed latched with both detector flags
off until accumulatedTimeAlarm is 2147483640. On a tick with no gas, no
over-temperature and the test button released the alarm stays on and the `int`
accumulator holds -2147483646, not the old value plus 10. On a tick with the
test button pressed both flags are on and the accumulator is far past the
100 ms period, yet the LED keeps its level and the accumulator is not reset. -/
theorem alarmActivationUpdate_accumulator_wraps :
    longLatchedState.alarmState = true ∧
    longLatchedState.accumulatedTimeAlarm = 2147483640 ∧
    (alarmActivationUpdate 0 0 false longLatchedState).alarmState = true ∧
    (alarmActivationUpdate 0 0 false longLatchedState).accumulatedTimeAlarm = -2147483646 ∧
    (alarmActivationUpdate 0 0 false longLatchedState).accumulatedTimeAlarm ≠
      longLatchedState.accumulatedTimeAlarm + 10 ∧
    (alarmActivationUpdate 0 0 true longLatchedState).alarmState = true ∧
    (alarmActivationUpdate 0 0 true longLatchedState).gasDetectorState = true ∧
    (alarmActivationUpdate 0 0 true longLatchedState).overTempDetectorState = true ∧
    (alarmActivationUpdate 0 0 true longLatchedState).alarmLed = longLatchedState.alarmLed ∧
    (alarmActivationUpdate 0 0 true longLatchedState).accumulatedTimeAlarm = -2147483646 := by
  obtain ⟨r1, r2⟩ := longLatchedState_readings
  have hw : wrapInt (longLatchedState.accumulatedTimeAlarm + TIME_INCREMENT_MS)
      = -2147483646 := by decide
  have hoff : (alarmActivationUpdate 0 0 false longLatchedState).alarmState = true := by
    rw [alarmActivationUpdate_alarmState]; rfl
  have hon : (alarmActivationUpdate 0 0 true longLatchedState).alarmState = true := by
    rw [alarmActivationUpdate_alarmState]; rfl
  obtain ⟨a1, a2, -, -, a5⟩ := alarmActivationUpdate_blink 0 0 false longLatchedState hoff
  obtain ⟨b1, b2, -, -, b5⟩ := alarmActivationUpdate_blink 0 0 true longLatchedState hon
  rw [r1] at a1 b1
  rw [r2] at a2 b2
  rw [a1, a2, hw] at a5
  rw [b1, b2, hw] at b5
  have hacc := (a5 (by simp [blinkingTime])).1
  have hled := b5 (by simp [blinkingTime])
  refine ⟨rfl, rfl, hoff, hacc, ?_, hon, b1, b2, hled.2, hled.1⟩
  rw [hacc]
  decide

/-- C10, amended: on a tick of `alarmActivationUpdate` that leaves the alarm on
and on which accumulatedTimeAlarm plus TIME_INCREMENT_MS (10) is inside the
range of `int` (accumulatedTimeAlarm at most INT_MAX - 10), the accumulator
grows by 10 and the LED toggles, with the accumulator back at 0, exactly when
the grown accumulator has reached the period chosen by priority from the
detector state flags of that tick: 100 when gas and over-temperature are both
on, else 1000 for gas, else 500 for over-temperature; otherwise the LED keeps
its level and the accumulator keeps the grown value. The flags are the sensor
results of the tick or-ed with the test button. -/
theorem alarmActivationUpdate_blink_priority (lm mq : ℚ) (t : Bool) (s : State)
    (h : (alarmActivationUpdate lm mq t s).alarmState = true)
    (hlo : INT_MIN ≤ s.accumulatedTimeAlarm)
    (hhi : s.accumulatedTimeAlarm + TIME_INCREMENT_MS ≤ INT_MAX) :
    (alarmActivationUpdate lm mq t s).gasDetectorState =
      (decide ((mq2Update mq s).mq2ReadingsAverage > GAS_DETECTION_THRESHOLD) || t) ∧
    (alarmActivationUpdate lm mq t s).overTempDetectorState =
      ((lm35Update lm s).overTempDetector || t) ∧
    ((alarmActivationUpdate lm mq t s).alarmLed = (!s.alarmLed) ↔
      ∃ p, blinkingTime (alarmActivationUpdate lm mq t s).gasDetectorState
            (alarmActivationUpdate lm mq t s).overTempDetectorState = some p ∧
        p ≤ s.accumulatedTimeAlarm + TIME_INCREMENT_MS) ∧
    ((∃ p, blinkingTime (alarmActivationUpdate lm mq t s).gasDetectorState
            (alarmActivationUpdate lm mq t s).overTempDetectorState = some p ∧
        p ≤ s.accumulatedTimeAlarm + TIME_INCREMENT_MS) →
      (alarmActivationUpdate lm mq t s).accumulatedTimeAlarm = 0) ∧
    ((¬ ∃ p, blinkingTime (alarmActivationUpdate lm mq t s).gasDetectorState
            (alarmActivationUpdate lm mq t s).overTempDetectorState = some p ∧
        p ≤ s.accumulatedTimeAlarm + TIME_INCREMENT_MS) →
      (alarmActivationUpdate lm mq t s).accumulatedTimeAlarm =
        s.accumulatedTimeAlarm + TIME_INCREMENT_MS ∧
      (alarmActivationUpdate lm mq t s).alarmLed = s.alarmLed) ∧
    ((alarmActivationUpdate lm mq t s).gasDetectorState = true →
      (alarmActivationUpdate lm mq t s).overTempDetectorState = true →
      ((alarmActivationUpdate lm mq t s).alarmLed = (!s.alarmLed) ↔
        100 ≤ s.accumulatedTimeAlarm + 10)) := by
  have hw : wrapInt (s.accumulatedTimeAlarm + TIME_INCREMENT_MS)
      = s.accumulatedTimeAlarm + TIME_INCREMENT_MS :=
    wrapInt_of_range _ (by simp only [TIME_INCREMENT_MS, INT_MIN] at hlo ⊢; omega) hhi
  obtain ⟨h1, h2, h3, h4, h5⟩ := alarmActivationUpdate_blink lm mq t s h
  rw [hw] at h3 h4 h5
  refine ⟨h1, h2, h3, h4, h5, ?_⟩
  intro hg ho
  rw [h3, hg, ho]
  simp [blinkingTime, TIME_INCREMENT_MS]

/-- C10 amended, at a concrete tick: alarm on, 90 ms accumulated, test button
pressed (both flags on): the accumulator reaches 100, the LED toggles and the
accumulator restarts. -/
theorem alarmActivationUpdate_blink_priority_witness :
    (alarmActivationUpdate 0 0 true blinkState).alarmState = true ∧
    INT_MIN ≤ blinkState.accumulatedTimeAlarm ∧
    blinkState.accumulatedTimeAlarm + TIME_INCREMENT_MS ≤ INT_MAX ∧
    ((alarmActivationUpdate 0 0 true blinkState).gasDetectorState = true →
      (alarmActivationUpdate 0 0 true blinkState).overTempDetectorState = true →
      ((alarmActivationUpdate 0 0 true blinkState).alarmLed = (!blinkState.alarmLed) ↔
        100 ≤ blinkState.accumulatedTimeAlarm + 10)) :=
  ⟨by rw [alarmActivationUpdate_alarmState]; rfl, by decide, by decide,
   (alarmActivationUpdate_blink_priority 0 0 true blinkState
      (by rw [alarmActivationUpdate_alarmState]; rfl) (by decide) (by decide)).2.2.2.2.2⟩

/-! ## Matrix keypad -/

theorem matrixKeypadScan_noKey : matrixKeypadScan noKey = NUL := by decide

theorem matrixKeypadScan_onlyKey (row col : Nat) (hr : row < 4) (hc : col < 4) :
    matrixKeypadScan (onlyKey row col) = keyChar row col ∧ keyChar row col ≠ NUL := by
  interval_cases row <;> interval_cases col <;> decide

theorem matrixKeypadOutputs_append (l₁ l₂ : List Keys) (s : State) :
    matrixKeypadOutputs (l₁ ++ l₂) s =
      matrixKeypadOutputs l₁ s ++ matrixKeypadOutputs l₂ (matrixKeypadFinal l₁ s) := by
  induction l₁ generalizing s with
  | nil => rfl
  | cons k ks ih => simp [matrixKeypadOutputs, matrixKeypadFinal, ih]

theorem matrixKeypadFinal_append (l₁ l₂ : List Keys) (s : State) :
    matrixKeypadFinal (l₁ ++ l₂) s = matrixKeypadFinal l₂ (matrixKeypadFinal l₁ s) := by
  induction l₁ generalizing s with
  | nil => rfl
  | cons k ks ih => simp [matrixKeypadFinal, ih]

/-- Scanning with nothing pressed: no result, no change. -/
theorem matrixKeypadUpdate_scanning_idle (keys : Keys) (s : State)
    (hs : s.matrixKeypadState = MATRIX_KEYPAD_SCANNING) (hk : matrixKeypadScan keys = NUL) :
    matrixKeypadUpdate keys s = (NUL, s) := by
  simp [matrixKeypadUpdate, hs, hk]

/-- Scanning with a key pressed: the key is remembered and debouncing starts. -/
theorem matrixKeypadUpdate_scanning_press (keys : Keys) (s : State)
    (hs : s.matrixKeypadState = MATRIX_KEYPAD_SCANNING) (hk : matrixKeypadScan keys ≠ NUL) :
    matrixKeypadUpdate keys s =
      (NUL, { s with matrixKeypadLastKeyPressed := matrixKeypadScan keys,
                     accumulatedDebounceMatrixKeypadTime := 0,
                     matrixKeypadState := MATRIX_KEYPAD_DEBOUNCE }) := by
  simp [matrixKeypadUpdate, hs, hk]

/-- Debouncing before the window has elapsed: the contacts are not read. -/
theorem matrixKeypadUpdate_debounce_wait (keys : Keys) (s : State)
    (hs : s.matrixKeypadState = MATRIX_KEYPAD_DEBOUNCE)
    (ht : s.accumulatedDebounceMatrixKeypadTime < DEBOUNCE_KEY_TIME_MS) :
    matrixKeypadUpdate keys s =
      (NUL, { s with accumulatedDebounceMatrixKeypadTime :=
                       s.accumulatedDebounceMatrixKeypadTime + TIME_INCREMENT_MS }) := by
  simp [matrixKeypadUpdate, hs, not_le.mpr ht]

/-- Debouncing once the window has elapsed: one rescan decides. -/
theorem matrixKeypadUpdate_debounce_rescan (keys : Keys) (s : State)
    (hs : s.matrixKeypadState = MATRIX_KEYPAD_DEBOUNCE)
    (ht : DEBOUNCE_KEY_TIME_MS ≤ s.accumulatedDebounceMatrixKeypadTime) :
    matrixKeypadUpdate keys s =
      (NUL, { s with
        matrixKeypadState :=
          if matrixKeypadScan keys = s.matrixKeypadLastKeyPressed then
            MATRIX_KEYPAD_KEY_HOLD_PRESSED else MATRIX_KEYPAD_SCANNING
        accumulatedDebounceMatrixKeypadTime :=
          s.accumulatedDebounceMatrixKeypadTime + TIME_INCREMENT_MS }) := by
  simp only [matrixKeypadUpdate, hs]
  split_ifs <;> simp_all

/-- Hold state while the same key is still read. -/
theorem matrixKeypadUpdate_hold_same (keys : Keys) (s : State)
    (hs : s.matrixKeypadState = MATRIX_KEYPAD_KEY_HOLD_PRESSED)
    (hk : matrixKeypadScan keys = s.matrixKeypadLastKeyPressed) :
    matrixKeypadUpdate keys s = (NUL, s) := by
  simp [matrixKeypadUpdate, hs, hk]

/-- Hold state when the scan differs from the held key. -/
theorem matrixKeypadUpdate_hold_other (keys : Keys) (s : State)
    (hs : s.matrixKeypadState = MATRIX_KEYPAD_KEY_HOLD_PRESSED)
    (hk : matrixKeypadScan keys ≠ s.matrixKeypadLastKeyPressed) :
    matrixKeypadUpdate keys s =
      (if matrixKeypadScan keys = NUL then s.matrixKeypadLastKeyPressed else NUL,
       { s with matrixKeypadState := MATRIX_KEYPAD_SCANNING }) := by
  simp [matrixKeypadUpdate, hs, hk]

theorem matrixKeypadRun_scanning_idle (n : Nat) (s : State)
    (hs : s.matrixKeypadState = MATRIX_KEYPAD_SCANNING) :
    matrixKeypadOutputs (List.replicate n noKey) s = List.replicate n NUL ∧
    matrixKeypadFinal (List.replicate n noKey) s = s := by
  induction n with
  | zero => exact ⟨rfl, rfl⟩
  | succ n ih =>
    simp only [List.replicate_succ, matrixKeypadOutputs, matrixKeypadFinal,
      matrixKeypadUpdate_scanning_idle noKey s hs matrixKeypadScan_noKey, ih]
    exact ⟨trivial, trivial⟩

theorem matrixKeypadRun_debounce_wait (l : List Keys) (s : State)
    (hs : s.matrixKeypadState = MATRIX_KEYPAD_DEBOUNCE)
    (ht : s.accumulatedDebounceMatrixKeypadTime + 10 * (l.length : Int) ≤ 40) :
    matrixKeypadOutputs l s = List.replicate l.length NUL ∧
    (matrixKeypadFinal l s).matrixKeypadState = MATRIX_KEYPAD_DEBOUNCE ∧
    (matrixKeypadFinal l s).matrixKeypadLastKeyPressed = s.matrixKeypadLastKeyPressed ∧
    (matrixKeypadFinal l s).accumulatedDebounceMatrixKeypadTime =
      s.accumulatedDebounceMatrixKeypadTime + 10 * (l.length : Int) := by
  induction l generalizing s with
  | nil => simp [matrixKeypadOutputs, matrixKeypadFinal, hs]
  | cons k ks ih =>
    simp only [List.length_cons, Nat.cast_add, Nat.cast_one] at ht ⊢
    have hlt : s.accumulatedDebounceMatrixKeypadTime < DEBOUNCE_KEY_TIME_MS := by
      simp only [DEBOUNCE_KEY_TIME_MS]; omega
    have hstep := matrixKeypadUpdate_debounce_wait k s hs hlt
    simp only [matrixKeypadOutputs, matrixKeypadFinal, hstep, List.replicate_succ]
    obtain ⟨h1, h2, h3, h4⟩ := ih
      { s with accumulatedDebounceMatrixKeypadTime :=
                 s.accumulatedDebounceMatrixKeypadTime + TIME_INCREMENT_MS }
      hs (by simp only [TIME_INCREMENT_MS]; omega)
    refine ⟨by rw [h1], h2, h3, ?_⟩
    rw [h4]
    simp only [TIME_INCREMENT_MS]
    omega

theorem matrixKeypadRun_hold_same (n : Nat) (keys : Keys) (s : State)
    (hs : s.matrixKeypadState = MATRIX_KEYPAD_KEY_HOLD_PRESSED)
    (hk : matrixKeypadScan keys = s.matrixKeypadLastKeyPressed) :
    matrixKeypadOutputs (List.replicate n keys) s = List.replicate n NUL ∧
    matrixKeypadFinal (List.replicate n keys) s = s := by
  induction n with
  | zero => exact ⟨rfl, rfl⟩
  | succ n ih =>
    simp only [List.replicate_succ, matrixKeypadOutputs, matrixKeypadFinal,
      matrixKeypadUpdate_hold_same keys s hs hk, ih]
    exact ⟨trivial, trivial⟩

/-- From Scanning, a key read on the first tick and again on the sixth (the
rescan; the four ticks in between are not read) brings the FSM to the hold state
with no result on any of the six ticks. -/
theorem matrixKeypadRun_press_confirmed (k₀ k₅ : Keys) (l : List Keys) (s : State)
    (hs : s.matrixKeypadState = MATRIX_KEYPAD_SCANNING) (hl : l.length = 4)
    (h0 : matrixKeypadScan k₀ ≠ NUL) (h5 : matrixKeypadScan k₅ = matrixKeypadScan k₀) :
    matrixKeypadOutputs (k₀ :: (l ++ [k₅])) s = List.replicate 6 NUL ∧
    (matrixKeypadFinal (k₀ :: (l ++ [k₅])) s).matrixKeypadState =
      MATRIX_KEYPAD_KEY_HOLD_PRESSED ∧
    (matrixKeypadFinal (k₀ :: (l ++ [k₅])) s).matrixKeypadLastKeyPressed =
      matrixKeypadScan k₀ := by
  have hstep := matrixKeypadUpdate_scanning_press k₀ s hs h0
  simp only [matrixKeypadOutputs, matrixKeypadFinal, hstep, matrixKeypadOutputs_append,
    matrixKeypadFinal_append]
  obtain ⟨w1, w2, w3, w4⟩ := matrixKeypadRun_debounce_wait l
    { s with matrixKeypadLastKeyPressed := matrixKeypadScan k₀,
             accumulatedDebounceMatrixKeypadTime := 0,
             matrixKeypadState := MATRIX_KEYPAD_DEBOUNCE } rfl (by simp [hl])
  simp only [hl, Nat.cast_ofNat] at w1 w4
  have hr := matrixKeypadUpdate_debounce_rescan k₅ _ w2
    (by rw [w4]; simp [DEBOUNCE_KEY_TIME_MS])
  rw [w3] at hr
  simp only [h5, if_true] at hr
  rw [w1, hr]
  refine ⟨rfl, rfl, ?_⟩
  simp

/-- From Scanning, a key read on the first tick but not on the sixth (the
rescan) is dropped: no result on any of the six ticks and the FSM is back in
Scanning. -/
theorem matrixKeypadRun_press_dropped (k₀ k₅ : Keys) (l : List Keys) (s : State)
    (hs : s.matrixKeypadState = MATRIX_KEYPAD_SCANNING) (hl : l.length = 4)
    (h0 : matrixKeypadScan k₀ ≠ NUL) (h5 : matrixKeypadScan k₅ ≠ matrixKeypadScan k₀) :
    matrixKeypadOutputs (k₀ :: (l ++ [k₅])) s = List.replicate 6 NUL ∧
    (matrixKeypadFinal (k₀ :: (l ++ [k₅])) s).matrixKeypadState = MATRIX_KEYPAD_SCANNING := by
  have hstep := matrixKeypadUpdate_scanning_press k₀ s hs h0
  simp only [matrixKeypadOutputs, matrixKeypadFinal, hstep, matrixKeypadOutputs_append,
    matrixKeypadFinal_append]
  obtain ⟨w1, w2, w3, w4⟩ := matrixKeypadRun_debounce_wait l
    { s with matrixKeypadLastKeyPressed := matrixKeypadScan k₀,
             accumulatedDebounceMatrixKeypadTime := 0,
             matrixKeypadState := MATRIX_KEYPAD_DEBOUNCE } rfl (by simp [hl])
  simp only [hl, Nat.cast_ofNat] at w1 w4
  have hr := matrixKeypadUpdate_debounce_rescan k₅ _ w2
    (by rw [w4]; simp [DEBOUNCE_KEY_TIME_MS])
  rw [w3] at hr
  simp only [h5, if_false] at hr
  rw [w1, hr]
  exact ⟨rfl, rfl⟩

/-- C5 as stated fails: from the start-up state (Scanning) the key '1' alone is
read as pressed on five consecutive 10 ms ticks (reads at 0, 10, 20, 30 and
40 ms) and as released on the three ticks after; `matrixKeypadUpdate` returns
no key on any of the eight ticks, so no key-release event is produced. -/
theorem matrixKeypad_press_of_five_ticks_lost :
    initialState.matrixKeypadState = MATRIX_KEYPAD_SCANNING ∧
    keyChar 0 0 = '1' ∧
    matrixKeypadOutputs (List.replicate 5 (onlyKey 0 0) ++ List.replicate 3 noKey) initialState
      = List.replicate 8 NUL := by
  decide

/-- C5, amended: from Scanning, when one key (and no other) is read as pressed
on at least six consecutive ticks, after any number of ticks with nothing
pressed, and is then read as released on at least one tick, the results of
`matrixKeypadUpdate` are: none on every tick up to the last pressed one, the
key's character on the first released tick, none on every later tick; the FSM
ends in Scanning. -/
theorem matrixKeypad_press_recognised (row col p n m : Nat) (s : State)
    (hr : row < 4) (hc : col < 4) (hn : 6 ≤ n) (hm : 1 ≤ m)
    (hs : s.matrixKeypadState = MATRIX_KEYPAD_SCANNING) :
    matrixKeypadOutputs
        (List.replicate p noKey ++ (List.replicate n (onlyKey row col) ++ List.replicate m noKey)) s
      = List.replicate (p + n) NUL ++ keyChar row col :: List.replicate (m - 1) NUL ∧
    keyChar row col ≠ NUL ∧
    (matrixKeypadFinal
        (List.replicate p noKey ++ (List.replicate n (onlyKey row col) ++ List.replicate m noKey))
        s).matrixKeypadState = MATRIX_KEYPAD_SCANNING := by
  obtain ⟨n, rfl⟩ : ∃ n', n = 6 + n' := ⟨n - 6, by omega⟩
  obtain ⟨m, rfl⟩ : ∃ m', m = 1 + m' := ⟨m - 1, by omega⟩
  obtain ⟨hscan, hne⟩ := matrixKeypadScan_onlyKey row col hr hc
  obtain ⟨i1, i2⟩ := matrixKeypadRun_scanning_idle p s hs
  have hsplit : List.replicate (6 + n) (onlyKey row col) =
      (onlyKey row col :: (List.replicate 4 (onlyKey row col) ++ [onlyKey row col])) ++
        List.replicate n (onlyKey row col) := by
    rw [List.replicate_add]; rfl
  obtain ⟨c1, c2, c3⟩ := matrixKeypadRun_press_confirmed (onlyKey row col) (onlyKey row col)
    (List.replicate 4 (onlyKey row col)) s hs (by simp) (by rw [hscan]; exact hne) rfl
  obtain ⟨d1, d2⟩ := matrixKeypadRun_hold_same n (onlyKey row col) _ c2 c3.symm
  have hrel := matrixKeypadUpdate_hold_other noKey _ c2
    (by rw [c3, matrixKeypadScan_noKey, hscan]; exact hne.symm)
  simp only [matrixKeypadScan_noKey, if_true, c3, hscan] at hrel
  have hrel1 : (matrixKeypadUpdate noKey (matrixKeypadFinal (onlyKey row col ::
      (List.replicate 4 (onlyKey row col) ++ [onlyKey row col])) s)).1 = keyChar row col := by
    rw [hrel]
  obtain ⟨e1, e2⟩ := matrixKeypadRun_scanning_idle m
    (matrixKeypadUpdate noKey (matrixKeypadFinal (onlyKey row col ::
      (List.replicate 4 (onlyKey row col) ++ [onlyKey row col])) s)).2 (by rw [hrel])
  have hm1 : List.replicate (1 + m) noKey = noKey :: List.replicate m noKey := by
    rw [Nat.add_comm]; rfl
  have hout : matrixKeypadOutputs
      (List.replicate p noKey ++
        (List.replicate (6 + n) (onlyKey row col) ++ List.replicate (1 + m) noKey)) s
      = List.replicate p NUL ++ ((List.replicate 6 NUL ++ List.replicate n NUL) ++
          (keyChar row col :: List.replicate m NUL)) := by
    rw [matrixKeypadOutputs_append, i1, i2, matrixKeypadOutputs_append, hsplit,
      matrixKeypadOutputs_append, c1, d1, matrixKeypadFinal_append, d2, hm1]
    rw [matrixKeypadOutputs, hrel1, e1]
  refine ⟨?_, hne, ?_⟩
  · rw [hout]
    simp only [Nat.add_sub_cancel_left, ← List.replicate_add, ← List.append_assoc]
  · rw [matrixKeypadFinal_append, i2, matrixKeypadFinal_append, hsplit,
      matrixKeypadFinal_append, d2, hm1]
    rw [matrixKeypadFinal, e2, hrel]

/-- C5 amended, at a concrete input: the key '8' (row 2, column 1) read on six
ticks and released for two, from the start-up state. -/
theorem matrixKeypad_press_recognised_witness :
    matrixKeypadOutputs
        (List.replicate 0 noKey ++ (List.replicate 6 (onlyKey 2 1) ++ List.replicate 2 noKey))
        initialState
      = List.replicate (0 + 6) NUL ++ keyChar 2 1 :: List.replicate (2 - 1) NUL ∧
    keyChar 2 1 ≠ NUL ∧
    (matrixKeypadFinal
        (List.replicate 0 noKey ++ (List.replicate 6 (onlyKey 2 1) ++ List.replicate 2 noKey))
        initialState).matrixKeypadState = MATRIX_KEYPAD_SCANNING :=
  matrixKeypad_press_recognised 2 1 0 6 2 initialState (by decide) (by decide) (by decide)
    (by decide) rfl

/-- C6 as stated fails: from the start-up state (Scanning) the key '1' alone is
read as pressed on one tick and nothing is read as pressed on the next tick,
where the input ends. `matrixKeypadUpdate` returns no key on either tick, but
the FSM is not back in Scanning: it is still in the debounce state, waiting
for the rescan. -/
theorem matrixKeypad_bounce_ends_debouncing :
    initialState.matrixKeypadState = MATRIX_KEYPAD_SCANNING ∧
    keyChar 0 0 = '1' ∧
    matrixKeypadOutputs [onlyKey 0 0, noKey] initialState = [NUL, NUL] ∧
    (matrixKeypadFinal [onlyKey 0 0, noKey] initialState).matrixKeypadState
      = MATRIX_KEYPAD_DEBOUNCE ∧
    (matrixKeypadFinal [onlyKey 0 0, noKey] initialState).matrixKeypadState
      ≠ MATRIX_KEYPAD_SCANNING := by
  decide

/-- C6, amended: from Scanning, when one key is read as pressed only on a run
of at most five consecutive ticks (every run spanning less than 40 ms is such
a run) and nothing is read as pressed on any other tick, `matrixKeypadUpdate`
returns none on every tick; the FSM is in Scanning at the end of every input
that reaches the rescan, the sixth tick counted from the first pressed one (or
in which the key is never pressed), and in the debounce state at the end of
every input that ends before the rescan. -/
theorem matrixKeypad_bounce_rejected (row col p n m : Nat) (s : State)
    (hr : row < 4) (hc : col < 4) (hn : n ≤ 5)
    (hs : s.matrixKeypadState = MATRIX_KEYPAD_SCANNING) :
    matrixKeypadOutputs
        (List.replicate p noKey ++ (List.replicate n (onlyKey row col) ++ List.replicate m noKey)) s
      = List.replicate (p + n + m) NUL ∧
    (n = 0 ∨ 6 ≤ n + m →
      (matrixKeypadFinal
        (List.replicate p noKey ++ (List.replicate n (onlyKey row col) ++ List.replicate m noKey))
        s).matrixKeypadState = MATRIX_KEYPAD_SCANNING) ∧
    (1 ≤ n → n + m ≤ 5 →
      (matrixKeypadFinal
        (List.replicate p noKey ++ (List.replicate n (onlyKey row col) ++ List.replicate m noKey))
        s).matrixKeypadState = MATRIX_KEYPAD_DEBOUNCE) := by
  obtain ⟨hscan, hne⟩ := matrixKeypadScan_onlyKey row col hr hc
  obtain ⟨i1, i2⟩ := matrixKeypadRun_scanning_idle p s hs
  rw [matrixKeypadOutputs_append, matrixKeypadFinal_append, i1, i2]
  rcases Nat.eq_zero_or_pos n with h0 | hpos
  · subst h0
    obtain ⟨e1, e2⟩ := matrixKeypadRun_scanning_idle m s hs
    simp only [List.replicate_zero, List.nil_append, e1, e2, Nat.add_zero]
    exact ⟨by rw [List.replicate_add], fun _ => hs, fun h => by omega⟩
  · obtain ⟨n, rfl⟩ : ∃ n', n = n' + 1 := ⟨n - 1, by omega⟩
    have hK : matrixKeypadScan (onlyKey row col) ≠ NUL := by rw [hscan]; exact hne
    by_cases hshort : n + m ≤ 4
    · have hstep := matrixKeypadUpdate_scanning_press (onlyKey row col) s hs hK
      obtain ⟨w1, w2, _, _⟩ := matrixKeypadRun_debounce_wait
        (List.replicate n (onlyKey row col) ++ List.replicate m noKey)
        (matrixKeypadUpdate (onlyKey row col) s).2 (by rw [hstep])
        (by rw [hstep]; simp only [List.length_append, List.length_replicate]; push_cast; omega)
      have h1 : (matrixKeypadUpdate (onlyKey row col) s).1 = NUL := by rw [hstep]
      refine ⟨?_, fun h => by omega, fun _ _ => ?_⟩
      · rw [List.replicate_succ, List.cons_append, matrixKeypadOutputs, h1, w1]
        simp only [List.length_append, List.length_replicate]
        rw [← List.replicate_succ, ← List.replicate_add]
        congr 1
        omega
      · rw [List.replicate_succ, List.cons_append, matrixKeypadFinal]
        exact w2
    · obtain ⟨m, rfl⟩ : ∃ m', m = (4 - n) + 1 + m' := ⟨m - (4 - n) - 1, by omega⟩
      have hlist : List.replicate (n + 1) (onlyKey row col) ++
            List.replicate ((4 - n) + 1 + m) noKey =
          (onlyKey row col :: ((List.replicate n (onlyKey row col) ++
            List.replicate (4 - n) noKey) ++ [noKey])) ++ List.replicate m noKey := by
        have h1 : List.replicate 1 noKey = [noKey] := rfl
        rw [List.replicate_succ, List.replicate_add, List.replicate_add, h1]
        simp only [List.cons_append, List.append_assoc]
      obtain ⟨c1, c2⟩ := matrixKeypadRun_press_dropped (onlyKey row col) noKey
        (List.replicate n (onlyKey row col) ++ List.replicate (4 - n) noKey) s hs
        (by simp only [List.length_append, List.length_replicate]; omega) hK
        (by rw [matrixKeypadScan_noKey]; exact hK.symm)
      obtain ⟨e1, e2⟩ := matrixKeypadRun_scanning_idle m _ c2
      rw [hlist, matrixKeypadOutputs_append, matrixKeypadFinal_append, c1, e1, e2]
      refine ⟨?_, fun _ => c2, fun _ h => by omega⟩
      rw [← List.replicate_add, ← List.replicate_add]
      congr 1
      omega

/-- C6 amended, at two concrete inputs from the start-up state: the key '5'
(row 1, column 1) read on three ticks and then released for four, which
reaches the rescan and ends in Scanning; and the same key read on three ticks
and released for two, which ends before the rescan, in the debounce state. -/
theorem matrixKeypad_bounce_rejected_witness :
    (matrixKeypadOutputs
        (List.replicate 1 noKey ++ (List.replicate 3 (onlyKey 1 1) ++ List.replicate 4 noKey))
        initialState
      = List.replicate (1 + 3 + 4) NUL ∧
    (matrixKeypadFinal
        (List.replicate 1 noKey ++ (List.replicate 3 (onlyKey 1 1) ++ List.replicate 4 noKey))
        initialState).matrixKeypadState = MATRIX_KEYPAD_SCANNING) ∧
    (matrixKeypadOutputs
        (List.replicate 1 noKey ++ (List.replicate 3 (onlyKey 1 1) ++ List.replicate 2 noKey))
        initialState
      = List.replicate (1 + 3 + 2) NUL ∧
    (matrixKeypadFinal
        (List.replicate 1 noKey ++ (List.replicate 3 (onlyKey 1 1) ++ List.replicate 2 noKey))
        initialState).matrixKeypadState = MATRIX_KEYPAD_DEBOUNCE) :=
  have h1 := matrixKeypad_bounce_rejected 1 1 1 3 4 initialState (by decide) (by decide)
    (by decide) rfl
  have h2 := matrixKeypad_bounce_rejected 1 1 1 3 2 initialState (by decide) (by decide)
    (by decide) rfl
  ⟨⟨h1.1, h1.2.1 (Or.inr (by decide))⟩, ⟨h2.1, h2.2.2 (by decide) (by decide)⟩⟩

/-! ## Code entry -/

/-- The keypad FSM only touches its own three variables. -/
theorem matrixKeypadUpdate_frame (keys : Keys) (s : State) :
    (matrixKeypadUpdate keys s).2 =
      { s with
        matrixKeypadLastKeyPressed := (matrixKeypadUpdate keys s).2.matrixKeypadLastKeyPressed
        accumulatedDebounceMatrixKeypadTime :=
          (matrixKeypadUpdate keys s).2.accumulatedDebounceMatrixKeypadTime
        matrixKeypadState := (matrixKeypadUpdate keys s).2.matrixKeypadState } := by
  cases s
  simp only [matrixKeypadUpdate]
  split <;> split_ifs <;> simp_all

theorem areEqual_iff (s : State) :
    areEqual s = true ↔ ∀ i : Int, 0 ≤ i → i < 4 → s.codeSequence i = s.keyPressed i := by
  simp only [areEqual, NUMBER_OF_KEYS]
  constructor
  · intro h i h0 h4
    simp only [List.all_eq_true, List.mem_range, beq_iff_eq] at h
    have := h i.toNat (by omega)
    rwa [Int.toNat_of_nonneg h0] at this
  · intro h
    simp only [List.all_eq_true, List.mem_range, beq_iff_eq]
    intro i hi
    exact h i (by omega) (by simp at hi; omega)

/-- With five incorrect codes counted the keypad is not even read. -/
theorem alarmDeactivationUpdate_locked (keys : Keys) (s : State)
    (h : 5 ≤ s.numberOfIncorrectCodes) :
    alarmDeactivationUpdate keys s = { s with systemBlockedLed := true } := by
  simp [alarmDeactivationUpdate, not_lt.mpr h]

/-- No key-release event, or the key '#': only the keypad FSM moves. -/
theorem alarmDeactivationUpdate_no_key (keys : Keys) (s : State)
    (hn : s.numberOfIncorrectCodes < 5)
    (hk : (matrixKeypadUpdate keys s).1 = NUL ∨ (matrixKeypadUpdate keys s).1 = '#') :
    alarmDeactivationUpdate keys s = (matrixKeypadUpdate keys s).2 := by
  simp only [alarmDeactivationUpdate, hn, if_true]
  rcases hk with hk | hk <;> simp [hk]

/-- A key-release event before the fourth slot: the key is stored and the
cursor advances. -/
theorem alarmDeactivationUpdate_key_stored (keys : Keys) (s : State)
    (hn : s.numberOfIncorrectCodes < 5)
    (hk0 : (matrixKeypadUpdate keys s).1 ≠ NUL) (hkh : (matrixKeypadUpdate keys s).1 ≠ '#')
    (hi : s.matrixKeypadCodeIndex < 3) :
    alarmDeactivationUpdate keys s =
      { (matrixKeypadUpdate keys s).2 with
        keyPressed := upd s.keyPressed s.matrixKeypadCodeIndex (matrixKeypadUpdate keys s).1
        matrixKeypadCodeIndex := s.matrixKeypadCodeIndex + 1 } := by
  have hf := matrixKeypadUpdate_frame keys s
  have h1 : (matrixKeypadUpdate keys s).2.matrixKeypadCodeIndex = s.matrixKeypadCodeIndex := by
    rw [hf]
  have h2 : (matrixKeypadUpdate keys s).2.keyPressed = s.keyPressed := by rw [hf]
  simp only [alarmDeactivationUpdate, hn, if_true, hk0, hkh, ne_eq, not_false_eq_true,
    and_self, h1, h2, NUMBER_OF_KEYS]
  rw [if_neg (by omega)]

/-- A key-release event at the fourth slot: the key is stored and the buffer is
compared with the code. -/
theorem alarmDeactivationUpdate_key_compared (keys : Keys) (s : State)
    (hn : s.numberOfIncorrectCodes < 5)
    (hk0 : (matrixKeypadUpdate keys s).1 ≠ NUL) (hkh : (matrixKeypadUpdate keys s).1 ≠ '#')
    (hi : 3 ≤ s.matrixKeypadCodeIndex) :
    alarmDeactivationUpdate keys s =
      if ∀ i : Int, 0 ≤ i → i < 4 → s.codeSequence i =
          upd s.keyPressed s.matrixKeypadCodeIndex (matrixKeypadUpdate keys s).1 i then
        { (matrixKeypadUpdate keys s).2 with
          keyPressed := upd s.keyPressed s.matrixKeypadCodeIndex (matrixKeypadUpdate keys s).1
          alarmState := false
          numberOfIncorrectCodes := 0
          matrixKeypadCodeIndex := 0 }
      else
        { (matrixKeypadUpdate keys s).2 with
          keyPressed := upd s.keyPressed s.matrixKeypadCodeIndex (matrixKeypadUpdate keys s).1
          incorrectCodeLed := true
          numberOfIncorrectCodes := s.numberOfIncorrectCodes + 1
          matrixKeypadCodeIndex := 0 } := by
  have hf := matrixKeypadUpdate_frame keys s
  have h1 : (matrixKeypadUpdate keys s).2.matrixKeypadCodeIndex = s.matrixKeypadCodeIndex := by
    rw [hf]
  have h2 : (matrixKeypadUpdate keys s).2.keyPressed = s.keyPressed := by rw [hf]
  have h3 : (matrixKeypadUpdate keys s).2.codeSequence = s.codeSequence := by rw [hf]
  have h4 : (matrixKeypadUpdate keys s).2.numberOfIncorrectCodes = s.numberOfIncorrectCodes := by
    rw [hf]
  simp only [alarmDeactivationUpdate, hn, if_true, hk0, hkh, ne_eq, not_false_eq_true,
    and_self, h1, h2, h4, NUMBER_OF_KEYS]
  rw [if_pos (by omega)]
  simp only [areEqual_iff, h3]

/-- C3: with fewer than 5 incorrect codes counted, when `alarmDeactivationUpdate`
receives a key-release event other than '#': at cursor 3, if the buffer with the
key written in slot 3 differs from codeSequence in one of the four slots, then
numberOfIncorrectCodes grows by exactly 1, the cursor returns to 0, the
incorrect-code LED is on and alarmState is unchanged; at a cursor below 3,
numberOfIncorrectCodes is unchanged. -/
theorem alarmDeactivationUpdate_wrong_code (keys : Keys) (s : State)
    (hn : s.numberOfIncorrectCodes < 5)
    (hk0 : (matrixKeypadUpdate keys s).1 ≠ NUL) (hkh : (matrixKeypadUpdate keys s).1 ≠ '#') :
    (s.matrixKeypadCodeIndex = 3 →
      (∃ i : Int, 0 ≤ i ∧ i < 4 ∧
        upd s.keyPressed 3 (matrixKeypadUpdate keys s).1 i ≠ s.codeSequence i) →
      (alarmDeactivationUpdate keys s).numberOfIncorrectCodes = s.numberOfIncorrectCodes + 1 ∧
      (alarmDeactivationUpdate keys s).matrixKeypadCodeIndex = 0 ∧
      (alarmDeactivationUpdate keys s).incorrectCodeLed = true ∧
      (alarmDeactivationUpdate keys s).alarmState = s.alarmState) ∧
    (s.matrixKeypadCodeIndex < 3 →
      (alarmDeactivationUpdate keys s).numberOfIncorrectCodes = s.numberOfIncorrectCodes) := by
  have hf := matrixKeypadUpdate_frame keys s
  constructor
  · intro hi ⟨i, h0, h4, hne⟩
    rw [alarmDeactivationUpdate_key_compared keys s hn hk0 hkh (by omega), hi]
    rw [if_neg (fun hall => hne (hall i h0 h4).symm)]
    refine ⟨rfl, rfl, rfl, ?_⟩
    show (matrixKeypadUpdate keys s).2.alarmState = s.alarmState
    rw [hf]
  · intro hi
    rw [alarmDeactivationUpdate_key_stored keys s hn hk0 hkh hi]
    show (matrixKeypadUpdate keys s).2.numberOfIncorrectCodes = s.numberOfIncorrectCodes
    rw [hf]

/-- C3 at a concrete call: alarm on, cursor 3, buffer "000", the held key '9'
is released: the buffer "0009" differs from the code "1805" in slot 0. -/
theorem alarmDeactivationUpdate_wrong_code_witness :
    (matrixKeypadUpdate noKey fourthKeyHeldState).1 = '9' ∧
    fourthKeyHeldState.numberOfIncorrectCodes = 0 ∧
    ((alarmDeactivationUpdate noKey fourthKeyHeldState).numberOfIncorrectCodes =
        fourthKeyHeldState.numberOfIncorrectCodes + 1 ∧
      (alarmDeactivationUpdate noKey fourthKeyHeldState).matrixKeypadCodeIndex = 0 ∧
      (alarmDeactivationUpdate noKey fourthKeyHeldState).incorrectCodeLed = true ∧
      (alarmDeactivationUpdate noKey fourthKeyHeldState).alarmState =
        fourthKeyHeldState.alarmState) :=
  ⟨by decide, rfl,
   (alarmDeactivationUpdate_wrong_code noKey fourthKeyHeldState (by decide) (by decide)
      (by decide)).1 rfl ⟨0, by decide, by decide, by decide⟩⟩

/-! ## Frame conditions of the three functions of a tick -/

/-- What `alarmActivationUpdate` never writes. -/
theorem alarmActivationUpdate_frame (lm mq : ℚ) (t : Bool) (s : State) :
    (alarmActivationUpdate lm mq t s).numberOfIncorrectCodes = s.numberOfIncorrectCodes ∧
    (alarmActivationUpdate lm mq t s).keyPressed = s.keyPressed ∧
    (alarmActivationUpdate lm mq t s).matrixKeypadCodeIndex = s.matrixKeypadCodeIndex ∧
    (alarmActivationUpdate lm mq t s).codeSequence = s.codeSequence ∧
    (alarmActivationUpdate lm mq t s).systemBlockedLed = s.systemBlockedLed ∧
    (alarmActivationUpdate lm mq t s).incorrectCodeLed = s.incorrectCodeLed ∧
    (alarmActivationUpdate lm mq t s).eventsIndex = s.eventsIndex ∧
    (alarmActivationUpdate lm mq t s).arrayOfStoredEvents = s.arrayOfStoredEvents ∧
    (alarmActivationUpdate lm mq t s).alarmLastState = s.alarmLastState ∧
    (alarmActivationUpdate lm mq t s).gasLastState = s.gasLastState ∧
    (alarmActivationUpdate lm mq t s).tempLastState = s.tempLastState ∧
    (alarmActivationUpdate lm mq t s).matrixKeypadState = s.matrixKeypadState ∧
    (alarmActivationUpdate lm mq t s).matrixKeypadLastKeyPressed = s.matrixKeypadLastKeyPressed ∧
    (alarmActivationUpdate lm mq t s).accumulatedDebounceMatrixKeypadTime =
      s.accumulatedDebounceMatrixKeypadTime := by
  unfold alarmActivationUpdate
  rw [beforeHandling_eq]
  simp only [alarmStateHandling]
  split_ifs <;> simp [mq2Update_eq, lm35Update_eq]

/-- The function `systemElementStateUpdate` only writes the log and its cursor. -/
theorem systemElementStateUpdate_frame (now : Int) (l c : Bool) (name : String) (s : State) :
    systemElementStateUpdate now l c name s =
      { s with
        arrayOfStoredEvents := (systemElementStateUpdate now l c name s).arrayOfStoredEvents
        eventsIndex := (systemElementStateUpdate now l c name s).eventsIndex } := by
  cases s
  simp only [systemElementStateUpdate]
  split_ifs <;> simp_all

/-- The function `eventLogUpdate` only writes the log, its cursor and the three
last-state variables. -/
theorem eventLogUpdate_frame (t₁ t₂ t₃ : Int) (s : State) :
    eventLogUpdate t₁ t₂ t₃ s =
      { s with
        arrayOfStoredEvents := (eventLogUpdate t₁ t₂ t₃ s).arrayOfStoredEvents
        eventsIndex := (eventLogUpdate t₁ t₂ t₃ s).eventsIndex
        alarmLastState := s.alarmState
        gasLastState := s.gasDetectorState
        tempLastState := s.overTempDetector } := by
  have key : ∃ arr idx, eventLogUpdate t₁ t₂ t₃ s =
      { s with
        arrayOfStoredEvents := arr
        eventsIndex := idx
        alarmLastState := s.alarmState
        gasLastState := s.gasDetectorState
        tempLastState := s.overTempDetector } := by
    simp only [eventLogUpdate]
    generalize h1 : systemElementStateUpdate t₁ s.alarmLastState s.alarmState "ALARM" s = s1
    have f1 := systemElementStateUpdate_frame t₁ s.alarmLastState s.alarmState "ALARM" s
    rw [h1] at f1
    generalize s1.arrayOfStoredEvents = a1 at f1
    generalize s1.eventsIndex = i1 at f1
    subst f1
    dsimp only
    generalize h2 : systemElementStateUpdate t₂ s.gasLastState s.gasDetectorState "GAS_DET" _ = s2
    have f2 := h2.symm.trans (systemElementStateUpdate_frame _ _ _ _ _)
    rw [h2] at f2
    generalize s2.arrayOfStoredEvents = a2 at f2
    generalize s2.eventsIndex = i2 at f2
    subst f2
    dsimp only
    generalize h3 : systemElementStateUpdate t₃ s.tempLastState s.overTempDetector "OVER_TEMP" _
      = s3
    have f3 := h3.symm.trans (systemElementStateUpdate_frame _ _ _ _ _)
    rw [h3] at f3
    generalize s3.arrayOfStoredEvents = a3 at f3
    generalize s3.eventsIndex = i3 at f3
    subst f3
    exact ⟨a3, i3, rfl⟩
  obtain ⟨arr, idx, h⟩ := key
  rw [h]

/-- One tick of the control loop in the lockout. -/
theorem coreTick_locked (i : TickInput) (s : State) (h : 5 ≤ s.numberOfIncorrectCodes) :
    (coreTick i s).numberOfIncorrectCodes = s.numberOfIncorrectCodes ∧
    (coreTick i s).keyPressed = s.keyPressed ∧
    (coreTick i s).matrixKeypadCodeIndex = s.matrixKeypadCodeIndex ∧
    (s.alarmState = true → (coreTick i s).alarmState = true) ∧
    (coreTick i s).systemBlockedLed = true := by
  obtain ⟨f1, f2, f3, -⟩ := alarmActivationUpdate_frame i.lm35Read i.mq2Read i.alarmTestButton s
  have hA := alarmActivationUpdate_alarmState i.lm35Read i.mq2Read i.alarmTestButton s
  unfold coreTick
  rw [eventLogUpdate_frame, alarmDeactivationUpdate_locked _ _ (by rw [f1]; exact h)]
  refine ⟨f1, f2, f3, ?_, rfl⟩
  intro ha
  show (alarmActivationUpdate i.lm35Read i.mq2Read i.alarmTestButton s).alarmState = true
  rw [hA, ha]
  rfl

theorem coreTicks_locked (ticks : List TickInput) (s : State)
    (h : 5 ≤ s.numberOfIncorrectCodes) :
    (coreTicks ticks s).numberOfIncorrectCodes = s.numberOfIncorrectCodes ∧
    (coreTicks ticks s).keyPressed = s.keyPressed ∧
    (coreTicks ticks s).matrixKeypadCodeIndex = s.matrixKeypadCodeIndex ∧
    (s.alarmState = true → (coreTicks ticks s).alarmState = true) ∧
    (s.systemBlockedLed = true ∨ ticks ≠ [] → (coreTicks ticks s).systemBlockedLed = true) := by
  induction ticks generalizing s with
  | nil => simp [coreTicks]
  | cons i is ih =>
    obtain ⟨c1, c2, c3, c4, c5⟩ := coreTick_locked i s h
    obtain ⟨r1, r2, r3, r4, r5⟩ := ih (coreTick i s) (by rw [c1]; exact h)
    simp only [coreTicks]
    exact ⟨r1.trans c1, r2.trans c2, r3.trans c3, fun ha => r4 (c4 ha), fun _ => r5 (Or.inl c5)⟩

/-- C4: once numberOfIncorrectCodes is 5 (or more), a call of
`alarmDeactivationUpdate` with any keypad input turns the lockout LED on and
changes nothing else (alarmState, keyPressed, the cursor, the counter and the
keypad FSM are as before); and after any sequence of ticks of the control loop
(activation, deactivation, event log), with any sensor, button, keypad and clock
inputs, the counter, the code-entry buffer and the cursor are unchanged, the
lockout LED is on, and an alarm that was on is still on. -/
theorem lockout_is_sticky (s : State) (h : 5 ≤ s.numberOfIncorrectCodes) :
    (∀ keys : Keys, alarmDeactivationUpdate keys s = { s with systemBlockedLed := true }) ∧
    (∀ ticks : List TickInput,
      (coreTicks ticks s).numberOfIncorrectCodes = s.numberOfIncorrectCodes ∧
      (coreTicks ticks s).keyPressed = s.keyPressed ∧
      (coreTicks ticks s).matrixKeypadCodeIndex = s.matrixKeypadCodeIndex ∧
      (s.alarmState = true → (coreTicks ticks s).alarmState = true) ∧
      (ticks ≠ [] → (coreTicks ticks s).systemBlockedLed = true)) :=
  ⟨fun keys => alarmDeactivationUpdate_locked keys s h,
   fun ticks =>
    let ⟨r1, r2, r3, r4, r5⟩ := coreTicks_locked ticks s h
    ⟨r1, r2, r3, r4, fun hne => r5 (Or.inr hne)⟩⟩

/-- C4 at a concrete state: alarm on with five incorrect codes counted. -/
theorem lockout_is_sticky_witness :
    lockedState.numberOfIncorrectCodes = 5 ∧ lockedState.alarmState = true ∧
    (∀ keys : Keys,
      alarmDeactivationUpdate keys lockedState = { lockedState with systemBlockedLed := true }) ∧
    (∀ ticks : List TickInput,
      (coreTicks ticks lockedState).numberOfIncorrectCodes = lockedState.numberOfIncorrectCodes ∧
      (coreTicks ticks lockedState).keyPressed = lockedState.keyPressed ∧
      (coreTicks ticks lockedState).matrixKeypadCodeIndex = lockedState.matrixKeypadCodeIndex ∧
      (lockedState.alarmState = true → (coreTicks ticks lockedState).alarmState = true) ∧
      (ticks ≠ [] → (coreTicks ticks lockedState).systemBlockedLed = true)) :=
  ⟨rfl, rfl, lockout_is_sticky lockedState (by decide)⟩

/-! ## Entering the code -/

theorem matrixKeypadUpdate_keeps (keys : Keys) (s : State) :
    (matrixKeypadUpdate keys s).2.numberOfIncorrectCodes = s.numberOfIncorrectCodes ∧
    (matrixKeypadUpdate keys s).2.matrixKeypadCodeIndex = s.matrixKeypadCodeIndex ∧
    (matrixKeypadUpdate keys s).2.keyPressed = s.keyPressed ∧
    (matrixKeypadUpdate keys s).2.codeSequence = s.codeSequence ∧
    (matrixKeypadUpdate keys s).2.alarmState = s.alarmState := by
  have hf := matrixKeypadUpdate_frame keys s
  refine ⟨?_, ?_, ?_, ?_, ?_⟩ <;> rw [hf]

/-- Once the alarm is off with counter and cursor at 0, calls without a
key-release event keep it so. -/
theorem alarmDeactivationRun_no_event (inputs : List Keys) (s : State)
    (ha : s.alarmState = false) (hn : s.numberOfIncorrectCodes = 0)
    (hi : s.matrixKeypadCodeIndex = 0) (hev : keyReleaseEvents inputs s = []) :
    (alarmDeactivationRun inputs s).alarmState = false ∧
    (alarmDeactivationRun inputs s).numberOfIncorrectCodes = 0 ∧
    (alarmDeactivationRun inputs s).matrixKeypadCodeIndex = 0 := by
  induction inputs generalizing s with
  | nil => exact ⟨ha, hn, hi⟩
  | cons k ks ih =>
    have hlt : s.numberOfIncorrectCodes < 5 := by omega
    obtain ⟨k1, k2, -, -, k5⟩ := matrixKeypadUpdate_keeps k s
    simp only [keyReleaseEvents, hlt, true_and, List.append_eq_nil] at hev
    obtain ⟨hev1, hev2⟩ := hev
    have hr : (matrixKeypadUpdate k s).1 = NUL := by
      by_contra hne
      simp [hne] at hev1
    have hstep := alarmDeactivationUpdate_no_key k s hlt (Or.inl hr)
    simp only [alarmDeactivationRun]
    rw [hstep] at hev2 ⊢
    exact ih _ (k5.trans ha) (k1.trans hn) (k2.trans hi) hev2

/-- With the cursor at `j` and the first `j` slots of the buffer equal to the
code, receiving exactly the remaining characters of the code turns the alarm
off. -/
theorem alarmDeactivationRun_code_entry (inputs : List Keys) (s : State) (j : Nat)
    (hj : j ≤ 3) (hn : s.numberOfIncorrectCodes < 5) (hi : s.matrixKeypadCodeIndex = (j : Int))
    (hpre : ∀ i : Int, 0 ≤ i → i < (j : Int) → s.codeSequence i = s.keyPressed i)
    (hh : ∀ i : Int, 0 ≤ i → i < 4 → s.codeSequence i ≠ '#')
    (hev : keyReleaseEvents inputs s =
      (List.range' j (4 - j)).map (fun i : Nat => s.codeSequence (i : Int))) :
    (alarmDeactivationRun inputs s).alarmState = false ∧
    (alarmDeactivationRun inputs s).numberOfIncorrectCodes = 0 ∧
    (alarmDeactivationRun inputs s).matrixKeypadCodeIndex = 0 := by
  induction inputs generalizing s j with
  | nil =>
    exfalso
    have := congrArg List.length hev
    simp [keyReleaseEvents] at this
    omega
  | cons k ks ih =>
    obtain ⟨k1, k2, k3, k4, -⟩ := matrixKeypadUpdate_keeps k s
    have h4j : 4 - j = (3 - j) + 1 := by omega
    simp only [keyReleaseEvents, hn, true_and] at hev
    simp only [alarmDeactivationRun]
    by_cases hr : (matrixKeypadUpdate k s).1 = NUL
    · have hstep := alarmDeactivationUpdate_no_key k s hn (Or.inl hr)
      simp only [hr, ne_eq, not_true_eq_false, if_false, List.nil_append] at hev
      rw [hstep] at hev ⊢
      refine ih _ j hj (by rw [k1]; exact hn) (k2.trans hi) ?_ ?_ ?_
      · intro i h0 hlt; rw [k3, k4]; exact hpre i h0 hlt
      · intro i h0 hlt; rw [k4]; exact hh i h0 hlt
      · rw [k4]; exact hev
    · simp only [hr, ne_eq, not_false_eq_true, if_true, h4j, List.range'_succ, List.map_cons,
        List.singleton_append, List.cons.injEq] at hev
      obtain ⟨hkey, hrest⟩ := hev
      have hkh : (matrixKeypadUpdate k s).1 ≠ '#' := by
        rw [hkey]; exact hh j (by omega) (by omega)
      by_cases hlast : j < 3
      · have hstep := alarmDeactivationUpdate_key_stored k s hn hr hkh (by omega)
        rw [hstep] at hrest ⊢
        refine ih _ (j + 1) (by omega) (by simpa using k1 ▸ hn) ?_ ?_ ?_ ?_
        · simp only [hi]; push_cast; rfl
        · intro i h0 hlt
          simp only [k4, upd, hi]
          split_ifs with hij
          · rw [hkey, hij]
          · exact hpre i h0 (by push_cast at hlt; omega)
        · intro i h0 hlt; simp only [k4]; exact hh i h0 hlt
        · have h43 : 4 - (j + 1) = 3 - j := by omega
          rw [h43]
          show keyReleaseEvents ks _ =
            List.map (fun i : Nat => (matrixKeypadUpdate k s).2.codeSequence (i : Int)) _
          rw [k4]
          exact hrest
      · have hj3 : j = 3 := by omega
        subst hj3
        have hstep := alarmDeactivationUpdate_key_compared k s hn hr hkh (by omega)
        have hall : ∀ i : Int, 0 ≤ i → i < 4 → s.codeSequence i =
            upd s.keyPressed s.matrixKeypadCodeIndex (matrixKeypadUpdate k s).1 i := by
          intro i h0 hlt
          simp only [upd, hi]
          split_ifs with hij
          · rw [hkey, hij]
          · exact hpre i h0 (by push_cast at hij ⊢; omega)
        rw [if_pos hall] at hstep
        rw [hstep] at hrest ⊢
        exact alarmDeactivationRun_no_event ks _ rfl rfl rfl (by simpa using hrest)

/-- C2: from a state with fewer than 5 incorrect codes counted and the cursor at
0, when a sequence of calls of `alarmDeactivationUpdate` receives exactly four
key-release events, equal in order to the four characters of codeSequence (none
of which is '#'), it ends with alarmState OFF, numberOfIncorrectCodes = 0 and
matrixKeypadCodeIndex = 0. Calls without an event may come before, between and
after the four events. -/
theorem correct_code_deactivates (inputs : List Keys) (s : State)
    (hn : s.numberOfIncorrectCodes < 5) (hi : s.matrixKeypadCodeIndex = 0)
    (hh : ∀ i : Int, 0 ≤ i → i < 4 → s.codeSequence i ≠ '#')
    (hev : keyReleaseEvents inputs s =
      [s.codeSequence 0, s.codeSequence 1, s.codeSequence 2, s.codeSequence 3]) :
    (alarmDeactivationRun inputs s).alarmState = false ∧
    (alarmDeactivationRun inputs s).numberOfIncorrectCodes = 0 ∧
    (alarmDeactivationRun inputs s).matrixKeypadCodeIndex = 0 :=
  alarmDeactivationRun_code_entry inputs s 0 (by omega) hn hi
    (fun i h0 hlt => absurd hlt (by push_cast; omega)) hh hev

/-- C2 at a concrete run: alarm on, default code, the keystrokes '1', '8', '0',
'5' on the keypad (28 ticks). -/
theorem correct_code_deactivates_witness :
    alarmOnState.alarmState = true ∧
    keyReleaseEvents enter1805 alarmOnState = ['1', '8', '0', '5'] ∧
    (alarmDeactivationRun enter1805 alarmOnState).alarmState = false ∧
    (alarmDeactivationRun enter1805 alarmOnState).numberOfIncorrectCodes = 0 ∧
    (alarmDeactivationRun enter1805 alarmOnState).matrixKeypadCodeIndex = 0 :=
  ⟨rfl, by decide,
   correct_code_deactivates enter1805 alarmOnState (by decide) rfl
    (fun i h0 h4 => by interval_cases i <;> decide) (by decide)⟩

/-! ## Event log -/

theorem lastN_append_lastN {α : Type} (k : Nat) (A B : List α) :
    lastN k (lastN k A ++ B) = lastN k (A ++ B) := by
  unfold lastN
  have h1 : (A ++ B).length - k = (A.length - k) + ((List.drop (A.length - k) A ++ B).length - k) := by
    simp only [List.length_append, List.length_drop]; omega
  have h2 : List.drop (A.length - k) (A ++ B) = List.drop (A.length - k) A ++ B :=
    List.drop_append_of_le_length (by omega)
  rw [h1, ← List.drop_drop, h2]

theorem shiftEvents_apply (arr : Int → systemEvent_t) :
    shiftEvents arr = fun j => if j = 0 then arr 1 else if j = 1 then arr 2
      else if j = 2 then arr 3 else if j = 3 then arr 4 else arr j := by
  funext j
  simp only [shiftEvents, EVENT_MAX_STORAGE, upd]
  simp [List.range', upd]
  split_ifs <;> first | rfl | omega

/-- Effect of a rising edge on the log. -/
theorem systemElementStateUpdate_rising (now : Int) (name : String) (s : State)
    (h0 : 0 ≤ s.eventsIndex) (h5 : s.eventsIndex ≤ 5) :
    storedEvents (systemElementStateUpdate now false true name s) =
      lastN 5 (storedEvents s ++ [eventRecord (now, name)]) ∧
    (systemElementStateUpdate now false true name s).eventsIndex = min (s.eventsIndex + 1) 5 := by
  obtain ⟨k, hk⟩ : ∃ k : Nat, s.eventsIndex = (k : Int) := ⟨s.eventsIndex.toNat, by omega⟩
  have hk5 : k ≤ 5 := by omega
  interval_cases k <;>
    simp [storedEvents, systemElementStateUpdate, hk, EVENT_MAX_STORAGE, shiftEvents_apply,
      upd, lastN, eventRecord, List.range_succ]

theorem storedEvents_length (s : State) : (storedEvents s).length = s.eventsIndex.toNat := by
  simp [storedEvents]

theorem recordAll_stored (recs : List (Int × String)) (s : State)
    (h0 : 0 ≤ s.eventsIndex) (h5 : s.eventsIndex ≤ 5) :
    storedEvents (recordAll recs s) = lastN 5 (storedEvents s ++ recs.map eventRecord) ∧
    (recordAll recs s).eventsIndex = min (s.eventsIndex + recs.length) 5 := by
  induction recs generalizing s with
  | nil =>
    simp only [recordAll, List.map_nil, List.append_nil, lastN, storedEvents_length,
      List.length_nil, Nat.cast_zero, add_zero]
    refine ⟨?_, by omega⟩
    rw [show s.eventsIndex.toNat - 5 = 0 by omega, List.drop_zero]
  | cons r rs ih =>
    obtain ⟨e1, e2⟩ := systemElementStateUpdate_rising r.1 r.2 s h0 h5
    obtain ⟨i1, i2⟩ := ih (systemElementStateUpdate r.1 false true r.2 s)
      (by rw [e2]; omega) (by rw [e2]; omega)
    simp only [recordAll]
    refine ⟨?_, ?_⟩
    · rw [i1, e1, lastN_append_lastN, List.map_cons, List.append_assoc]
      rfl
    · rw [i2, e2]
      simp only [List.length_cons]
      push_cast
      omega

/-- C7: starting from an empty log, after any sequence of rising-edge calls of
`systemElementStateUpdate` (with element names that fit the 14-byte name buffer
together with the suffix), the stored records, slots 0 to eventsIndex - 1, are
the last min(n, 5) of the n appended records, in the order of the calls, and
eventsIndex = min(n, 5). -/
theorem eventLog_fifo (recs : List (Int × String)) (s : State)
    (he : s.eventsIndex = 0)
    (_hfit : ∀ r ∈ recs, (r.2 ++ "_ON").utf8ByteSize < EVENT_NAME_MAX_LENGTH) :
    storedEvents (recordAll recs s) = lastN (min recs.length 5) (recs.map eventRecord) ∧
    (recordAll recs s).eventsIndex = min recs.length 5 := by
  obtain ⟨h1, h2⟩ := recordAll_stored recs s (by omega) (by omega)
  have hs : storedEvents s = [] := by simp [storedEvents, he]
  rw [hs, List.nil_append] at h1
  refine ⟨?_, ?_⟩
  · rw [h1]
    simp only [lastN, List.length_map]
    congr 1
    omega
  · rw [h2, he]
    push_cast
    omega

/-- C7 at six records appended to the empty start-up log: the first is gone and
the log holds records 2 to 6 in order. -/
theorem eventLog_fifo_witness :
    storedEvents (recordAll
        [(10, "ALARM"), (20, "GAS_DET"), (30, "OVER_TEMP"), (40, "ALARM"), (50, "GAS_DET"),
          (60, "OVER_TEMP")] initialState)
      = [⟨20, "GAS_DET_ON"⟩, ⟨30, "OVER_TEMP_ON"⟩, ⟨40, "ALARM_ON"⟩, ⟨50, "GAS_DET_ON"⟩,
          ⟨60, "OVER_TEMP_ON"⟩] ∧
    (recordAll
        [(10, "ALARM"), (20, "GAS_DET"), (30, "OVER_TEMP"), (40, "ALARM"), (50, "GAS_DET"),
          (60, "OVER_TEMP")] initialState).eventsIndex = 5 :=
  eventLog_fifo
    [(10, "ALARM"), (20, "GAS_DET"), (30, "OVER_TEMP"), (40, "ALARM"), (50, "GAS_DET"),
      (60, "OVER_TEMP")] initialState rfl (by decide)

/-- Bounds kept by one call of `systemElementStateUpdate`, whatever the edge. -/
theorem systemElementStateUpdate_bounds (now : Int) (l c : Bool) (name : String) (s : State)
    (h0 : 0 ≤ s.eventsIndex) (h5 : s.eventsIndex ≤ 5) :
    0 ≤ (systemElementStateUpdate now l c name s).eventsIndex ∧
    (systemElementStateUpdate now l c name s).eventsIndex ≤ 5 ∧
    (∀ i ∈ systemElementStateUpdateWrites l c s, 0 ≤ i ∧ i < 5) ∧
    (∀ j, j ∉ systemElementStateUpdateWrites l c s →
      (systemElementStateUpdate now l c name s).arrayOfStoredEvents j =
        s.arrayOfStoredEvents j) := by
  by_cases hedge : l = false ∧ c = true
  · obtain ⟨rfl, rfl⟩ := hedge
    by_cases hfull : 5 ≤ s.eventsIndex
    · have hw : systemElementStateUpdateWrites false true s = [0, 1, 2, 3, 4] := by
        simp [systemElementStateUpdateWrites, EVENT_MAX_STORAGE, hfull, List.range']
      have he : (systemElementStateUpdate now false true name s).eventsIndex = 5 := by
        simp [systemElementStateUpdate, EVENT_MAX_STORAGE, hfull]
      rw [hw, he]
      refine ⟨by omega, by omega, ?_, ?_⟩
      · intro i hi
        simp only [List.mem_cons, List.mem_singleton, List.not_mem_nil, or_false] at hi
        omega
      · intro j hj
        simp only [List.mem_cons, List.mem_singleton, List.not_mem_nil, or_false, not_or] at hj
        obtain ⟨j0, j1, j2, j3, j4⟩ := hj
        simp [systemElementStateUpdate, EVENT_MAX_STORAGE, hfull, shiftEvents_apply, upd, j0, j1,
          j2, j3, j4]
    · have hw : systemElementStateUpdateWrites false true s = [s.eventsIndex] := by
        simp [systemElementStateUpdateWrites, EVENT_MAX_STORAGE, hfull]
      have he : (systemElementStateUpdate now false true name s).eventsIndex =
          s.eventsIndex + 1 := by
        simp [systemElementStateUpdate, EVENT_MAX_STORAGE, hfull]
      rw [hw, he]
      refine ⟨by omega, by omega, ?_, ?_⟩
      · intro i hi
        simp only [List.mem_singleton] at hi
        omega
      · intro j hj
        simp only [List.mem_singleton] at hj
        simp [systemElementStateUpdate, EVENT_MAX_STORAGE, hfull, upd, hj]
  · have hne : ¬ (l ≠ c ∧ c = true) := by
      intro ⟨h1, h2⟩
      apply hedge
      subst h2
      cases l
      · exact ⟨rfl, rfl⟩
      · exact absurd rfl h1
    simp only [systemElementStateUpdate, systemElementStateUpdateWrites, hne, if_false]
    exact ⟨h0, h5, fun i hi => absurd hi (List.not_mem_nil i), fun _ _ => trivial⟩

/-- C8: 0 <= eventsIndex <= 5 is kept by every call of
`systemElementStateUpdate` and by every call of `eventLogUpdate`; every index of
arrayOfStoredEvents they write is in [0, 5), and a call of
`systemElementStateUpdate` changes no slot outside the indices it writes. -/
theorem eventLog_bounded (s : State) (h0 : 0 ≤ s.eventsIndex) (h5 : s.eventsIndex ≤ 5) :
    (∀ (now : Int) (l c : Bool) (name : String),
      0 ≤ (systemElementStateUpdate now l c name s).eventsIndex ∧
      (systemElementStateUpdate now l c name s).eventsIndex ≤ 5 ∧
      (∀ i ∈ systemElementStateUpdateWrites l c s, 0 ≤ i ∧ i < 5) ∧
      (∀ j, j ∉ systemElementStateUpdateWrites l c s →
        (systemElementStateUpdate now l c name s).arrayOfStoredEvents j =
          s.arrayOfStoredEvents j)) ∧
    (∀ t₁ t₂ t₃ : Int,
      0 ≤ (eventLogUpdate t₁ t₂ t₃ s).eventsIndex ∧
      (eventLogUpdate t₁ t₂ t₃ s).eventsIndex ≤ 5 ∧
      (∀ i ∈ eventLogUpdateWrites t₁ t₂ s, 0 ≤ i ∧ i < 5)) := by
  refine ⟨fun now l c name => systemElementStateUpdate_bounds now l c name s h0 h5, ?_⟩
  intro t₁ t₂ t₃
  obtain ⟨a1, a2, a3, -⟩ :=
    systemElementStateUpdate_bounds t₁ s.alarmLastState s.alarmState "ALARM" s h0 h5
  simp only [eventLogUpdate, eventLogUpdateWrites]
  generalize systemElementStateUpdate t₁ s.alarmLastState s.alarmState "ALARM" s = s1 at a1 a2 ⊢
  obtain ⟨b1, b2, b3, -⟩ :=
    systemElementStateUpdate_bounds t₂ s1.gasLastState s1.gasDetectorState "GAS_DET"
      { s1 with alarmLastState := s1.alarmState } a1 a2
  generalize systemElementStateUpdate t₂ s1.gasLastState s1.gasDetectorState "GAS_DET"
      { s1 with alarmLastState := s1.alarmState } = s2 at b1 b2 ⊢
  obtain ⟨c1, c2, c3, -⟩ :=
    systemElementStateUpdate_bounds t₃ s2.tempLastState s2.overTempDetector "OVER_TEMP"
      { s2 with gasLastState := s2.gasDetectorState } b1 b2
  refine ⟨c1, c2, ?_⟩
  intro i hi
  simp only [List.mem_append] at hi
  rcases hi with (hi | hi) | hi
  · exact a3 i hi
  · exact b3 i hi
  · exact c3 i hi

/-- C8 at the full log: a rising edge there evicts and appends. -/
theorem eventLog_bounded_witness :
    fullLogState.eventsIndex = 5 ∧
    systemElementStateUpdateWrites false true fullLogState = [0, 1, 2, 3, 4] ∧
    (∀ (now : Int) (l c : Bool) (name : String),
      0 ≤ (systemElementStateUpdate now l c name fullLogState).eventsIndex ∧
      (systemElementStateUpdate now l c name fullLogState).eventsIndex ≤ 5 ∧
      (∀ i ∈ systemElementStateUpdateWrites l c fullLogState, 0 ≤ i ∧ i < 5) ∧
      (∀ j, j ∉ systemElementStateUpdateWrites l c fullLogState →
        (systemElementStateUpdate now l c name fullLogState).arrayOfStoredEvents j =
          fullLogState.arrayOfStoredEvents j)) ∧
    (∀ t₁ t₂ t₃ : Int,
      0 ≤ (eventLogUpdate t₁ t₂ t₃ fullLogState).eventsIndex ∧
      (eventLogUpdate t₁ t₂ t₃ fullLogState).eventsIndex ≤ 5 ∧
      (∀ i ∈ eventLogUpdateWrites t₁ t₂ fullLogState, 0 ≤ i ∧ i < 5)) :=
  ⟨rfl, by decide, eventLog_bounded fullLogState (by decide) (by decide)⟩

/-- C9: a call `systemElementStateUpdate now lastState currentState name` on a
log with 0 <= eventsIndex <= 5 and a name that fits the 14-byte buffer together
with the suffix: when lastState is OFF and currentState is ON it appends the one
record with seconds = now and typeOfEvent = name followed by "_ON" (after the
stored records when fewer than 5 are stored, eventsIndex growing by 1; after
dropping the oldest when 5 are stored, eventsIndex staying 5); in every other
case the state, so the log and eventsIndex, is unchanged. -/
theorem systemElementStateUpdate_edge (now : Int) (l c : Bool) (name : String) (s : State)
    (h0 : 0 ≤ s.eventsIndex) (h5 : s.eventsIndex ≤ 5)
    (_hfit : (name ++ "_ON").utf8ByteSize < EVENT_NAME_MAX_LENGTH) :
    (l = false → c = true →
      (s.eventsIndex < 5 →
        storedEvents (systemElementStateUpdate now l c name s) =
          storedEvents s ++ [⟨now, name ++ "_ON"⟩] ∧
        (systemElementStateUpdate now l c name s).eventsIndex = s.eventsIndex + 1) ∧
      (s.eventsIndex = 5 →
        storedEvents (systemElementStateUpdate now l c name s) =
          (storedEvents s).drop 1 ++ [⟨now, name ++ "_ON"⟩] ∧
        (systemElementStateUpdate now l c name s).eventsIndex = 5)) ∧
    (¬ (l = false ∧ c = true) → systemElementStateUpdate now l c name s = s) := by
  constructor
  · intro hl hc
    subst hl hc
    obtain ⟨e1, e2⟩ := systemElementStateUpdate_rising now name s h0 h5
    have hlen := storedEvents_length s
    constructor
    · intro hlt
      refine ⟨?_, by rw [e2]; omega⟩
      rw [e1, lastN, List.length_append, hlen, List.length_singleton,
        show s.eventsIndex.toNat + 1 - 5 = 0 by omega, List.drop_zero]
      rfl
    · intro heq
      refine ⟨?_, by rw [e2]; omega⟩
      rw [e1, lastN, List.length_append, hlen, List.length_singleton,
        show s.eventsIndex.toNat + 1 - 5 = 1 by omega,
        List.drop_append_of_le_length (by rw [hlen]; omega)]
      rfl
  · intro hne
    have : ¬ (l ≠ c ∧ c = true) := by
      intro ⟨h1, h2⟩
      apply hne
      subst h2
      cases l
      · exact ⟨rfl, rfl⟩
      · exact absurd rfl h1
    simp only [systemElementStateUpdate, this, if_false]

/-- C9 at a rising edge of "ALARM" at time 7 on the full log. -/
theorem systemElementStateUpdate_edge_witness :
    storedEvents (systemElementStateUpdate 7 false true "ALARM" fullLogState) =
      [⟨2, "e2"⟩, ⟨3, "e3"⟩, ⟨4, "e4"⟩, ⟨5, "e5"⟩, ⟨7, "ALARM_ON"⟩] ∧
    (systemElementStateUpdate 7 false true "ALARM" fullLogState).eventsIndex = 5 ∧
    systemElementStateUpdate 7 true true "ALARM" fullLogState = fullLogState :=
  ⟨((systemElementStateUpdate_edge 7 false true "ALARM" fullLogState (by decide) (by decide)
      (by decide)).1 rfl rfl).2 rfl |>.1,
   ((systemElementStateUpdate_edge 7 false true "ALARM" fullLogState (by decide) (by decide)
      (by decide)).1 rfl rfl).2 rfl |>.2,
   (systemElementStateUpdate_edge 7 true true "ALARM" fullLogState (by decide) (by decide)
      (by decide)).2 (by decide)⟩

/-! ## Alarm handling, release and frames -/

/-- Effect of the section "Alarm State Handling" when the alarm is off. -/
theorem alarmStateHandling_idle (s : State) (h : s.alarmState = false) :
    alarmStateHandling s =
      { s with
        alarmLed := false
        gasDetectorState := false
        overTempDetectorState := false
        sirenPinIsOutput := false
        lastGasDetectorState := false
        lastOverTempDetector := false } := by
  simp [alarmStateHandling, h]

/-- The siren pin after the section "Alarm State Handling" when the alarm is on. -/
theorem alarmStateHandling_siren (s : State) (h : s.alarmState = true) :
    (alarmStateHandling s).sirenPinIsOutput = true ∧
    (alarmStateHandling s).sirenPinLevel = false := by
  simp only [alarmStateHandling, h, if_true]
  split_ifs <;> exact ⟨rfl, rfl⟩

/-! ## Keypad hold state -/

/-- C15 as stated fails: in the hold state with last key '1', a scan that shows
the different key '2' makes `matrixKeypadUpdate` return no key (not '1') while
the FSM goes to Scanning. -/
theorem matrixKeypad_hold_other_key_emits_nothing :
    keyOneHeldState.matrixKeypadState = MATRIX_KEYPAD_KEY_HOLD_PRESSED ∧
    keyOneHeldState.matrixKeypadLastKeyPressed = '1' ∧
    matrixKeypadScan (onlyKey 0 1) = '2' ∧
    (matrixKeypadUpdate (onlyKey 0 1) keyOneHeldState).1 = NUL ∧
    (matrixKeypadUpdate (onlyKey 0 1) keyOneHeldState).2.matrixKeypadState =
      MATRIX_KEYPAD_SCANNING := by
  decide

/-- C15, amended: in the hold state with last key k, when the scan shows no
key `matrixKeypadUpdate` returns k and the FSM goes to Scanning; when the scan
shows a different key it returns no key and the FSM goes to Scanning; while the
scan still shows k it returns no key and leaves the state as it is (hold). -/
theorem matrixKeypadUpdate_hold (keys : Keys) (s : State)
    (hs : s.matrixKeypadState = MATRIX_KEYPAD_KEY_HOLD_PRESSED) :
    (matrixKeypadScan keys ≠ s.matrixKeypadLastKeyPressed → matrixKeypadScan keys = NUL →
      (matrixKeypadUpdate keys s).1 = s.matrixKeypadLastKeyPressed ∧
      (matrixKeypadUpdate keys s).2.matrixKeypadState = MATRIX_KEYPAD_SCANNING) ∧
    (matrixKeypadScan keys ≠ s.matrixKeypadLastKeyPressed → matrixKeypadScan keys ≠ NUL →
      (matrixKeypadUpdate keys s).1 = NUL ∧
      (matrixKeypadUpdate keys s).2.matrixKeypadState = MATRIX_KEYPAD_SCANNING) ∧
    (matrixKeypadScan keys = s.matrixKeypadLastKeyPressed →
      (matrixKeypadUpdate keys s).1 = NUL ∧ (matrixKeypadUpdate keys s).2 = s) := by
  refine ⟨fun hne h0 => ?_, fun hne h0 => ?_, fun heq => ?_⟩
  · rw [matrixKeypadUpdate_hold_other keys s hs hne, if_pos h0]
    exact ⟨rfl, rfl⟩
  · rw [matrixKeypadUpdate_hold_other keys s hs hne, if_neg h0]
    exact ⟨rfl, rfl⟩
  · rw [matrixKeypadUpdate_hold_same keys s hs heq]
    exact ⟨rfl, rfl⟩

/-- C15 amended, at the held key '1': released, it is reported; replaced by
'2', nothing is reported; still held, nothing changes. -/
theorem matrixKeypadUpdate_hold_witness :
    ((matrixKeypadUpdate noKey keyOneHeldState).1 = '1' ∧
      (matrixKeypadUpdate noKey keyOneHeldState).2.matrixKeypadState = MATRIX_KEYPAD_SCANNING) ∧
    ((matrixKeypadUpdate (onlyKey 0 1) keyOneHeldState).1 = NUL ∧
      (matrixKeypadUpdate (onlyKey 0 1) keyOneHeldState).2.matrixKeypadState =
        MATRIX_KEYPAD_SCANNING) ∧
    ((matrixKeypadUpdate (onlyKey 0 0) keyOneHeldState).1 = NUL ∧
      (matrixKeypadUpdate (onlyKey 0 0) keyOneHeldState).2 = keyOneHeldState) :=
  ⟨(matrixKeypadUpdate_hold noKey keyOneHeldState rfl).1 (by decide) (by decide),
   (matrixKeypadUpdate_hold (onlyKey 0 1) keyOneHeldState rfl).2.1 (by decide) (by decide),
   (matrixKeypadUpdate_hold (onlyKey 0 0) keyOneHeldState rfl).2.2 (by decide)⟩

/-! ## Outputs of `alarmActivationUpdate` -/

/-- The whole of `alarmActivationUpdate` on a tick that leaves the alarm off. -/
theorem alarmActivationUpdate_idle (lm mq : ℚ) (t : Bool) (s : State)
    (h : (alarmActivationUpdate lm mq t s).alarmState = false) :
    alarmActivationUpdate lm mq t s =
      { mq2Update mq (lm35Update lm s) with
        alarmState := false
        alarmLed := false
        gasDetectorState := false
        overTempDetectorState := false
        sirenPinIsOutput := false
        lastGasDetectorState := false
        lastOverTempDetector := false } := by
  have ha := h
  unfold alarmActivationUpdate at ha ⊢
  rw [alarmStateHandling_alarmState] at ha
  rw [alarmStateHandling_idle _ ha]
  rw [beforeHandling_eq] at ha ⊢
  simp only [State.mk.injEq, and_true, true_and]
  exact ha

/-- The tick used below: alarm off, all readings zero, test button released. -/
theorem idleAfterBlinkState_stays_idle :
    (alarmActivationUpdate 0 0 false idleAfterBlinkState).alarmState = false := by
  have hm : upd idleAfterBlinkState.mq2ReadingsArray idleAfterBlinkState.mq2SampleIndex 0
      = fun _ => 0 := upd_same (fun _ => 0) 0
  have h3 : (mq2Update 0 idleAfterBlinkState).mq2ReadingsAverage = 0 := by
    rw [mq2Update_eq]
    simp only [hm, readingsSum_const]
    norm_num
  rw [alarmActivationUpdate_alarmState, h3]
  simp only [GAS_DETECTION_THRESHOLD, idleAfterBlinkState, initialState]
  norm_num

/-- The test button pressed in the start-up state switches the alarm on. -/
theorem initialState_test_activates :
    (alarmActivationUpdate 0 0 true initialState).alarmState = true := by
  rw [alarmActivationUpdate_alarmState]
  simp [initialState]

/-- C16 as stated fails: with the alarm off, no gas, no over-temperature, the
test button released and 50 ms left in the accumulator (as after a
deactivation between two toggles), `alarmActivationUpdate` leaves the alarm off
and the accumulator at 50, not 0. -/
theorem alarmActivationUpdate_idle_keeps_accumulator :
    idleAfterBlinkState.alarmState = false ∧
    (alarmActivationUpdate 0 0 false idleAfterBlinkState).alarmState = false ∧
    (alarmActivationUpdate 0 0 false idleAfterBlinkState).accumulatedTimeAlarm = 50 := by
  have ha := idleAfterBlinkState_stays_idle
  refine ⟨rfl, ha, ?_⟩
  rw [alarmActivationUpdate_idle 0 0 false _ ha]
  simp [mq2Update_eq, lm35Update_eq, idleAfterBlinkState]

/-- C16, amended: on a tick of `alarmActivationUpdate` that leaves the alarm on
and changes the level of the alarm LED (a toggle), accumulatedTimeAlarm is 0
after the tick; on a tick that leaves the alarm off, accumulatedTimeAlarm keeps
the value it had before the tick. -/
theorem alarmActivationUpdate_accumulator (lm mq : ℚ) (t : Bool) (s : State) :
    ((alarmActivationUpdate lm mq t s).alarmState = true →
      (alarmActivationUpdate lm mq t s).alarmLed = (!s.alarmLed) →
      (alarmActivationUpdate lm mq t s).accumulatedTimeAlarm = 0) ∧
    ((alarmActivationUpdate lm mq t s).alarmState = false →
      (alarmActivationUpdate lm mq t s).accumulatedTimeAlarm = s.accumulatedTimeAlarm) := by
  constructor
  · intro ha hled
    unfold alarmActivationUpdate at ha hled ⊢
    rw [alarmStateHandling_alarmState] at ha
    obtain ⟨h1, h2, -⟩ := alarmStateHandling_active _ ha
    apply h2
    apply h1.mp
    rw [hled, beforeHandling_eq]
    simp [mq2Update_eq, lm35Update_eq]
  · intro ha
    rw [alarmActivationUpdate_idle lm mq t s ha]
    simp [mq2Update_eq, lm35Update_eq]

/-- C16 amended, at two concrete ticks: a toggle at 100 ms with both flags on,
and an idle tick that keeps 50 ms. -/
theorem alarmActivationUpdate_accumulator_witness :
    (alarmActivationUpdate 0 0 true blinkState).accumulatedTimeAlarm = 0 ∧
    (alarmActivationUpdate 0 0 false idleAfterBlinkState).accumulatedTimeAlarm =
      idleAfterBlinkState.accumulatedTimeAlarm := by
  have hidle := idleAfterBlinkState_stays_idle
  have hon : (alarmActivationUpdate 0 0 true blinkState).alarmState = true := by
    rw [alarmActivationUpdate_alarmState]; rfl
  have hled : (alarmActivationUpdate 0 0 true blinkState).alarmLed = (!blinkState.alarmLed) := by
    obtain ⟨b1, b2, b3, -⟩ := alarmActivationUpdate_blink 0 0 true blinkState hon
    apply b3.mpr
    rw [b1, b2, Bool.or_true, Bool.or_true]
    exact ⟨100, rfl, by decide⟩
  exact ⟨(alarmActivationUpdate_accumulator 0 0 true blinkState).1 hon hled,
    (alarmActivationUpdate_accumulator 0 0 false idleAfterBlinkState).2 hidle⟩

/-- C18: after a tick of `alarmActivationUpdate` that leaves the alarm off, the
alarm LED is off, the siren pin is an input (released), and gasDetectorState,
overTempDetectorState, lastGasDetectorState and lastOverTempDetector are all
off; after a tick that leaves the alarm on, the siren pin is an output driven
low. -/
theorem alarmActivationUpdate_outputs (lm mq : ℚ) (t : Bool) (s : State) :
    ((alarmActivationUpdate lm mq t s).alarmState = false →
      (alarmActivationUpdate lm mq t s).alarmLed = false ∧
      (alarmActivationUpdate lm mq t s).sirenPinIsOutput = false ∧
      (alarmActivationUpdate lm mq t s).gasDetectorState = false ∧
      (alarmActivationUpdate lm mq t s).overTempDetectorState = false ∧
      (alarmActivationUpdate lm mq t s).lastGasDetectorState = false ∧
      (alarmActivationUpdate lm mq t s).lastOverTempDetector = false) ∧
    ((alarmActivationUpdate lm mq t s).alarmState = true →
      (alarmActivationUpdate lm mq t s).sirenPinIsOutput = true ∧
      (alarmActivationUpdate lm mq t s).sirenPinLevel = false) := by
  constructor
  · intro ha
    rw [alarmActivationUpdate_idle lm mq t s ha]
    exact ⟨rfl, rfl, rfl, rfl, rfl, rfl⟩
  · intro ha
    unfold alarmActivationUpdate at ha ⊢
    rw [alarmStateHandling_alarmState] at ha
    exact alarmStateHandling_siren _ ha

/-- C18 at two concrete ticks: the test button pressed in the start-up state
(alarm on, siren driven low) and an idle tick. -/
theorem alarmActivationUpdate_outputs_witness :
    ((alarmActivationUpdate 0 0 true initialState).sirenPinIsOutput = true ∧
      (alarmActivationUpdate 0 0 true initialState).sirenPinLevel = false) ∧
    (alarmActivationUpdate 0 0 false idleAfterBlinkState).sirenPinIsOutput = false :=
  ⟨(alarmActivationUpdate_outputs 0 0 true initialState).2 initialState_test_activates,
   ((alarmActivationUpdate_outputs 0 0 false idleAfterBlinkState).1
      idleAfterBlinkState_stays_idle).2.1⟩

/-! ## Code entry: cursor and frame -/

/-- The five ways a call of `alarmDeactivationUpdate` can go. -/
theorem alarmDeactivationUpdate_cases (keys : Keys) (s : State) :
    (5 ≤ s.numberOfIncorrectCodes ∧
      alarmDeactivationUpdate keys s = { s with systemBlockedLed := true }) ∨
    (s.numberOfIncorrectCodes < 5 ∧
      ((matrixKeypadUpdate keys s).1 = NUL ∨ (matrixKeypadUpdate keys s).1 = '#') ∧
      alarmDeactivationUpdate keys s = (matrixKeypadUpdate keys s).2) ∨
    (s.numberOfIncorrectCodes < 5 ∧ (matrixKeypadUpdate keys s).1 ≠ NUL ∧
      (matrixKeypadUpdate keys s).1 ≠ '#' ∧ s.matrixKeypadCodeIndex < 3 ∧
      alarmDeactivationUpdate keys s =
        { (matrixKeypadUpdate keys s).2 with
          keyPressed := upd s.keyPressed s.matrixKeypadCodeIndex (matrixKeypadUpdate keys s).1
          matrixKeypadCodeIndex := s.matrixKeypadCodeIndex + 1 }) ∨
    (s.numberOfIncorrectCodes < 5 ∧ (matrixKeypadUpdate keys s).1 ≠ NUL ∧
      (matrixKeypadUpdate keys s).1 ≠ '#' ∧ 3 ≤ s.matrixKeypadCodeIndex ∧
      (∀ i : Int, 0 ≤ i → i < 4 → s.codeSequence i =
        upd s.keyPressed s.matrixKeypadCodeIndex (matrixKeypadUpdate keys s).1 i) ∧
      alarmDeactivationUpdate keys s =
        { (matrixKeypadUpdate keys s).2 with
          keyPressed := upd s.keyPressed s.matrixKeypadCodeIndex (matrixKeypadUpdate keys s).1
          alarmState := false
          numberOfIncorrectCodes := 0
          matrixKeypadCodeIndex := 0 }) ∨
    (s.numberOfIncorrectCodes < 5 ∧ (matrixKeypadUpdate keys s).1 ≠ NUL ∧
      (matrixKeypadUpdate keys s).1 ≠ '#' ∧ 3 ≤ s.matrixKeypadCodeIndex ∧
      (¬ ∀ i : Int, 0 ≤ i → i < 4 → s.codeSequence i =
        upd s.keyPressed s.matrixKeypadCodeIndex (matrixKeypadUpdate keys s).1 i) ∧
      alarmDeactivationUpdate keys s =
        { (matrixKeypadUpdate keys s).2 with
          keyPressed := upd s.keyPressed s.matrixKeypadCodeIndex (matrixKeypadUpdate keys s).1
          incorrectCodeLed := true
          numberOfIncorrectCodes := s.numberOfIncorrectCodes + 1
          matrixKeypadCodeIndex := 0 }) := by
  by_cases hn : s.numberOfIncorrectCodes < 5
  · by_cases h0 : (matrixKeypadUpdate keys s).1 = NUL
    · exact Or.inr (Or.inl ⟨hn, Or.inl h0, alarmDeactivationUpdate_no_key keys s hn (Or.inl h0)⟩)
    · by_cases hh : (matrixKeypadUpdate keys s).1 = '#'
      · exact Or.inr (Or.inl ⟨hn, Or.inr hh,
          alarmDeactivationUpdate_no_key keys s hn (Or.inr hh)⟩)
      · by_cases hi : s.matrixKeypadCodeIndex < 3
        · exact Or.inr (Or.inr (Or.inl ⟨hn, h0, hh, hi,
            alarmDeactivationUpdate_key_stored keys s hn h0 hh hi⟩))
        · have hi3 : 3 ≤ s.matrixKeypadCodeIndex := by omega
          have hc := alarmDeactivationUpdate_key_compared keys s hn h0 hh hi3
          by_cases heq : ∀ i : Int, 0 ≤ i → i < 4 → s.codeSequence i =
              upd s.keyPressed s.matrixKeypadCodeIndex (matrixKeypadUpdate keys s).1 i
          · rw [if_pos heq] at hc
            exact Or.inr (Or.inr (Or.inr (Or.inl ⟨hn, h0, hh, hi3, heq, hc⟩)))
          · rw [if_neg heq] at hc
            exact Or.inr (Or.inr (Or.inr (Or.inr ⟨hn, h0, hh, hi3, heq, hc⟩)))
  · exact Or.inl ⟨by omega, alarmDeactivationUpdate_locked keys s (by omega)⟩

/-- What `alarmDeactivationUpdate` never writes. -/
theorem alarmDeactivationUpdate_frame (keys : Keys) (s : State) :
    (alarmDeactivationUpdate keys s).codeSequence = s.codeSequence ∧
    (alarmDeactivationUpdate keys s).eventsIndex = s.eventsIndex ∧
    (alarmDeactivationUpdate keys s).arrayOfStoredEvents = s.arrayOfStoredEvents ∧
    (alarmDeactivationUpdate keys s).alarmLastState = s.alarmLastState ∧
    (alarmDeactivationUpdate keys s).gasLastState = s.gasLastState ∧
    (alarmDeactivationUpdate keys s).tempLastState = s.tempLastState ∧
    (alarmDeactivationUpdate keys s).gasDetectorState = s.gasDetectorState ∧
    (alarmDeactivationUpdate keys s).overTempDetector = s.overTempDetector ∧
    (alarmDeactivationUpdate keys s).overTempDetectorState = s.overTempDetectorState ∧
    (alarmDeactivationUpdate keys s).lm35ReadingsArray = s.lm35ReadingsArray ∧
    (alarmDeactivationUpdate keys s).lm35SampleIndex = s.lm35SampleIndex ∧
    (alarmDeactivationUpdate keys s).mq2ReadingsArray = s.mq2ReadingsArray ∧
    (alarmDeactivationUpdate keys s).mq2SampleIndex = s.mq2SampleIndex ∧
    (alarmDeactivationUpdate keys s).accumulatedTimeAlarm = s.accumulatedTimeAlarm ∧
    (alarmDeactivationUpdate keys s).alarmLed = s.alarmLed ∧
    (alarmDeactivationUpdate keys s).sirenPinIsOutput = s.sirenPinIsOutput ∧
    (alarmDeactivationUpdate keys s).sirenPinLevel = s.sirenPinLevel ∧
    (alarmDeactivationUpdate keys s).lastGasDetectorState = s.lastGasDetectorState ∧
    (alarmDeactivationUpdate keys s).lastOverTempDetector = s.lastOverTempDetector := by
  have hf := matrixKeypadUpdate_frame keys s
  rcases alarmDeactivationUpdate_cases keys s with
    ⟨-, h⟩ | ⟨-, -, h⟩ | ⟨-, -, -, -, h⟩ | ⟨-, -, -, -, -, h⟩ | ⟨-, -, -, -, -, h⟩ <;>
  · rw [h]
    refine ⟨?_, ?_, ?_, ?_, ?_, ?_, ?_, ?_, ?_, ?_, ?_, ?_, ?_, ?_, ?_, ?_, ?_, ?_, ?_⟩ <;>
      first
      | rfl
      | (show (matrixKeypadUpdate keys s).2.codeSequence = _; rw [hf])
      | (show (matrixKeypadUpdate keys s).2.eventsIndex = _; rw [hf])
      | (show (matrixKeypadUpdate keys s).2.arrayOfStoredEvents = _; rw [hf])
      | (show (matrixKeypadUpdate keys s).2.alarmLastState = _; rw [hf])
      | (show (matrixKeypadUpdate keys s).2.gasLastState = _; rw [hf])
      | (show (matrixKeypadUpdate keys s).2.tempLastState = _; rw [hf])
      | (show (matrixKeypadUpdate keys s).2.gasDetectorState = _; rw [hf])
      | (show (matrixKeypadUpdate keys s).2.overTempDetector = _; rw [hf])
      | (show (matrixKeypadUpdate keys s).2.overTempDetectorState = _; rw [hf])
      | (show (matrixKeypadUpdate keys s).2.lm35ReadingsArray = _; rw [hf])
      | (show (matrixKeypadUpdate keys s).2.lm35SampleIndex = _; rw [hf])
      | (show (matrixKeypadUpdate keys s).2.mq2ReadingsArray = _; rw [hf])
      | (show (matrixKeypadUpdate keys s).2.mq2SampleIndex = _; rw [hf])
      | (show (matrixKeypadUpdate keys s).2.accumulatedTimeAlarm = _; rw [hf])
      | (show (matrixKeypadUpdate keys s).2.alarmLed = _; rw [hf])
      | (show (matrixKeypadUpdate keys s).2.sirenPinIsOutput = _; rw [hf])
      | (show (matrixKeypadUpdate keys s).2.sirenPinLevel = _; rw [hf])
      | (show (matrixKeypadUpdate keys s).2.lastGasDetectorState = _; rw [hf])
      | (show (matrixKeypadUpdate keys s).2.lastOverTempDetector = _; rw [hf])

/-- C17: 0 <= matrixKeypadCodeIndex <= 3 is kept by every call of
`alarmDeactivationUpdate`; the index of keyPressed it writes (if it writes) is
in [0, 4) and no other slot of keyPressed changes; and on a key-release event
other than '#' (with fewer than 5 incorrect codes counted) the buffer is
compared with the code exactly at cursor 3: below 3 the cursor advances by one
and counter and alarmState are untouched, at 3 the cursor returns to 0 and
either the buffer equals the code (alarm off, counter 0) or it does not
(counter + 1). -/
theorem codeIndex_in_bounds (keys : Keys) (s : State)
    (h0 : 0 ≤ s.matrixKeypadCodeIndex) (h3 : s.matrixKeypadCodeIndex ≤ 3) :
    0 ≤ (alarmDeactivationUpdate keys s).matrixKeypadCodeIndex ∧
    (alarmDeactivationUpdate keys s).matrixKeypadCodeIndex ≤ 3 ∧
    (∀ i ∈ alarmDeactivationUpdateWrites keys s, 0 ≤ i ∧ i < 4) ∧
    (∀ j, j ∉ alarmDeactivationUpdateWrites keys s →
      (alarmDeactivationUpdate keys s).keyPressed j = s.keyPressed j) ∧
    (s.numberOfIncorrectCodes < 5 → (matrixKeypadUpdate keys s).1 ≠ NUL →
      (matrixKeypadUpdate keys s).1 ≠ '#' →
      (s.matrixKeypadCodeIndex < 3 →
        (alarmDeactivationUpdate keys s).matrixKeypadCodeIndex = s.matrixKeypadCodeIndex + 1 ∧
        (alarmDeactivationUpdate keys s).numberOfIncorrectCodes = s.numberOfIncorrectCodes ∧
        (alarmDeactivationUpdate keys s).alarmState = s.alarmState) ∧
      (s.matrixKeypadCodeIndex = 3 →
        (alarmDeactivationUpdate keys s).matrixKeypadCodeIndex = 0 ∧
        (((∀ i : Int, 0 ≤ i → i < 4 → s.codeSequence i =
              upd s.keyPressed 3 (matrixKeypadUpdate keys s).1 i) ∧
            (alarmDeactivationUpdate keys s).alarmState = false ∧
            (alarmDeactivationUpdate keys s).numberOfIncorrectCodes = 0) ∨
          ((¬ ∀ i : Int, 0 ≤ i → i < 4 → s.codeSequence i =
              upd s.keyPressed 3 (matrixKeypadUpdate keys s).1 i) ∧
            (alarmDeactivationUpdate keys s).numberOfIncorrectCodes =
              s.numberOfIncorrectCodes + 1)))) := by
  obtain ⟨k1, k2, k3, -, k5⟩ := matrixKeypadUpdate_keeps keys s
  rcases alarmDeactivationUpdate_cases keys s with
    ⟨hn, h⟩ | ⟨hn, hk, h⟩ | ⟨hn, hk0, hkh, hi, h⟩ | ⟨hn, hk0, hkh, hi, heq, h⟩ |
      ⟨hn, hk0, hkh, hi, heq, h⟩
  · have hw : alarmDeactivationUpdateWrites keys s = [] := by
      simp [alarmDeactivationUpdateWrites, not_lt.mpr hn]
    rw [h, hw]
    exact ⟨h0, h3, fun i hi => absurd hi (List.not_mem_nil i), fun _ _ => rfl,
      fun hlt => absurd hlt (not_lt.mpr hn)⟩
  · have hw : alarmDeactivationUpdateWrites keys s = [] := by
      rcases hk with hk | hk <;> simp [alarmDeactivationUpdateWrites, hk]
    rw [h, hw, k2, k3]
    refine ⟨h0, h3, fun i hi => absurd hi (List.not_mem_nil i), fun _ _ => rfl, ?_⟩
    intro _ hk0 hkh
    rcases hk with hk | hk
    · exact absurd hk hk0
    · exact absurd hk hkh
  · have hw : alarmDeactivationUpdateWrites keys s = [s.matrixKeypadCodeIndex] := by
      simp [alarmDeactivationUpdateWrites, hn, hk0, hkh, k2]
    rw [h, hw]
    refine ⟨by show 0 ≤ s.matrixKeypadCodeIndex + 1; omega,
      by show s.matrixKeypadCodeIndex + 1 ≤ 3; omega, ?_, ?_, ?_⟩
    · intro i hi
      simp only [List.mem_singleton] at hi
      omega
    · intro j hj
      simp only [List.mem_singleton] at hj
      simp [upd, hj]
    · intro _ _ _
      exact ⟨fun _ => ⟨rfl, k1, k5⟩, fun h3' => absurd h3' (by omega)⟩
  · have hw : alarmDeactivationUpdateWrites keys s = [s.matrixKeypadCodeIndex] := by
      simp [alarmDeactivationUpdateWrites, hn, hk0, hkh, k2]
    have hi3 : s.matrixKeypadCodeIndex = 3 := by omega
    rw [h, hw]
    refine ⟨le_refl _, by show (0 : Int) ≤ 3; omega, ?_, ?_, ?_⟩
    · intro i hi
      simp only [List.mem_singleton] at hi
      omega
    · intro j hj
      simp only [List.mem_singleton] at hj
      simp [upd, hj]
    · intro _ _ _
      refine ⟨fun hlt => absurd hlt (by omega), fun _ => ⟨rfl, Or.inl ⟨?_, rfl, rfl⟩⟩⟩
      rw [← hi3]; exact heq
  · have hw : alarmDeactivationUpdateWrites keys s = [s.matrixKeypadCodeIndex] := by
      simp [alarmDeactivationUpdateWrites, hn, hk0, hkh, k2]
    have hi3 : s.matrixKeypadCodeIndex = 3 := by omega
    rw [h, hw]
    refine ⟨le_refl _, by show (0 : Int) ≤ 3; omega, ?_, ?_, ?_⟩
    · intro i hi
      simp only [List.mem_singleton] at hi
      omega
    · intro j hj
      simp only [List.mem_singleton] at hj
      simp [upd, hj]
    · intro _ _ _
      refine ⟨fun hlt => absurd hlt (by omega), fun _ => ⟨rfl, Or.inr ⟨?_, rfl⟩⟩⟩
      rw [← hi3]; exact heq

/-- C17 at a concrete call: cursor 3, the held key '9' is released; slot 3 is
written and the cursor returns to 0. -/
theorem codeIndex_in_bounds_witness :
    fourthKeyHeldState.matrixKeypadCodeIndex = 3 ∧
    alarmDeactivationUpdateWrites noKey fourthKeyHeldState = [3] ∧
    0 ≤ (alarmDeactivationUpdate noKey fourthKeyHeldState).matrixKeypadCodeIndex ∧
    (alarmDeactivationUpdate noKey fourthKeyHeldState).matrixKeypadCodeIndex ≤ 3 ∧
    (∀ i ∈ alarmDeactivationUpdateWrites noKey fourthKeyHeldState, 0 ≤ i ∧ i < 4) :=
  ⟨rfl, by decide,
   (codeIndex_in_bounds noKey fourthKeyHeldState (by decide) (by decide)).1,
   (codeIndex_in_bounds noKey fourthKeyHeldState (by decide) (by decide)).2.1,
   (codeIndex_in_bounds noKey fourthKeyHeldState (by decide) (by decide)).2.2.1⟩

/-- C19: with fewer than 5 incorrect codes counted, a call of
`alarmDeactivationUpdate` that receives the key-release event '#' leaves
keyPressed, matrixKeypadCodeIndex, numberOfIncorrectCodes and alarmState
unchanged; a call that receives any other key-release event writes that
character to keyPressed at the cursor it found. -/
theorem alarmDeactivationUpdate_hash (keys : Keys) (s : State)
    (hn : s.numberOfIncorrectCodes < 5) :
    ((matrixKeypadUpdate keys s).1 = '#' →
      (alarmDeactivationUpdate keys s).keyPressed = s.keyPressed ∧
      (alarmDeactivationUpdate keys s).matrixKeypadCodeIndex = s.matrixKeypadCodeIndex ∧
      (alarmDeactivationUpdate keys s).numberOfIncorrectCodes = s.numberOfIncorrectCodes ∧
      (alarmDeactivationUpdate keys s).alarmState = s.alarmState) ∧
    ((matrixKeypadUpdate keys s).1 ≠ NUL → (matrixKeypadUpdate keys s).1 ≠ '#' →
      (alarmDeactivationUpdate keys s).keyPressed =
        upd s.keyPressed s.matrixKeypadCodeIndex (matrixKeypadUpdate keys s).1) := by
  obtain ⟨k1, k2, k3, -, k5⟩ := matrixKeypadUpdate_keeps keys s
  constructor
  · intro hh
    rw [alarmDeactivationUpdate_no_key keys s hn (Or.inr hh)]
    exact ⟨k3, k2, k1, k5⟩
  · intro hk0 hkh
    rcases alarmDeactivationUpdate_cases keys s with
      ⟨hn', -⟩ | ⟨-, hk, -⟩ | ⟨-, -, -, -, h⟩ | ⟨-, -, -, -, -, h⟩ | ⟨-, -, -, -, -, h⟩
    · omega
    · rcases hk with hk | hk
      · exact absurd hk hk0
      · exact absurd hk hkh
    · rw [h]
    · rw [h]
    · rw [h]

/-- C19 at two concrete calls: the held key '#' is released (nothing of the
code entry moves), and the held key '9' is released at cursor 3 (written to
slot 3). -/
theorem alarmDeactivationUpdate_hash_witness :
    (matrixKeypadUpdate noKey hashHeldState).1 = '#' ∧
    ((alarmDeactivationUpdate noKey hashHeldState).keyPressed = hashHeldState.keyPressed ∧
      (alarmDeactivationUpdate noKey hashHeldState).matrixKeypadCodeIndex =
        hashHeldState.matrixKeypadCodeIndex ∧
      (alarmDeactivationUpdate noKey hashHeldState).numberOfIncorrectCodes =
        hashHeldState.numberOfIncorrectCodes ∧
      (alarmDeactivationUpdate noKey hashHeldState).alarmState = hashHeldState.alarmState) ∧
    (alarmDeactivationUpdate noKey fourthKeyHeldState).keyPressed =
      upd fourthKeyHeldState.keyPressed fourthKeyHeldState.matrixKeypadCodeIndex
        (matrixKeypadUpdate noKey fourthKeyHeldState).1 :=
  ⟨by decide,
   (alarmDeactivationUpdate_hash noKey hashHeldState (by decide)).1 (by decide),
   (alarmDeactivationUpdate_hash noKey fourthKeyHeldState (by decide)).2 (by decide)
     (by decide)⟩

/-! ## The alarm latches -/

/-- C20: when alarmState is ON, `alarmActivationUpdate` leaves it ON for every
sensor reading and test-button level; and a tick of the control loop
(activation, deactivation, event log) that starts with alarmState ON ends with
it OFF only if `alarmDeactivationUpdate` received, with fewer than 5 incorrect
codes counted and the cursor at the fourth slot, a key-release event other than
'#' that made the buffer equal to codeSequence. -/
theorem alarm_latches (s : State) (h : s.alarmState = true) :
    (∀ (lm mq : ℚ) (t : Bool), (alarmActivationUpdate lm mq t s).alarmState = true) ∧
    (∀ i : TickInput, (coreTick i s).alarmState = false →
      s.numberOfIncorrectCodes < 5 ∧
      (matrixKeypadUpdate i.keys
        (alarmActivationUpdate i.lm35Read i.mq2Read i.alarmTestButton s)).1 ≠ NUL ∧
      (matrixKeypadUpdate i.keys
        (alarmActivationUpdate i.lm35Read i.mq2Read i.alarmTestButton s)).1 ≠ '#' ∧
      3 ≤ s.matrixKeypadCodeIndex ∧
      (∀ j : Int, 0 ≤ j → j < 4 → s.codeSequence j =
        upd s.keyPressed s.matrixKeypadCodeIndex
          (matrixKeypadUpdate i.keys
            (alarmActivationUpdate i.lm35Read i.mq2Read i.alarmTestButton s)).1 j)) := by
  have hA : ∀ (lm mq : ℚ) (t : Bool), (alarmActivationUpdate lm mq t s).alarmState = true := by
    intro lm mq t
    rw [alarmActivationUpdate_alarmState, h]
    rfl
  refine ⟨hA, ?_⟩
  intro i hoff
  obtain ⟨f1, f2, f3, f4, -⟩ :=
    alarmActivationUpdate_frame i.lm35Read i.mq2Read i.alarmTestButton s
  have h1 := hA i.lm35Read i.mq2Read i.alarmTestButton
  obtain ⟨-, -, -, -, k5⟩ := matrixKeypadUpdate_keeps i.keys
    (alarmActivationUpdate i.lm35Read i.mq2Read i.alarmTestButton s)
  unfold coreTick at hoff
  rw [eventLogUpdate_frame] at hoff
  replace hoff : (alarmDeactivationUpdate i.keys
      (alarmActivationUpdate i.lm35Read i.mq2Read i.alarmTestButton s)).alarmState = false := hoff
  rcases alarmDeactivationUpdate_cases i.keys
      (alarmActivationUpdate i.lm35Read i.mq2Read i.alarmTestButton s) with
    ⟨-, e⟩ | ⟨-, -, e⟩ | ⟨-, -, -, -, e⟩ | ⟨hn, hk0, hkh, hi, heq, -⟩ | ⟨-, -, -, -, -, e⟩
  · rw [e] at hoff
    exact absurd (h1.symm.trans hoff) (by decide)
  · rw [e, k5] at hoff
    exact absurd (h1.symm.trans hoff) (by decide)
  · rw [e] at hoff
    exact absurd (h1.symm.trans (k5.symm.trans hoff)) (by decide)
  · rw [f1] at hn
    rw [f3] at hi
    rw [f2, f3, f4] at heq
    exact ⟨hn, hk0, hkh, hi, heq⟩
  · rw [e] at hoff
    exact absurd (h1.symm.trans (k5.symm.trans hoff)) (by decide)

/-- C20 at the state with the alarm on: a tick without gas, with falling
readings, keeps it on. -/
theorem alarm_latches_witness :
    alarmOnState.alarmState = true ∧
    (∀ (lm mq : ℚ) (t : Bool), (alarmActivationUpdate lm mq t alarmOnState).alarmState = true) :=
  ⟨rfl, (alarm_latches alarmOnState rfl).1⟩

/-! ## The event log over a tick -/

/-- The log after one call of `systemElementStateUpdate`, whatever the edge. -/
theorem systemElementStateUpdate_stored (now : Int) (l c : Bool) (name : String) (s : State)
    (h0 : 0 ≤ s.eventsIndex) (h5 : s.eventsIndex ≤ 5) :
    storedEvents (systemElementStateUpdate now l c name s) =
      lastN 5 (storedEvents s ++ (if !l && c then [eventRecord (now, name)] else [])) ∧
    0 ≤ (systemElementStateUpdate now l c name s).eventsIndex ∧
    (systemElementStateUpdate now l c name s).eventsIndex ≤ 5 := by
  obtain ⟨b1, b2, -⟩ := systemElementStateUpdate_bounds now l c name s h0 h5
  refine ⟨?_, b1, b2⟩
  by_cases hedge : l = false ∧ c = true
  · obtain ⟨rfl, rfl⟩ := hedge
    exact (systemElementStateUpdate_rising now name s h0 h5).1
  · have hne : ¬ (l ≠ c ∧ c = true) := by
      intro ⟨h1, h2⟩
      apply hedge
      subst h2
      cases l
      · exact ⟨rfl, rfl⟩
      · exact absurd rfl h1
    have hb : (!l && c) = false := by
      cases l <;> cases c <;> simp_all
    simp only [systemElementStateUpdate, hne, if_false, hb, List.append_nil, lastN,
      storedEvents_length, Bool.false_eq_true]
    rw [show s.eventsIndex.toNat - 5 = 0 by omega, List.drop_zero]

/-- The log after a call of `eventLogUpdate`. -/
theorem eventLogUpdate_stored (t₁ t₂ t₃ : Int) (s : State)
    (h0 : 0 ≤ s.eventsIndex) (h5 : s.eventsIndex ≤ 5) :
    storedEvents (eventLogUpdate t₁ t₂ t₃ s) =
      lastN 5 (storedEvents s ++ eventLogUpdateRecords t₁ t₂ t₃ s) ∧
    0 ≤ (eventLogUpdate t₁ t₂ t₃ s).eventsIndex ∧
    (eventLogUpdate t₁ t₂ t₃ s).eventsIndex ≤ 5 := by
  obtain ⟨a1, a2, a3⟩ :=
    systemElementStateUpdate_stored t₁ s.alarmLastState s.alarmState "ALARM" s h0 h5
  have f1 := systemElementStateUpdate_frame t₁ s.alarmLastState s.alarmState "ALARM" s
  simp only [eventLogUpdate, eventLogUpdateRecords]
  generalize systemElementStateUpdate t₁ s.alarmLastState s.alarmState "ALARM" s = s1
    at a1 a2 a3 f1 ⊢
  have g1 : s1.gasLastState = s.gasLastState := by rw [f1]
  have g2 : s1.gasDetectorState = s.gasDetectorState := by rw [f1]
  have g3 : s1.tempLastState = s.tempLastState := by rw [f1]
  have g4 : s1.overTempDetector = s.overTempDetector := by rw [f1]
  obtain ⟨b1, b2, b3⟩ :=
    systemElementStateUpdate_stored t₂ s1.gasLastState s1.gasDetectorState "GAS_DET"
      { s1 with alarmLastState := s1.alarmState } a2 a3
  have f2 := systemElementStateUpdate_frame t₂ s1.gasLastState s1.gasDetectorState "GAS_DET"
      { s1 with alarmLastState := s1.alarmState }
  generalize systemElementStateUpdate t₂ s1.gasLastState s1.gasDetectorState "GAS_DET"
      { s1 with alarmLastState := s1.alarmState } = s2 at b1 b2 b3 f2 ⊢
  have k3 : s2.tempLastState = s1.tempLastState := by rw [f2]
  have k4 : s2.overTempDetector = s1.overTempDetector := by rw [f2]
  obtain ⟨c1, c2, c3⟩ :=
    systemElementStateUpdate_stored t₃ s2.tempLastState s2.overTempDetector "OVER_TEMP"
      { s2 with gasLastState := s2.gasDetectorState } b2 b3
  refine ⟨?_, c2, c3⟩
  have e1 : storedEvents { s1 with alarmLastState := s1.alarmState } = storedEvents s1 := rfl
  have e2 : storedEvents { s2 with gasLastState := s2.gasDetectorState } = storedEvents s2 := rfl
  have e3 : ∀ x : State, storedEvents { x with tempLastState := x.overTempDetector } =
      storedEvents x := fun _ => rfl
  rw [e3, c1, e2, b1, e1, a1, lastN_append_lastN, List.append_assoc, lastN_append_lastN,
    k3, k4, g1, g2, g3, g4]
  simp only [List.append_assoc, eventRecord]
  rfl

/-- The log after a tick of the control loop: the activation and deactivation
steps do not touch it, the event log step appends the rising edges it sees. -/
theorem coreTick_stored (i : TickInput) (s : State)
    (h0 : 0 ≤ s.eventsIndex) (h5 : s.eventsIndex ≤ 5) :
    storedEvents (coreTick i s) =
      lastN 5 (storedEvents s ++
        eventLogUpdateRecords i.timeAlarm i.timeGas i.timeTemp
          (alarmDeactivationUpdate i.keys
            (alarmActivationUpdate i.lm35Read i.mq2Read i.alarmTestButton s))) ∧
    0 ≤ (coreTick i s).eventsIndex ∧ (coreTick i s).eventsIndex ≤ 5 := by
  obtain ⟨-, -, -, -, -, -, a7, a8, -⟩ :=
    alarmActivationUpdate_frame i.lm35Read i.mq2Read i.alarmTestButton s
  obtain ⟨-, d2, d3, -⟩ := alarmDeactivationUpdate_frame i.keys
    (alarmActivationUpdate i.lm35Read i.mq2Read i.alarmTestButton s)
  have hs : storedEvents (alarmDeactivationUpdate i.keys
      (alarmActivationUpdate i.lm35Read i.mq2Read i.alarmTestButton s)) = storedEvents s := by
    simp only [storedEvents, d2, d3, a7, a8]
  have := eventLogUpdate_stored i.timeAlarm i.timeGas i.timeTemp
    (alarmDeactivationUpdate i.keys
      (alarmActivationUpdate i.lm35Read i.mq2Read i.alarmTestButton s))
    (by rw [d2, a7]; exact h0) (by rw [d2, a7]; exact h5)
  rw [hs] at this
  exact this

/-- The flags that `eventLogUpdate` reads, after the first two steps of a tick. -/
theorem coreTick_flags (i : TickInput) (s : State) :
    (alarmDeactivationUpdate i.keys
      (alarmActivationUpdate i.lm35Read i.mq2Read i.alarmTestButton s)).alarmLastState
        = s.alarmLastState ∧
    (alarmDeactivationUpdate i.keys
      (alarmActivationUpdate i.lm35Read i.mq2Read i.alarmTestButton s)).gasLastState
        = s.gasLastState ∧
    (alarmDeactivationUpdate i.keys
      (alarmActivationUpdate i.lm35Read i.mq2Read i.alarmTestButton s)).tempLastState
        = s.tempLastState ∧
    (alarmDeactivationUpdate i.keys
      (alarmActivationUpdate i.lm35Read i.mq2Read i.alarmTestButton s)).gasDetectorState
        = (alarmActivationUpdate i.lm35Read i.mq2Read i.alarmTestButton s).gasDetectorState ∧
    (alarmDeactivationUpdate i.keys
      (alarmActivationUpdate i.lm35Read i.mq2Read i.alarmTestButton s)).overTempDetector
        = (lm35Update i.lm35Read s).overTempDetector := by
  obtain ⟨-, -, -, -, -, -, -, -, a9, a10, a11, -⟩ :=
    alarmActivationUpdate_frame i.lm35Read i.mq2Read i.alarmTestButton s
  obtain ⟨-, -, -, d4, d5, d6, d7, d8, -⟩ := alarmDeactivationUpdate_frame i.keys
    (alarmActivationUpdate i.lm35Read i.mq2Read i.alarmTestButton s)
  exact ⟨d4.trans a9, d5.trans a10, d6.trans a11, d7,
    d8.trans (alarmActivationUpdate_overTempDetector _ _ _ _)⟩

/-- The detector state flags after `alarmActivationUpdate` on a tick that
leaves the alarm on. -/
theorem alarmActivationUpdate_flags_active (lm mq : ℚ) (t : Bool) (s : State)
    (h : (alarmActivationUpdate lm mq t s).alarmState = true) :
    (alarmActivationUpdate lm mq t s).gasDetectorState =
      (decide ((mq2Update mq s).mq2ReadingsAverage > GAS_DETECTION_THRESHOLD) || t) ∧
    (alarmActivationUpdate lm mq t s).overTempDetectorState =
      ((lm35Update lm s).overTempDetector || t) := by
  have ha := h
  unfold alarmActivationUpdate at ha ⊢
  rw [alarmStateHandling_alarmState] at ha
  obtain ⟨-, -, -, h4, h5⟩ := alarmStateHandling_active _ ha
  rw [h4, h5, beforeHandling_eq]
  simp [mq2Update_eq, lm35Update_eq]

/-- The siren pin after a tick of `alarmActivationUpdate` that leaves the alarm on. -/
theorem alarmActivationUpdate_siren (lm mq : ℚ) (t : Bool) (s : State)
    (h : (alarmActivationUpdate lm mq t s).alarmState = true) :
    (alarmActivationUpdate lm mq t s).sirenPinIsOutput = true ∧
    (alarmActivationUpdate lm mq t s).sirenPinLevel = false := by
  have ha := h
  unfold alarmActivationUpdate at ha ⊢
  rw [alarmStateHandling_alarmState] at ha
  exact alarmStateHandling_siren _ ha

/-- Without a key-release event the deactivation step leaves alarmState alone. -/
theorem alarmDeactivationUpdate_no_release (keys : Keys) (s : State)
    (hkey : s.numberOfIncorrectCodes < 5 → (matrixKeypadUpdate keys s).1 = NUL) :
    (alarmDeactivationUpdate keys s).alarmState = s.alarmState := by
  obtain ⟨-, -, -, -, k5⟩ := matrixKeypadUpdate_keeps keys s
  rcases alarmDeactivationUpdate_cases keys s with
    ⟨-, e⟩ | ⟨-, -, e⟩ | ⟨hn, hk0, -⟩ | ⟨hn, hk0, -⟩ | ⟨hn, hk0, -⟩
  · rw [e]
  · rw [e, k5]
  · exact absurd (hkey hn) hk0
  · exact absurd (hkey hn) hk0
  · exact absurd (hkey hn) hk0

/-- C12: from a state with alarmState, alarmLastState and gasLastState OFF (and
a log with 0 <= eventsIndex <= 5), a tick (activation, deactivation, event log)
on which the gas average exceeds 0.4 and no key is
released (with the test button released or not) leaves alarmState ON with
the siren pin an output driven low, and
appends to the log the records ALARM_ON and GAS_DET_ON (and OVER_TEMP_ON after
them if the temperature detector rises on the same tick): exactly one of the
appended records is labelled GAS_DET_ON. -/
theorem gas_activation_tick (i : TickInput) (s : State)
    (ha : s.alarmState = false) (hal : s.alarmLastState = false) (hgl : s.gasLastState = false)
    (h0 : 0 ≤ s.eventsIndex) (h5 : s.eventsIndex ≤ 5)
    (hgas : (mq2Update i.mq2Read s).mq2ReadingsAverage > GAS_DETECTION_THRESHOLD)
    (hkey : s.numberOfIncorrectCodes < 5 →
      (matrixKeypadUpdate i.keys
        (alarmActivationUpdate i.lm35Read i.mq2Read i.alarmTestButton s)).1 = NUL) :
    (coreTick i s).alarmState = true ∧
    (coreTick i s).sirenPinIsOutput = true ∧
    (coreTick i s).sirenPinLevel = false ∧
    storedEvents (coreTick i s) =
      lastN 5 (storedEvents s ++
        ([⟨i.timeAlarm, "ALARM_ON"⟩, ⟨i.timeGas, "GAS_DET_ON"⟩] ++
          if !s.tempLastState && (lm35Update i.lm35Read s).overTempDetector then
            [⟨i.timeTemp, "OVER_TEMP_ON"⟩] else [])) ∧
    ((([⟨i.timeAlarm, "ALARM_ON"⟩, ⟨i.timeGas, "GAS_DET_ON"⟩] ++
          if !s.tempLastState && (lm35Update i.lm35Read s).overTempDetector then
            [⟨i.timeTemp, "OVER_TEMP_ON"⟩] else [] : List systemEvent_t).map
        fun e => e.typeOfEvent).count "GAS_DET_ON" = 1) := by
  have h1 : (alarmActivationUpdate i.lm35Read i.mq2Read i.alarmTestButton s).alarmState
      = true := by
    rw [alarmActivationUpdate_alarmState, ha, hal, decide_eq_true hgas]
    rfl
  obtain ⟨-, -, -, -, -, -, a7, -⟩ :=
    alarmActivationUpdate_frame i.lm35Read i.mq2Read i.alarmTestButton s
  obtain ⟨-, -, -, -, -, -, -, -, -, -, -, -, -, -, -, d16, d17, -⟩ :=
    alarmDeactivationUpdate_frame i.keys
      (alarmActivationUpdate i.lm35Read i.mq2Read i.alarmTestButton s)
  obtain ⟨s1, s2⟩ := alarmActivationUpdate_siren i.lm35Read i.mq2Read i.alarmTestButton s h1
  have h2 : (alarmDeactivationUpdate i.keys
      (alarmActivationUpdate i.lm35Read i.mq2Read i.alarmTestButton s)).alarmState = true := by
    rw [alarmDeactivationUpdate_no_release _ _ (by
      obtain ⟨f1, -⟩ := alarmActivationUpdate_frame i.lm35Read i.mq2Read i.alarmTestButton s
      rw [f1]; exact hkey)]
    exact h1
  obtain ⟨c1, c2, c3, c4, c5⟩ := coreTick_flags i s
  obtain ⟨g1, -⟩ := alarmActivationUpdate_flags_active i.lm35Read i.mq2Read i.alarmTestButton s h1
  obtain ⟨l1, -⟩ := coreTick_stored i s h0 h5
  refine ⟨?_, ?_, ?_, ?_, ?_⟩
  · unfold coreTick; rw [eventLogUpdate_frame]; exact h2
  · unfold coreTick; rw [eventLogUpdate_frame]; exact d16.trans s1
  · unfold coreTick; rw [eventLogUpdate_frame]; exact d17.trans s2
  · rw [l1]
    simp only [eventLogUpdateRecords, c1, c2, c3, c4, c5, h2, hal, hgl, g1, decide_eq_true hgas,
      Bool.not_false, Bool.true_and, Bool.true_or, if_true, List.append_assoc,
      List.singleton_append, List.cons_append, List.nil_append]
  · split_ifs <;> rfl

/-- Scanning with no key pressed returns no key. -/
theorem matrixKeypadUpdate_noKey_scanning (s : State)
    (hs : s.matrixKeypadState = MATRIX_KEYPAD_SCANNING) :
    (matrixKeypadUpdate noKey s).1 = NUL := by
  rw [matrixKeypadUpdate_scanning_idle noKey s hs matrixKeypadScan_noKey]

/-- C12 at a concrete tick: the gas buffer is full of readings 0.5 and another
0.5 arrives (average 0.5), start-up state otherwise, empty log. -/
theorem gas_activation_tick_witness :
    (coreTick gasTick gasRisingState).alarmState = true ∧
    (coreTick gasTick gasRisingState).sirenPinIsOutput = true ∧
    (coreTick gasTick gasRisingState).sirenPinLevel = false ∧
    storedEvents (coreTick gasTick gasRisingState) =
      lastN 5 (storedEvents gasRisingState ++
        ([⟨gasTick.timeAlarm, "ALARM_ON"⟩, ⟨gasTick.timeGas, "GAS_DET_ON"⟩] ++
          if !gasRisingState.tempLastState &&
              (lm35Update gasTick.lm35Read gasRisingState).overTempDetector then
            [⟨gasTick.timeTemp, "OVER_TEMP_ON"⟩] else [])) ∧
    ((([⟨gasTick.timeAlarm, "ALARM_ON"⟩, ⟨gasTick.timeGas, "GAS_DET_ON"⟩] ++
          if !gasRisingState.tempLastState &&
              (lm35Update gasTick.lm35Read gasRisingState).overTempDetector then
            [⟨gasTick.timeTemp, "OVER_TEMP_ON"⟩] else [] : List systemEvent_t).map
        fun e => e.typeOfEvent).count "GAS_DET_ON" = 1) :=
  gas_activation_tick gasTick gasRisingState rfl rfl rfl (by decide) (by decide)
    (by
      have hm : upd gasRisingState.mq2ReadingsArray gasRisingState.mq2SampleIndex
          gasTick.mq2Read = fun _ => 1 / 2 := upd_same (fun _ => 1 / 2) 0
      rw [mq2Update_eq]
      simp only [hm, readingsSum_const, GAS_DETECTION_THRESHOLD, NUMBER_OF_AVG_SAMPLES]
      norm_num)
    (fun _ => matrixKeypadUpdate_noKey_scanning _
      ((alarmActivationUpdate_frame _ _ _ _).2.2.2.2.2.2.2.2.2.2.2.1.trans rfl))

/-- C13, evaluated at the start-up state (alarm idle, every last-state OFF,
both averages 0, empty log) on a tick with the test button pressed, readings 0
and no key: `alarmActivationUpdate` sets gasDetectorState,
overTempDetectorState and alarmState ON, but overTempDetector, which is what
`eventLogUpdate` compares for the over-temperature element, stays OFF, so the
log receives ALARM_ON and GAS_DET_ON and no OVER_TEMP_ON. -/
theorem test_press_logs_no_overTemp :
    (alarmActivationUpdate 0 0 true initialState).gasDetectorState = true ∧
    (alarmActivationUpdate 0 0 true initialState).overTempDetectorState = true ∧
    (alarmActivationUpdate 0 0 true initialState).alarmState = true ∧
    (alarmActivationUpdate 0 0 true initialState).overTempDetector = false ∧
    storedEvents (coreTick testPressTick initialState) =
      [⟨1, "ALARM_ON"⟩, ⟨2, "GAS_DET_ON"⟩] := by
  have hl : upd initialState.lm35ReadingsArray initialState.lm35SampleIndex 0
      = fun _ => 0 := upd_same (fun _ => 0) 0
  have hot : (lm35Update 0 initialState).overTempDetector = false := by
    rw [lm35Update_eq]
    simp only [hl, readingsSum_const, analogReadingScaledWithTheLM35Formula,
      NUMBER_OF_AVG_SAMPLES, OVER_TEMP_LEVEL]
    norm_num
  have h1 := initialState_test_activates
  obtain ⟨g1, g2⟩ := alarmActivationUpdate_flags_active 0 0 true initialState h1
  have hg : (alarmActivationUpdate 0 0 true initialState).gasDetectorState = true := by
    rw [g1]; simp
  have ho : (alarmActivationUpdate 0 0 true initialState).overTempDetectorState = true := by
    rw [g2]; simp
  refine ⟨hg, ho, h1, ?_, ?_⟩
  · rw [alarmActivationUpdate_overTempDetector]; exact hot
  · obtain ⟨l1, -⟩ := coreTick_stored testPressTick initialState (by decide) (by decide)
    obtain ⟨c1, c2, c3, c4, c5⟩ := coreTick_flags testPressTick initialState
    have hscan : (alarmActivationUpdate testPressTick.lm35Read testPressTick.mq2Read
        testPressTick.alarmTestButton initialState).matrixKeypadState =
        MATRIX_KEYPAD_SCANNING :=
      (alarmActivationUpdate_frame _ _ _ _).2.2.2.2.2.2.2.2.2.2.2.1
    have h2 : (alarmDeactivationUpdate testPressTick.keys
        (alarmActivationUpdate testPressTick.lm35Read testPressTick.mq2Read
          testPressTick.alarmTestButton initialState)).alarmState = true :=
      (alarmDeactivationUpdate_no_release testPressTick.keys _
        (fun _ => matrixKeypadUpdate_noKey_scanning _ hscan)).trans h1
    rw [l1]
    simp only [eventLogUpdateRecords, c1, c2, c3, c4, c5, h2]
    have hg' : (alarmActivationUpdate testPressTick.lm35Read testPressTick.mq2Read
        testPressTick.alarmTestButton initialState).gasDetectorState = true := hg
    have hot' : (lm35Update testPressTick.lm35Read initialState).overTempDetector = false := hot
    rw [hg', hot']
    rfl

/-- C14: on a tick that starts with fewer than 5 incorrect codes counted (and a
log with 0 <= eventsIndex <= 5) and on which `alarmDeactivationUpdate` receives,
at the fourth slot, a key-release event other than '#' that makes the buffer
equal to codeSequence: the alarm is OFF after the deactivation step, which like
the activation step leaves eventsIndex and arrayOfStoredEvents as they were;
the call of `systemElementStateUpdate` for the alarm element changes nothing;
and no record that `eventLogUpdate` appends on this tick is labelled ALARM_ON
(it appends only the records of a gas or over-temperature rising edge of the
same tick). -/
theorem deactivation_not_logged (i : TickInput) (s : State)
    (hn : s.numberOfIncorrectCodes < 5)
    (h0 : 0 ≤ s.eventsIndex) (h5 : s.eventsIndex ≤ 5)
    (hk0 : (matrixKeypadUpdate i.keys
      (alarmActivationUpdate i.lm35Read i.mq2Read i.alarmTestButton s)).1 ≠ NUL)
    (hkh : (matrixKeypadUpdate i.keys
      (alarmActivationUpdate i.lm35Read i.mq2Read i.alarmTestButton s)).1 ≠ '#')
    (hi : 3 ≤ s.matrixKeypadCodeIndex)
    (heq : ∀ j : Int, 0 ≤ j → j < 4 → s.codeSequence j =
      upd s.keyPressed s.matrixKeypadCodeIndex
        (matrixKeypadUpdate i.keys
          (alarmActivationUpdate i.lm35Read i.mq2Read i.alarmTestButton s)).1 j) :
    (alarmDeactivationUpdate i.keys
      (alarmActivationUpdate i.lm35Read i.mq2Read i.alarmTestButton s)).alarmState = false ∧
    (alarmDeactivationUpdate i.keys
      (alarmActivationUpdate i.lm35Read i.mq2Read i.alarmTestButton s)).eventsIndex
        = s.eventsIndex ∧
    (alarmDeactivationUpdate i.keys
      (alarmActivationUpdate i.lm35Read i.mq2Read i.alarmTestButton s)).arrayOfStoredEvents
        = s.arrayOfStoredEvents ∧
    systemElementStateUpdate i.timeAlarm
        (alarmDeactivationUpdate i.keys
          (alarmActivationUpdate i.lm35Read i.mq2Read i.alarmTestButton s)).alarmLastState
        (alarmDeactivationUpdate i.keys
          (alarmActivationUpdate i.lm35Read i.mq2Read i.alarmTestButton s)).alarmState
        "ALARM"
        (alarmDeactivationUpdate i.keys
          (alarmActivationUpdate i.lm35Read i.mq2Read i.alarmTestButton s))
      = alarmDeactivationUpdate i.keys
          (alarmActivationUpdate i.lm35Read i.mq2Read i.alarmTestButton s) ∧
    (coreTick i s).alarmState = false ∧
    storedEvents (coreTick i s) =
      lastN 5 (storedEvents s ++
        ((if !s.gasLastState &&
              (alarmActivationUpdate i.lm35Read i.mq2Read i.alarmTestButton s).gasDetectorState
            then [⟨i.timeGas, "GAS_DET_ON"⟩] else []) ++
          (if !s.tempLastState && (lm35Update i.lm35Read s).overTempDetector
            then [⟨i.timeTemp, "OVER_TEMP_ON"⟩] else []))) ∧
    (∀ e ∈ eventLogUpdateRecords i.timeAlarm i.timeGas i.timeTemp
        (alarmDeactivationUpdate i.keys
          (alarmActivationUpdate i.lm35Read i.mq2Read i.alarmTestButton s)),
      e.typeOfEvent ≠ "ALARM_ON") := by
  obtain ⟨f1, f2, f3, f4, -, -, a7, a8, -⟩ :=
    alarmActivationUpdate_frame i.lm35Read i.mq2Read i.alarmTestButton s
  obtain ⟨-, d2, d3, -⟩ := alarmDeactivationUpdate_frame i.keys
    (alarmActivationUpdate i.lm35Read i.mq2Read i.alarmTestButton s)
  have hoff : (alarmDeactivationUpdate i.keys
      (alarmActivationUpdate i.lm35Read i.mq2Read i.alarmTestButton s)).alarmState = false := by
    rw [alarmDeactivationUpdate_key_compared _ _ (by rw [f1]; exact hn) hk0 hkh
      (by rw [f3]; exact hi), if_pos (by rw [f2, f3, f4]; exact heq)]
  obtain ⟨c1, c2, c3, c4, c5⟩ := coreTick_flags i s
  obtain ⟨l1, -⟩ := coreTick_stored i s h0 h5
  have hrec : eventLogUpdateRecords i.timeAlarm i.timeGas i.timeTemp
      (alarmDeactivationUpdate i.keys
        (alarmActivationUpdate i.lm35Read i.mq2Read i.alarmTestButton s)) =
      (if !s.gasLastState &&
            (alarmActivationUpdate i.lm35Read i.mq2Read i.alarmTestButton s).gasDetectorState
          then [⟨i.timeGas, "GAS_DET_ON"⟩] else []) ++
        (if !s.tempLastState && (lm35Update i.lm35Read s).overTempDetector
          then [⟨i.timeTemp, "OVER_TEMP_ON"⟩] else []) := by
    simp only [eventLogUpdateRecords, c1, c2, c3, c4, c5, hoff, Bool.and_false,
      Bool.false_eq_true, if_false, List.nil_append]
  refine ⟨hoff, d2.trans a7, d3.trans a8, ?_, ?_, ?_, ?_⟩
  · rw [hoff]
    simp [systemElementStateUpdate]
  · unfold coreTick; rw [eventLogUpdate_frame]; exact hoff
  · rw [l1, hrec]
  · rw [hrec]
    intro e he
    simp only [List.mem_append] at he
    have hg : ("GAS_DET_ON" : String) ≠ "ALARM_ON" := by decide
    have ho : ("OVER_TEMP_ON" : String) ≠ "ALARM_ON" := by decide
    rcases he with he | he
    · split_ifs at he
      · simp only [List.mem_singleton] at he
        subst he
        exact hg
      · exact absurd he (List.not_mem_nil e)
    · split_ifs at he
      · simp only [List.mem_singleton] at he
        subst he
        exact ho
      · exact absurd he (List.not_mem_nil e)

/-- In the hold state, a scan with no key pressed reports the held key. -/
theorem matrixKeypadUpdate_noKey_hold (s : State)
    (hs : s.matrixKeypadState = MATRIX_KEYPAD_KEY_HOLD_PRESSED)
    (hl : s.matrixKeypadLastKeyPressed ≠ NUL) :
    (matrixKeypadUpdate noKey s).1 = s.matrixKeypadLastKeyPressed := by
  rw [matrixKeypadUpdate_hold_other noKey s hs
    (by rw [matrixKeypadScan_noKey]; exact hl.symm), matrixKeypadScan_noKey]
  rfl

/-- The key released on the tick `idleTick` from `lastCodeKeyHeldState`. -/
theorem lastCodeKeyHeldState_release :
    (matrixKeypadUpdate idleTick.keys
      (alarmActivationUpdate idleTick.lm35Read idleTick.mq2Read idleTick.alarmTestButton
        lastCodeKeyHeldState)).1 = '5' := by
  obtain ⟨-, -, -, -, -, -, -, -, -, -, -, a12, a13, -⟩ :=
    alarmActivationUpdate_frame idleTick.lm35Read idleTick.mq2Read idleTick.alarmTestButton
      lastCodeKeyHeldState
  have := matrixKeypadUpdate_noKey_hold _ a12 (by rw [a13]; decide)
  exact this.trans a13

/-- C14 at a concrete tick: alarm on, "180" entered, the held key '5' is
released: the alarm goes off and the tick appends nothing for the alarm. -/
theorem deactivation_not_logged_witness :
    lastCodeKeyHeldState.alarmState = true ∧
    (coreTick idleTick lastCodeKeyHeldState).alarmState = false ∧
    (∀ e ∈ eventLogUpdateRecords idleTick.timeAlarm idleTick.timeGas idleTick.timeTemp
        (alarmDeactivationUpdate idleTick.keys
          (alarmActivationUpdate idleTick.lm35Read idleTick.mq2Read idleTick.alarmTestButton
            lastCodeKeyHeldState)),
      e.typeOfEvent ≠ "ALARM_ON") :=
  ⟨rfl,
   (deactivation_not_logged idleTick lastCodeKeyHeldState (by decide) (by decide) (by decide)
      (by rw [lastCodeKeyHeldState_release]; decide)
      (by rw [lastCodeKeyHeldState_release]; decide) (by decide)
      (by
        rw [lastCodeKeyHeldState_release]
        intro j h0 h4
        interval_cases j <;> decide)).2.2.2.2.1,
   (deactivation_not_logged idleTick lastCodeKeyHeldState (by decide) (by decide) (by decide)
      (by rw [lastCodeKeyHeldState_release]; decide)
      (by rw [lastCodeKeyHeldState_release]; decide) (by decide)
      (by
        rw [lastCodeKeyHeldState_release]
        intro j h0 h4
        interval_cases j <;> decide)).2.2.2.2.2.2⟩

/-! ## Temperature averaging -/

theorem readingsSum_eq_sum (arr : Int → ℚ) :
    readingsSum arr = ((List.range 100).map fun (i : Nat) => arr (i : Int)).sum := by
  unfold readingsSum
  rw [List.sum_eq_foldl, List.foldl_map]
  rfl

theorem set_rotate_succ (B : List ℚ) (k : Nat) (x : ℚ) (hk : k < B.length) :
    (B.set k x).rotate (k + 1) = (B.rotate k).tail ++ [x] := by
  rw [List.rotate_eq_drop_append_take (by rw [List.length_set]; omega),
    List.rotate_eq_drop_append_take (by omega), List.drop_set_of_lt _ _ (by omega),
    List.drop_eq_getElem_cons hk, List.cons_append, List.tail_cons, List.append_assoc]
  congr 1
  rw [List.take_succ]
  have h1 : List.take k (B.set k x) = List.take k B := by
    apply List.ext_getElem?
    intro i
    rw [List.getElem?_take, List.getElem?_take]
    split
    · rw [List.getElem?_set_ne (by omega)]
    · rfl
  rw [h1]
  simp [hk]

theorem map_upd_range (arr : Int → ℚ) (k : Nat) (x : ℚ) :
    ((List.range 100).map fun (i : Nat) => upd arr (k : Int) x (i : Int)) =
      ((List.range 100).map fun (i : Nat) => arr (i : Int)).set k x := by
  apply List.ext_getElem
  · simp
  · intro j h1 h2
    simp only [List.getElem_map, List.getElem_range, List.getElem_set, upd]
    by_cases hjk : k = j
    · subst hjk; simp
    · rw [if_neg (by omega), if_neg hjk]

theorem lm35Window_length (xs : List ℚ) : (lm35Window xs).length = 100 := by
  simp [lm35Window, lastN]
  omega

theorem lm35Window_snoc (xs : List ℚ) (x : ℚ) :
    lm35Window (xs ++ [x]) = (lm35Window xs).tail ++ [x] := by
  simp only [lm35Window, lastN, List.tail_drop, ← List.append_assoc]
  rw [List.drop_append_of_le_length (by simp)]
  congr 2
  simp only [List.length_append, List.length_replicate, List.length_singleton]
  omega

/-- Writing one sample at the cursor and advancing it slides the window. -/
theorem ringInv_step (arr : Int → ℚ) (idx : Int) (x : ℚ) (xs : List ℚ)
    (h0 : 0 ≤ idx) (h1 : idx < 100)
    (hr : ((List.range 100).map fun (i : Nat) => arr (i : Int)).rotate idx.toNat
      = lm35Window xs) :
    0 ≤ (if idx + 1 ≥ NUMBER_OF_AVG_SAMPLES then 0 else idx + 1) ∧
    (if idx + 1 ≥ NUMBER_OF_AVG_SAMPLES then 0 else idx + 1) < 100 ∧
    ((List.range 100).map fun (i : Nat) => upd arr idx x (i : Int)).rotate
        (if idx + 1 ≥ NUMBER_OF_AVG_SAMPLES then 0 else idx + 1).toNat
      = lm35Window (xs ++ [x]) := by
  obtain ⟨k, rfl⟩ : ∃ k : Nat, idx = (k : Int) := ⟨idx.toNat, by omega⟩
  have hk : k < 100 := by omega
  simp only [Int.toNat_ofNat] at hr
  have hstep := set_rotate_succ ((List.range 100).map fun (i : Nat) => arr (i : Int)) k x
    (by simp; exact hk)
  rw [hr, ← lm35Window_snoc, ← map_upd_range] at hstep
  simp only [NUMBER_OF_AVG_SAMPLES]
  by_cases hw : (k : Int) + 1 ≥ 100
  · have hk99 : k = 99 := by omega
    subst hk99
    rw [if_pos hw]
    refine ⟨le_refl _, by norm_num, ?_⟩
    rw [← hstep]
    have hlen : ((List.range 100).map fun (i : Nat) => upd arr ((99 : Nat) : Int) x (i : Int)).length
        = 99 + 1 := by simp
    rw [← hlen, List.rotate_length]
    simp
  · rw [if_neg hw]
    refine ⟨by omega, by omega, ?_⟩
    rw [← hstep]
    congr 1

/-- The temperature buffer and its cursor after `alarmActivationUpdate`. -/
theorem alarmActivationUpdate_lm35 (lm mq : ℚ) (t : Bool) (s : State) :
    (alarmActivationUpdate lm mq t s).lm35ReadingsArray =
      upd s.lm35ReadingsArray s.lm35SampleIndex lm ∧
    (alarmActivationUpdate lm mq t s).lm35SampleIndex =
      (if s.lm35SampleIndex + 1 ≥ NUMBER_OF_AVG_SAMPLES then 0 else s.lm35SampleIndex + 1) := by
  have hA : ∀ x : State,
      (alarmStateHandling x).lm35ReadingsArray = x.lm35ReadingsArray ∧
      (alarmStateHandling x).lm35SampleIndex = x.lm35SampleIndex := by
    intro x
    simp only [alarmStateHandling]
    split_ifs <;> exact ⟨rfl, rfl⟩
  unfold alarmActivationUpdate
  rw [(hA _).1, (hA _).2, beforeHandling_eq]
  simp [mq2Update_eq, lm35Update_eq]

/-- The temperature buffer and its cursor after a tick of the control loop. -/
theorem coreTick_lm35 (i : TickInput) (s : State) :
    (coreTick i s).lm35ReadingsArray = upd s.lm35ReadingsArray s.lm35SampleIndex i.lm35Read ∧
    (coreTick i s).lm35SampleIndex =
      (if s.lm35SampleIndex + 1 ≥ NUMBER_OF_AVG_SAMPLES then 0 else s.lm35SampleIndex + 1) := by
  obtain ⟨a1, a2⟩ := alarmActivationUpdate_lm35 i.lm35Read i.mq2Read i.alarmTestButton s
  obtain ⟨-, -, -, -, -, -, -, -, -, d10, d11, -⟩ := alarmDeactivationUpdate_frame i.keys
    (alarmActivationUpdate i.lm35Read i.mq2Read i.alarmTestButton s)
  unfold coreTick
  rw [eventLogUpdate_frame]
  exact ⟨d10.trans a1, d11.trans a2⟩

theorem ringInv_coreTick (i : TickInput) (s : State) (xs : List ℚ) (h : ringInv s xs) :
    ringInv (coreTick i s) (xs ++ [i.lm35Read]) := by
  obtain ⟨h0, h1, hr⟩ := h
  obtain ⟨c1, c2⟩ := coreTick_lm35 i s
  have := ringInv_step s.lm35ReadingsArray s.lm35SampleIndex i.lm35Read xs h0 h1 hr
  unfold ringInv lm35Buffer
  rw [c1, c2]
  exact this

theorem ringInv_coreTicks (ticks : List TickInput) (s : State) (xs : List ℚ)
    (h : ringInv s xs) :
    ringInv (coreTicks ticks s) (xs ++ ticks.map fun t => t.lm35Read) := by
  induction ticks generalizing s xs with
  | nil => simpa [coreTicks] using h
  | cons i is ih =>
    have := ih (coreTick i s) (xs ++ [i.lm35Read]) (ringInv_coreTick i s xs h)
    simpa [coreTicks, List.append_assoc] using this

theorem ringInv_start (s : State)
    (hz : ∀ j : Int, 0 ≤ j → j < 100 → s.lm35ReadingsArray j = 0)
    (hi : s.lm35SampleIndex = 0) : ringInv s [] := by
  refine ⟨by omega, by omega, ?_⟩
  rw [hi]
  simp only [Int.toNat_zero, List.rotate_zero, lm35Buffer, lm35Window, lastN, List.append_nil,
    List.length_replicate, Nat.sub_self, List.drop_zero]
  apply List.ext_getElem
  · simp
  · intro j h1 h2
    simp only [List.getElem_map, List.getElem_range, List.getElem_replicate]
    simp only [List.length_map, List.length_range] at h1
    exact hz j (by omega) (by omega)

/-- The over-temperature flag after a sample is read into a ring that holds
the window of the samples before it. -/
theorem lm35Update_overTemp (x : ℚ) (s : State) (xs : List ℚ) (h : ringInv s xs) :
    (lm35Update x s).overTempDetector =
      decide (analogReadingScaledWithTheLM35Formula
        ((lm35Window (xs ++ [x])).sum / 100) > OVER_TEMP_LEVEL) := by
  obtain ⟨h0, h1, hr⟩ := h
  obtain ⟨-, -, hstep⟩ := ringInv_step s.lm35ReadingsArray s.lm35SampleIndex x xs h0 h1 hr
  rw [lm35Update_eq]
  simp only [readingsSum_eq_sum, NUMBER_OF_AVG_SAMPLES]
  rw [← hstep, (List.rotate_perm _ _).sum_eq]
  norm_num

/-- C11: starting from a state whose 100 temperature slots are 0 and whose write
cursor is 0, after any sequence of ticks of the control loop, the flag
overTempDetector that `alarmActivationUpdate` leaves on the next tick is true
if and only if the arithmetic mean of the last 100 temperature samples read so
far (the window of 100 values, padded with the initial zeros while fewer than
100 samples have been read), scaled by mean * 3.3 / 0.01, is strictly greater
than 25. Nothing else enters: the rest of the state, the gas readings, the test
button, the keypad and the clock are arbitrary. Arithmetic is exact (rational). -/
theorem overTemp_no_hysteresis (ticks : List TickInput) (i : TickInput) (s : State)
    (hz : ∀ j : Int, 0 ≤ j → j < 100 → s.lm35ReadingsArray j = 0)
    (hi : s.lm35SampleIndex = 0) :
    ((alarmActivationUpdate i.lm35Read i.mq2Read i.alarmTestButton
        (coreTicks ticks s)).overTempDetector = true ↔
      (lm35Window ((ticks.map fun t => t.lm35Read) ++ [i.lm35Read])).sum / 100
        * (33 / 10) / (1 / 100) > 25) ∧
    (lm35Window ((ticks.map fun t => t.lm35Read) ++ [i.lm35Read])).length = 100 := by
  have hr := ringInv_coreTicks ticks s [] (ringInv_start s hz hi)
  rw [List.nil_append] at hr
  refine ⟨?_, lm35Window_length _⟩
  rw [alarmActivationUpdate_overTempDetector, lm35Update_overTemp _ _ _ hr, decide_eq_true_iff]
  simp only [analogReadingScaledWithTheLM35Formula, OVER_TEMP_LEVEL]

/-- C11 at a concrete run from the start-up state: the eighth consecutive
full-scale reading brings the mean to 0.08, that is 26.4 degrees, and the flag
is set on that tick. -/
theorem overTemp_no_hysteresis_witness :
    (lm35Window ((List.replicate 7 hotTick).map (fun t => t.lm35Read) ++ [hotTick.lm35Read])).sum
      = 8 ∧
    (alarmActivationUpdate hotTick.lm35Read hotTick.mq2Read hotTick.alarmTestButton
      (coreTicks (List.replicate 7 hotTick) initialState)).overTempDetector = true := by
  have hsum : (lm35Window ((List.replicate 7 hotTick).map (fun t => t.lm35Read) ++
      [hotTick.lm35Read])).sum = 8 := by
    simp [lm35Window, lastN, hotTick, List.replicate]
    norm_num
  refine ⟨hsum, ?_⟩
  apply (overTemp_no_hysteresis (List.replicate 7 hotTick) hotTick initialState
    (fun _ _ _ => rfl) rfl).1.mpr
  rw [hsum]
  norm_num

/-! ## Re-arming after a deactivation -/

/-- The gas buffer and its cursor after a tick of the control loop. -/
theorem coreTick_mq2 (i : TickInput) (s : State) :
    (coreTick i s).mq2ReadingsArray = upd s.mq2ReadingsArray s.mq2SampleIndex i.mq2Read ∧
    (coreTick i s).mq2SampleIndex =
      (if s.mq2SampleIndex + 1 ≥ NUMBER_OF_AVG_SAMPLES then 0 else s.mq2SampleIndex + 1) := by
  have hA : ∀ x : State,
      (alarmStateHandling x).mq2ReadingsArray = x.mq2ReadingsArray ∧
      (alarmStateHandling x).mq2SampleIndex = x.mq2SampleIndex := by
    intro x
    simp only [alarmStateHandling]
    split_ifs <;> exact ⟨rfl, rfl⟩
  obtain ⟨-, -, -, -, -, -, -, -, -, -, -, d12, d13, -⟩ := alarmDeactivationUpdate_frame i.keys
    (alarmActivationUpdate i.lm35Read i.mq2Read i.alarmTestButton s)
  unfold coreTick
  rw [eventLogUpdate_frame]
  refine ⟨d12.trans ?_, d13.trans ?_⟩
  · unfold alarmActivationUpdate
    rw [(hA _).1, beforeHandling_eq]
    simp [mq2Update_eq, lm35Update_eq]
  · unfold alarmActivationUpdate
    rw [(hA _).2, beforeHandling_eq]
    simp [mq2Update_eq, lm35Update_eq]

/-- The state after a tick on which an active alarm with gas detected on the
tick is switched off by the key-release that completes the code. -/
theorem coreTick_deactivation (i : TickInput) (s : State)
    (ha : s.alarmState = true) (hgl : s.gasLastState = true)
    (hn : s.numberOfIncorrectCodes < 5)
    (h0 : 0 ≤ s.eventsIndex) (h5 : s.eventsIndex ≤ 5)
    (hgas : (mq2Update i.mq2Read s).mq2ReadingsAverage > GAS_DETECTION_THRESHOLD)
    (hk0 : (matrixKeypadUpdate i.keys
      (alarmActivationUpdate i.lm35Read i.mq2Read i.alarmTestButton s)).1 ≠ NUL)
    (hkh : (matrixKeypadUpdate i.keys
      (alarmActivationUpdate i.lm35Read i.mq2Read i.alarmTestButton s)).1 ≠ '#')
    (hi : 3 ≤ s.matrixKeypadCodeIndex)
    (heq : ∀ j : Int, 0 ≤ j → j < 4 → s.codeSequence j =
      upd s.keyPressed s.matrixKeypadCodeIndex
        (matrixKeypadUpdate i.keys
          (alarmActivationUpdate i.lm35Read i.mq2Read i.alarmTestButton s)).1 j) :
    (coreTick i s).alarmState = false ∧
    (coreTick i s).alarmLastState = false ∧
    (coreTick i s).gasLastState = true ∧
    (coreTick i s).numberOfIncorrectCodes = 0 ∧
    (coreTick i s).matrixKeypadCodeIndex = 0 ∧
    0 ≤ (coreTick i s).eventsIndex ∧ (coreTick i s).eventsIndex ≤ 5 ∧
    storedEvents (coreTick i s) =
      lastN 5 (storedEvents s ++
        (if !s.tempLastState && (lm35Update i.lm35Read s).overTempDetector
          then [⟨i.timeTemp, "OVER_TEMP_ON"⟩] else [])) := by
  obtain ⟨f1, f2, f3, f4, -⟩ :=
    alarmActivationUpdate_frame i.lm35Read i.mq2Read i.alarmTestButton s
  have h1 : (alarmActivationUpdate i.lm35Read i.mq2Read i.alarmTestButton s).alarmState
      = true := by
    rw [alarmActivationUpdate_alarmState, ha]; rfl
  obtain ⟨g1, -⟩ := alarmActivationUpdate_flags_active i.lm35Read i.mq2Read i.alarmTestButton s h1
  have hstep := alarmDeactivationUpdate_key_compared i.keys
    (alarmActivationUpdate i.lm35Read i.mq2Read i.alarmTestButton s)
    (by rw [f1]; exact hn) hk0 hkh (by rw [f3]; exact hi)
  rw [if_pos (by rw [f2, f3, f4]; exact heq)] at hstep
  obtain ⟨c1, c2, c3, c4, c5⟩ := coreTick_flags i s
  obtain ⟨l1, l2, l3⟩ := coreTick_stored i s h0 h5
  have hoff : (alarmDeactivationUpdate i.keys
      (alarmActivationUpdate i.lm35Read i.mq2Read i.alarmTestButton s)).alarmState = false := by
    rw [hstep]
  have hgd : (alarmDeactivationUpdate i.keys
      (alarmActivationUpdate i.lm35Read i.mq2Read i.alarmTestButton s)).gasDetectorState
        = true := by
    rw [c4, g1, decide_eq_true hgas]; rfl
  have hnn : (alarmDeactivationUpdate i.keys
      (alarmActivationUpdate i.lm35Read i.mq2Read i.alarmTestButton s)).numberOfIncorrectCodes
        = 0 := by
    rw [hstep]
  have hii : (alarmDeactivationUpdate i.keys
      (alarmActivationUpdate i.lm35Read i.mq2Read i.alarmTestButton s)).matrixKeypadCodeIndex
        = 0 := by
    rw [hstep]
  refine ⟨?_, ?_, ?_, ?_, ?_, l2, l3, ?_⟩
  · unfold coreTick; rw [eventLogUpdate_frame]; exact hoff
  · unfold coreTick; rw [eventLogUpdate_frame]; exact hoff
  · unfold coreTick; rw [eventLogUpdate_frame]; exact hgd
  · unfold coreTick; rw [eventLogUpdate_frame]; exact hnn
  · unfold coreTick; rw [eventLogUpdate_frame]; exact hii
  · rw [l1]
    simp only [eventLogUpdateRecords, c1, c2, c3, c5, hoff, hgl, Bool.and_false, Bool.not_true,
      Bool.false_and, Bool.false_eq_true, if_false, List.nil_append]

/-- The state after a tick on which gas is detected while alarmLastState is
OFF, gasLastState is ON and the code-entry cursor is below the fourth slot. -/
theorem coreTick_rearm (j : TickInput) (s : State)
    (hal : s.alarmLastState = false) (hgl : s.gasLastState = true)
    (hi : s.matrixKeypadCodeIndex < 3)
    (h0 : 0 ≤ s.eventsIndex) (h5 : s.eventsIndex ≤ 5)
    (hgas : (mq2Update j.mq2Read s).mq2ReadingsAverage > GAS_DETECTION_THRESHOLD) :
    (coreTick j s).alarmState = true ∧
    storedEvents (coreTick j s) =
      lastN 5 (storedEvents s ++
        ([⟨j.timeAlarm, "ALARM_ON"⟩] ++
          if !s.tempLastState && (lm35Update j.lm35Read s).overTempDetector
            then [⟨j.timeTemp, "OVER_TEMP_ON"⟩] else [])) := by
  obtain ⟨-, -, f3, -⟩ :=
    alarmActivationUpdate_frame j.lm35Read j.mq2Read j.alarmTestButton s
  obtain ⟨-, -, -, -, k5⟩ := matrixKeypadUpdate_keeps j.keys
    (alarmActivationUpdate j.lm35Read j.mq2Read j.alarmTestButton s)
  have h1 : (alarmActivationUpdate j.lm35Read j.mq2Read j.alarmTestButton s).alarmState
      = true := by
    rw [alarmActivationUpdate_alarmState, hal, decide_eq_true hgas]
    cases s.alarmState <;> rfl
  have hon : (alarmDeactivationUpdate j.keys
      (alarmActivationUpdate j.lm35Read j.mq2Read j.alarmTestButton s)).alarmState = true := by
    rcases alarmDeactivationUpdate_cases j.keys
        (alarmActivationUpdate j.lm35Read j.mq2Read j.alarmTestButton s) with
      ⟨-, e⟩ | ⟨-, -, e⟩ | ⟨-, -, -, -, e⟩ | ⟨-, -, -, hi3, -⟩ | ⟨-, -, -, hi3, -⟩
    · rw [e]; exact h1
    · rw [e, k5]; exact h1
    · rw [e]; exact k5.trans h1
    · rw [f3] at hi3; omega
    · rw [f3] at hi3; omega
  obtain ⟨c1, c2, c3, c4, c5⟩ := coreTick_flags j s
  obtain ⟨l1, -⟩ := coreTick_stored j s h0 h5
  refine ⟨?_, ?_⟩
  · unfold coreTick; rw [eventLogUpdate_frame]; exact hon
  · rw [l1]
    simp only [eventLogUpdateRecords, c1, c2, c3, c5, hon, hal, hgl, Bool.not_false,
      Bool.not_true, Bool.true_and, Bool.false_and, Bool.false_eq_true, if_true, if_false,
      List.append_nil, List.append_assoc, List.nil_append]

/-- C21: from a state with alarmState ON, gasLastState ON, fewer than 5
incorrect codes counted (and a log with 0 <= eventsIndex <= 5): if on tick t
the gas average is above 0.4 and `alarmDeactivationUpdate` receives, at the
fourth slot, the key-release that makes the buffer equal to codeSequence, and
on tick t+1 the gas average is still above 0.4, then the alarm is OFF after
tick t and ON again after tick t+1 (whatever the keypad does on tick t+1);
tick t+1 appends exactly one ALARM_ON record and no GAS_DET_ON record, and
tick t appends no GAS_DET_ON record either (each tick appends an OVER_TEMP_ON
record after these if the temperature detector rises on it). -/
theorem rearm_while_gas_persists (i j : TickInput) (s : State)
    (ha : s.alarmState = true) (hgl : s.gasLastState = true)
    (hn : s.numberOfIncorrectCodes < 5)
    (h0 : 0 ≤ s.eventsIndex) (h5 : s.eventsIndex ≤ 5)
    (hgas : (mq2Update i.mq2Read s).mq2ReadingsAverage > GAS_DETECTION_THRESHOLD)
    (hk0 : (matrixKeypadUpdate i.keys
      (alarmActivationUpdate i.lm35Read i.mq2Read i.alarmTestButton s)).1 ≠ NUL)
    (hkh : (matrixKeypadUpdate i.keys
      (alarmActivationUpdate i.lm35Read i.mq2Read i.alarmTestButton s)).1 ≠ '#')
    (hi : 3 ≤ s.matrixKeypadCodeIndex)
    (heq : ∀ k : Int, 0 ≤ k → k < 4 → s.codeSequence k =
      upd s.keyPressed s.matrixKeypadCodeIndex
        (matrixKeypadUpdate i.keys
          (alarmActivationUpdate i.lm35Read i.mq2Read i.alarmTestButton s)).1 k)
    (hgas2 : (mq2Update j.mq2Read (coreTick i s)).mq2ReadingsAverage
      > GAS_DETECTION_THRESHOLD) :
    (coreTick i s).alarmState = false ∧
    (coreTick j (coreTick i s)).alarmState = true ∧
    storedEvents (coreTick i s) =
      lastN 5 (storedEvents s ++
        (if !s.tempLastState && (lm35Update i.lm35Read s).overTempDetector
          then [⟨i.timeTemp, "OVER_TEMP_ON"⟩] else [])) ∧
    storedEvents (coreTick j (coreTick i s)) =
      lastN 5 (storedEvents (coreTick i s) ++
        ([⟨j.timeAlarm, "ALARM_ON"⟩] ++
          if !(coreTick i s).tempLastState &&
              (lm35Update j.lm35Read (coreTick i s)).overTempDetector
            then [⟨j.timeTemp, "OVER_TEMP_ON"⟩] else [])) ∧
    ((([⟨j.timeAlarm, "ALARM_ON"⟩] ++
          if !(coreTick i s).tempLastState &&
              (lm35Update j.lm35Read (coreTick i s)).overTempDetector
            then [⟨j.timeTemp, "OVER_TEMP_ON"⟩] else [] : List systemEvent_t).map
        fun e => e.typeOfEvent).count "ALARM_ON" = 1) ∧
    ((([⟨j.timeAlarm, "ALARM_ON"⟩] ++
          if !(coreTick i s).tempLastState &&
              (lm35Update j.lm35Read (coreTick i s)).overTempDetector
            then [⟨j.timeTemp, "OVER_TEMP_ON"⟩] else [] : List systemEvent_t).map
        fun e => e.typeOfEvent).count "GAS_DET_ON" = 0) ∧
    (((if !s.tempLastState && (lm35Update i.lm35Read s).overTempDetector
          then [⟨i.timeTemp, "OVER_TEMP_ON"⟩] else [] : List systemEvent_t).map
        fun e => e.typeOfEvent).count "GAS_DET_ON" = 0) := by
  obtain ⟨d1, d2, d3, -, d5, d6, d7, d8⟩ :=
    coreTick_deactivation i s ha hgl hn h0 h5 hgas hk0 hkh hi heq
  obtain ⟨r1, r2⟩ := coreTick_rearm j (coreTick i s) d2 d3 (by rw [d5]; decide) d6 d7 hgas2
  refine ⟨d1, r1, d8, r2, ?_, ?_, ?_⟩
  · split_ifs <;> rfl
  · split_ifs <;> rfl
  · split_ifs <;> rfl

/-- The key released on the tick `gasTick` from `rearmState`. -/
theorem rearmState_release :
    (matrixKeypadUpdate gasTick.keys
      (alarmActivationUpdate gasTick.lm35Read gasTick.mq2Read gasTick.alarmTestButton
        rearmState)).1 = '5' := by
  obtain ⟨-, -, -, -, -, -, -, -, -, -, -, a12, a13, -⟩ :=
    alarmActivationUpdate_frame gasTick.lm35Read gasTick.mq2Read gasTick.alarmTestButton
      rearmState
  have := matrixKeypadUpdate_noKey_hold _ a12 (by rw [a13]; decide)
  exact this.trans a13

/-- The gas average on the tick `gasTick` from `rearmState`, and on the next
such tick. -/
theorem rearmState_gas :
    (mq2Update gasTick.mq2Read rearmState).mq2ReadingsAverage = 1 / 2 ∧
    (mq2Update gasTick.mq2Read (coreTick gasTick rearmState)).mq2ReadingsAverage = 1 / 2 := by
  have hm : upd rearmState.mq2ReadingsArray rearmState.mq2SampleIndex gasTick.mq2Read
      = fun _ => 1 / 2 := upd_same (fun _ => 1 / 2) 0
  obtain ⟨c1, -⟩ := coreTick_mq2 gasTick rearmState
  rw [hm] at c1
  have hm2 : upd (coreTick gasTick rearmState).mq2ReadingsArray
      (coreTick gasTick rearmState).mq2SampleIndex gasTick.mq2Read = fun _ => 1 / 2 := by
    rw [c1]
    exact upd_same (fun _ => 1 / 2) _
  constructor
  · rw [mq2Update_eq]
    simp only [hm, readingsSum_const, NUMBER_OF_AVG_SAMPLES]
    norm_num
  · rw [mq2Update_eq]
    simp only [hm2, readingsSum_const, NUMBER_OF_AVG_SAMPLES]
    norm_num

/-- C21 at a concrete pair of ticks: alarm on with gas logged, the gas average
at 0.5 on both ticks, "180" entered and the held key '5' released on the first
tick: the alarm is off after it and on again after the second. -/
theorem rearm_while_gas_persists_witness :
    rearmState.alarmState = true ∧
    (coreTick gasTick rearmState).alarmState = false ∧
    (coreTick gasTick (coreTick gasTick rearmState)).alarmState = true ∧
    storedEvents rearmState = [] ∧
    storedEvents (coreTick gasTick rearmState) =
      lastN 5 (storedEvents rearmState ++
        (if !rearmState.tempLastState &&
            (lm35Update gasTick.lm35Read rearmState).overTempDetector
          then [⟨gasTick.timeTemp, "OVER_TEMP_ON"⟩] else [])) :=
  have h := rearm_while_gas_persists gasTick gasTick rearmState rfl rfl (by decide)
    (by decide) (by decide)
    (by rw [rearmState_gas.1]; simp only [GAS_DETECTION_THRESHOLD]; norm_num)
    (by rw [rearmState_release]; decide)
    (by rw [rearmState_release]; decide) (by decide)
    (by
      rw [rearmState_release]
      intro k h0 h4
      interval_cases k <;> decide)
    (by rw [rearmState_gas.2]; simp only [GAS_DETECTION_THRESHOLD]; norm_num)
  ⟨rfl, h.1, h.2.1, by decide, h.2.2.1⟩

end Task5
